import Mathlib

/-!
# mrcpmod: the session core of the recognition / synthesis plugins

A shallow embedding of `src/recog` and `src/synth`:

* `StdMap` stands for `std::map<string, V>` (the operations the source uses:
  `find`, `erase`, `emplace`, `size`);
* `TencentRecognize` / `TencentSynthesizer` are the operation objects, with the
  vendor session they own recorded as the list of calls it has received;
* `Registry` is the pair of static maps `sChannelIdMap` / `sMap`;
* the functions of `RecogEngine.cpp` are state-passing functions that return the
  new registry and channel together with the messages handed to the protocol
  layer.

Locks and condition variables carry no data; a call that would wait forever on
the condition variable is reported as `ReadStuck.blocked`.
-/

namespace MrcpMod

/-! ## Basic data -/

/-- One `char` of audio or text. -/
abbrev Byte := Fin 256

/-- The map `std::map<string, V>` as the list of its entries.  Only `find`,
`erase`, `emplace` and `size` are used by the source, none of which depends on
the iteration order. -/
abbrev StdMap (V : Type) := List (String × V)

namespace StdMap

/-- The lookup `m.find(k)`: `none` stands for `m.end()`. -/
def find {V : Type} : StdMap V → String → Option V
  | [], _ => none
  | (k', v) :: m, k => if k' = k then some v else find m k

/-- The removal `m.erase(k)`. -/
def erase {V : Type} (m : StdMap V) (k : String) : StdMap V :=
  m.filter (fun p => decide (p.1 ≠ k))

/-- The insertion `m.emplace(k, v)`: inserts only when `k` is absent. -/
def emplace {V : Type} (m : StdMap V) (k : String) (v : V) : StdMap V :=
  match find m k with
  | some _ => m
  | none => m ++ [(k, v)]

/-- The count `m.size()`. -/
def size {V : Type} (m : StdMap V) : Nat := m.length

/-- The keys of the map. -/
def keys {V : Type} (m : StdMap V) : List String := m.map Prod.fst

end StdMap

/-- The configuration file as read by `IniParser::setFileName`: the value stored
under each dotted path `section.name`. -/
structure IniParser where
  mPt : StdMap String
  deriving DecidableEq, Repr

/-- The string overload `IniParser::get(section, name, value)`: the stored value,
or the empty string. -/
def IniParser.get (ini : IniParser) (section_ name : String) : String :=
  (StdMap.find ini.mPt (section_ ++ "." ++ name)).getD ""

/-- The value of `RECOGNIZE_TYPE_TENCENT` and `SYNTHESIZER_TYPE_TENCENT`. -/
def TYPE_TENCENT : String := "tencent"

/-- A `boost::uuids::uuid`: its sixteen octets. -/
structure uuid where
  data : List Byte
  deriving DecidableEq, Repr

/-- One hexadecimal digit. -/
def hexDigit (n : Nat) : Char :=
  if n < 10 then Char.ofNat (48 + n) else Char.ofNat (87 + n)

/-- The two hexadecimal digits of every octet. -/
def hexOctets (bs : List Byte) : List Char :=
  bs.flatMap (fun b => [hexDigit (b.val / 16), hexDigit (b.val % 16)])

/-- The text form `boost::uuids::to_string(u)`: the octets in hexadecimal, with a
dash after the 4th, 6th, 8th and 10th octet. -/
def uuid.to_string (u : uuid) : String :=
  String.mk (hexOctets (u.data.take 4) ++ '-' :: hexOctets ((u.data.drop 4).take 2)
    ++ '-' :: hexOctets ((u.data.drop 6).take 2)
    ++ '-' :: hexOctets ((u.data.drop 8).take 2)
    ++ '-' :: hexOctets ((u.data.drop 10).take 6))

/-! ## Recognition operation (`Recognize`, `TencentRecognize`) -/

/-- The vendor recognition session (`SpeechRecognizer`), an external
collaborator: how it was started and the calls it has received since. -/
structure SpeechRecognizer where
  appId : String
  secretId : String
  secretKey : String
  voiceId : String
  /-- The buffers passed to `Write`, oldest first. -/
  written : List (List Byte)
  /-- The number of `Stop()` calls received. -/
  stopCalls : Nat
  deriving DecidableEq, Repr

/-- The fields of `Recognize` and of its only subclass `TencentRecognize`.
`mRecogChannel` holds the id of the channel pointed to, `none` for `nullptr`;
`mSpeechRecognizer` is `none` while the `unique_ptr` is empty. -/
structure TencentRecognize where
  mRecogChannel : Option String
  mChannelId : String
  mVoiceId : String
  mIsStop : Bool
  mIniParser : IniParser
  mAppId : String
  mSecretId : String
  mSecretKey : String
  mIsPartial : Bool
  mSpeechRecognizer : Option SpeechRecognizer
  deriving DecidableEq, Repr

namespace Recognize

/-- The factory `Recognize::Create(channelId)`; `ini` is the configuration file
it reads and `a_uuid` the value the random generator returns.  `none` stands for
`nullptr`. -/
def Create (ini : IniParser) (a_uuid : uuid) (channelId : String) : Option TencentRecognize :=
  if TYPE_TENCENT = ini.get "generic" "type" then
    some { mRecogChannel := none, mChannelId := channelId, mVoiceId := a_uuid.to_string,
           mIsStop := false, mIniParser := ini, mAppId := "", mSecretId := "",
           mSecretKey := "", mIsPartial := false, mSpeechRecognizer := none }
  else none

/-- The setter `Recognize::setPartial`. -/
def setPartial (r : TencentRecognize) (val : Bool) : TencentRecognize :=
  { r with mIsPartial := val }

/-- The setter `Recognize::setRecogChannel`. -/
def setRecogChannel (r : TencentRecognize) (val : Option String) : TencentRecognize :=
  { r with mRecogChannel := val }

/-- The getter `Recognize::getVoiceId`. -/
def getVoiceId (r : TencentRecognize) : String := r.mVoiceId

/-- The method `Recognize::loadConfig`. -/
def loadConfig (r : TencentRecognize) : TencentRecognize :=
  let type := r.mIniParser.get "generic" "type"
  { r with mAppId := r.mIniParser.get type "appid",
           mSecretId := r.mIniParser.get type "secretid",
           mSecretKey := r.mIniParser.get type "secretkey" }

end Recognize

namespace TencentRecognize

/-- The method `TencentRecognize::init`; `startRet` is what the vendor's
`Start()` returns.  Gives the return value and the object afterwards. -/
def init (r : TencentRecognize) (startRet : Int) : Int × TencentRecognize :=
  let r1 := Recognize.loadConfig r
  let recognizer : SpeechRecognizer :=
    { appId := r1.mAppId, secretId := r1.mSecretId, secretKey := r1.mSecretKey,
      voiceId := r1.mVoiceId, written := [], stopCalls := 0 }
  if startRet < 0 then (-1, r1)
  else (0, { r1 with mSpeechRecognizer := some recognizer })

/-- The method `TencentRecognize::stop`. -/
def stop (r : TencentRecognize) : TencentRecognize :=
  if r.mIsStop then r
  else
    match r.mSpeechRecognizer with
    | some sess =>
      { r with mIsStop := true,
               mSpeechRecognizer := some { sess with stopCalls := sess.stopCalls + 1 } }
    | none => { r with mIsStop := true }

/-- The method `TencentRecognize::write`: the return value and the object
afterwards; `none` when the call dereferences the empty `mSpeechRecognizer`. -/
def write (r : TencentRecognize) (buff : List Byte) : Option (Int × TencentRecognize) :=
  if r.mIsStop then some (0, r)
  else
    match r.mSpeechRecognizer with
    | some sess =>
      some (0, { r with mSpeechRecognizer := some { sess with written := sess.written ++ [buff] } })
    | none => none

/-- The number of `Stop()` calls the vendor session of `r` has received. -/
def vendorStops (r : TencentRecognize) : Nat :=
  match r.mSpeechRecognizer with
  | some sess => sess.stopCalls
  | none => 0

/-- The buffers the vendor session of `r` has received through `Write`. -/
def vendorWrites (r : TencentRecognize) : List (List Byte) :=
  match r.mSpeechRecognizer with
  | some sess => sess.written
  | none => []

end TencentRecognize

/-! ## The registry (`sChannelIdMap`, `sMap`)

`Recognize` and `Synthesizer` carry the same five static functions over their
own pair of maps; `Registry` is that shared code, instantiated below under the
names of the source. -/

/-- The two static maps of `Recognize` (or of `Synthesizer`): channel id to
voice id, and voice id to the shared operation object. -/
structure Registry (Op : Type) where
  sChannelIdMap : StdMap String
  sMap : StdMap Op
  deriving DecidableEq, Repr

/-- What a call of `Del(channelId)` leaves behind: the registry, and the
operations on which it called `stop()`, as they are after the call. -/
structure DelResult (Op : Type) where
  registry : Registry Op
  stopped : List Op
  deriving DecidableEq, Repr

namespace Registry

/-- The registry at process start: both maps empty. -/
def empty {Op : Type} : Registry Op := { sChannelIdMap := [], sMap := [] }

/-- The lookup `GetVoiceId(channelId)`: the empty string when absent. -/
def GetVoiceId {Op : Type} (reg : Registry Op) (channelId : String) : String :=
  match StdMap.find reg.sChannelIdMap channelId with
  | none => ""
  | some v => v

/-- The lookup `GetRecognize(voiceId)` / `GetSynthesizer(voiceId)`: `none` for
`nullptr`. -/
def GetOperation {Op : Type} (reg : Registry Op) (voiceId : String) : Option Op :=
  StdMap.find reg.sMap voiceId

/-- The overload `Del(channelId, voiceId)`. -/
def Del2 {Op : Type} (reg : Registry Op) (channelId voiceId : String) : Registry Op :=
  { sChannelIdMap := StdMap.erase reg.sChannelIdMap channelId,
    sMap := StdMap.erase reg.sMap voiceId }

/-- The overload `Del(channelId)`; `stop` is the virtual `stop()` of the
operation. -/
def Del {Op : Type} (stop : Op → Op) (reg : Registry Op) (channelId : String) : DelResult Op :=
  let voiceId := GetVoiceId reg channelId
  if voiceId = "" then { registry := reg, stopped := [] }
  else
    match GetOperation reg voiceId with
    | none => { registry := Del2 reg channelId voiceId, stopped := [] }
    | some op => { registry := Del2 reg channelId voiceId, stopped := [stop op] }

/-- The function `Set(channelId, val)`; `voiceId` reads `val->mVoiceId`. -/
def Set {Op : Type} (voiceId : Op → String) (reg : Registry Op) (channelId : String)
    (val : Op) : Registry Op :=
  { sChannelIdMap := StdMap.emplace (StdMap.erase reg.sChannelIdMap channelId) channelId (voiceId val),
    sMap := StdMap.emplace (StdMap.erase reg.sMap (voiceId val)) (voiceId val) val }

end Registry

namespace Recognize

/-- The function `Recognize::GetVoiceId`. -/
def GetVoiceId (reg : Registry TencentRecognize) (channelId : String) : String :=
  Registry.GetVoiceId reg channelId

/-- The function `Recognize::GetRecognize`. -/
def GetRecognize (reg : Registry TencentRecognize) (voiceId : String) : Option TencentRecognize :=
  Registry.GetOperation reg voiceId

/-- The function `Recognize::Del(channelId, voiceId)`. -/
def Del2 (reg : Registry TencentRecognize) (channelId voiceId : String) :
    Registry TencentRecognize :=
  Registry.Del2 reg channelId voiceId

/-- The function `Recognize::Del(channelId)`. -/
def Del (reg : Registry TencentRecognize) (channelId : String) : DelResult TencentRecognize :=
  Registry.Del TencentRecognize.stop reg channelId

/-- The function `Recognize::Set`. -/
def Set (reg : Registry TencentRecognize) (channelId : String) (val : TencentRecognize) :
    Registry TencentRecognize :=
  Registry.Set TencentRecognize.mVoiceId reg channelId val

end Recognize

/-! ## Synthesis operation (`Synthesizer`, `TencentSynthesizer`) -/

/-- The vendor synthesis session (`SpeechSynthesizer`), an external
collaborator: how it was started and the `Stop` calls it has received. -/
structure SpeechSynthesizer where
  appId : String
  secretId : String
  secretKey : String
  sessionId : String
  voiceType : Nat
  text : String
  /-- The argument of every `Stop(reason)` call received, oldest first. -/
  stops : List String
  deriving DecidableEq, Repr

/-- The fields of `Synthesizer` and of its only subclass `TencentSynthesizer`;
`mAudioData` is the deque, front first. -/
structure TencentSynthesizer where
  mSynthChannel : Option String
  mChannelId : String
  mVoiceId : String
  mVoiceName : String
  mText : String
  mIsStop : Bool
  mIsEnd : Bool
  mAudioData : List Byte
  mIniParser : IniParser
  mAppId : String
  mSecretId : String
  mSecretKey : String
  mSpeechSynthesizer : Option SpeechSynthesizer
  deriving DecidableEq, Repr

/-- The C locale's `isspace`. -/
def isspace (c : Char) : Bool :=
  c = ' ' || c = '\t' || c = '\n' || c = Char.ofNat 11 || c = Char.ofNat 12 || c = '\r'

/-- The conversion `std::stoul(str)` in base ten: leading white space, an
optional sign, then decimal digits; a minus sign negates modulo `2^64`.  `none`
when it throws (no digit, or a value of `2^64` or more). -/
def stoul (str : String) : Option Nat :=
  let cs := str.toList.dropWhile isspace
  let neg := cs.head? = some '-'
  let cs1 := if cs.head? = some '-' ∨ cs.head? = some '+' then cs.tail else cs
  let ds := cs1.takeWhile Char.isDigit
  let n := ds.foldl (fun a c => 10 * a + (c.toNat - 48)) 0
  if ds = [] then none
  else if 2 ^ 64 ≤ n then none
  else some (if neg then (2 ^ 64 - n) % 2 ^ 64 else n)

/-- The block `160 * 5` of zero bytes that `init` and `onSynthesisEnd` insert. -/
def silence : List Byte := List.replicate (160 * 5) 0

/-- Why a call of `Synthesizer::read` does not return: it waits on the condition
variable with a predicate that is false, or its `memset` is given a negative
size. -/
inductive ReadStuck where
  | blocked
  | undefined
  deriving DecidableEq, Repr

/-- What a returning `Synthesizer::read` leaves: its return value, the caller's
buffer and the object afterwards. -/
structure ReadResult where
  ret : Int
  buff : List Byte
  next : TencentSynthesizer
  deriving DecidableEq, Repr

namespace Synthesizer

/-- The factory `Synthesizer::Create(channelId)`. -/
def Create (ini : IniParser) (a_uuid : uuid) (channelId : String) : Option TencentSynthesizer :=
  if TYPE_TENCENT = ini.get "generic" "type" then
    some { mSynthChannel := none, mChannelId := channelId, mVoiceId := a_uuid.to_string,
           mVoiceName := "", mText := "", mIsStop := false, mIsEnd := false, mAudioData := [],
           mIniParser := ini, mAppId := "", mSecretId := "", mSecretKey := "",
           mSpeechSynthesizer := none }
  else none

/-- The setter `Synthesizer::setSynthChannel`. -/
def setSynthChannel (s : TencentSynthesizer) (val : Option String) : TencentSynthesizer :=
  { s with mSynthChannel := val }

/-- The setter `Synthesizer::setVoiceName`. -/
def setVoiceName (s : TencentSynthesizer) (val : String) : TencentSynthesizer :=
  { s with mVoiceName := val }

/-- The setter `Synthesizer::setText`. -/
def setText (s : TencentSynthesizer) (val : String) : TencentSynthesizer :=
  { s with mText := val }

/-- The getter `Synthesizer::getVoiceId`. -/
def getVoiceId (s : TencentSynthesizer) : String := s.mVoiceId

/-- The method `Synthesizer::loadConfig`. -/
def loadConfig (s : TencentSynthesizer) : TencentSynthesizer :=
  let type := s.mIniParser.get "generic" "type"
  { s with mAppId := s.mIniParser.get type "appid",
           mSecretId := s.mIniParser.get type "secretid",
           mSecretKey := s.mIniParser.get type "secretkey" }

/-- The method `Synthesizer::read(buff, size)`.  The buffer is zeroed, the call
waits until `mIsStop || mIsEnd || mAudioData.size() >= size`, then copies and
removes the first `min size (mAudioData.size())` bytes, or returns `-1` when
that number is not positive. -/
def read (s : TencentSynthesizer) (size : Int) : Except ReadStuck ReadResult :=
  if size < 0 then .error .undefined
  else if ¬ (s.mIsStop = true ∨ s.mIsEnd = true ∨ size ≤ (s.mAudioData.length : Int)) then
    .error .blocked
  else
    let size1 : Int := if (s.mAudioData.length : Int) < size then s.mAudioData.length else size
    if size1 ≤ 0 then .ok { ret := -1, buff := List.replicate size.toNat 0, next := s }
    else
      let vec := s.mAudioData.take size1.toNat
      .ok { ret := 0,
            buff := vec ++ List.replicate (size.toNat - size1.toNat) 0,
            next := { s with mAudioData := s.mAudioData.drop size1.toNat } }

/-- The method `Synthesizer::pushData(data, len)`; `data` is the `len` bytes at
the pointer. -/
def pushData (s : TencentSynthesizer) (data : List Byte) : TencentSynthesizer :=
  if s.mIsStop = true ∨ s.mIsEnd = true then s
  else { s with mAudioData := s.mAudioData ++ data }

/-- The method `Synthesizer::onSynthesisEnd`. -/
def onSynthesisEnd (s : TencentSynthesizer) : TencentSynthesizer :=
  { s with mIsEnd := true, mAudioData := s.mAudioData ++ silence }

end Synthesizer

namespace TencentSynthesizer

/-- The method `TencentSynthesizer::init`; `startRet` is what the vendor's
`Start()` returns. -/
def init (s : TencentSynthesizer) (startRet : Int) : Int × TencentSynthesizer :=
  let s1 := Synthesizer.loadConfig s
  let s2 := { s1 with mAudioData := s1.mAudioData ++ silence }
  let voiceType : Nat := (stoul s2.mVoiceName).getD 1001
  let synthesizer : SpeechSynthesizer :=
    { appId := s2.mAppId, secretId := s2.mSecretId, secretKey := s2.mSecretKey,
      sessionId := s2.mVoiceId, voiceType := voiceType, text := s2.mText, stops := [] }
  if startRet < 0 then (-1, s2)
  else (0, { s2 with mSpeechSynthesizer := some synthesizer })

/-- The method `TencentSynthesizer::stop`. -/
def stop (s : TencentSynthesizer) : TencentSynthesizer :=
  if s.mIsStop then s
  else
    match s.mSpeechSynthesizer with
    | some sess =>
      { s with mIsStop := true,
               mSpeechSynthesizer := some { sess with stops := sess.stops ++ ["user stop"] } }
    | none => { s with mIsStop := true }

/-- The number of `Stop` calls the vendor session of `s` has received. -/
def vendorStops (s : TencentSynthesizer) : Nat :=
  match s.mSpeechSynthesizer with
  | some sess => sess.stops.length
  | none => 0

end TencentSynthesizer

namespace Synthesizer

/-- The function `Synthesizer::GetVoiceId`. -/
def GetVoiceId (reg : Registry TencentSynthesizer) (channelId : String) : String :=
  Registry.GetVoiceId reg channelId

/-- The function `Synthesizer::GetSynthesizer`. -/
def GetSynthesizer (reg : Registry TencentSynthesizer) (voiceId : String) :
    Option TencentSynthesizer :=
  Registry.GetOperation reg voiceId

/-- The function `Synthesizer::Del(channelId, voiceId)`. -/
def Del2 (reg : Registry TencentSynthesizer) (channelId voiceId : String) :
    Registry TencentSynthesizer :=
  Registry.Del2 reg channelId voiceId

/-- The function `Synthesizer::Del(channelId)`. -/
def Del (reg : Registry TencentSynthesizer) (channelId : String) : DelResult TencentSynthesizer :=
  Registry.Del TencentSynthesizer.stop reg channelId

/-- The function `Synthesizer::Set`. -/
def Set (reg : Registry TencentSynthesizer) (channelId : String) (val : TencentSynthesizer) :
    Registry TencentSynthesizer :=
  Registry.Set TencentSynthesizer.mVoiceId reg channelId val

end Synthesizer

/-! ## The recognition plugin (`RecogEngine.cpp`) -/

/-- The message kinds of the protocol layer (`mrcp_message_type_e`). -/
inductive mrcp_message_type_e where
  | MRCP_MESSAGE_TYPE_REQUEST
  | MRCP_MESSAGE_TYPE_RESPONSE
  | MRCP_MESSAGE_TYPE_EVENT
  deriving DecidableEq, Repr

/-- The request states of the protocol layer (`mrcp_request_state_e`). -/
inductive mrcp_request_state_e where
  | MRCP_REQUEST_STATE_COMPLETE
  | MRCP_REQUEST_STATE_INPROGRESS
  | MRCP_REQUEST_STATE_PENDING
  deriving DecidableEq, Repr

/-- The recognizer methods named in the two `switch` statements; every other
method id is `OTHER`. -/
inductive mrcp_recognizer_method_id where
  | RECOGNIZER_SET_PARAMS
  | RECOGNIZER_GET_PARAMS
  | RECOGNIZER_DEFINE_GRAMMAR
  | RECOGNIZER_RECOGNIZE
  | RECOGNIZER_GET_RESULT
  | RECOGNIZER_START_INPUT_TIMERS
  | RECOGNIZER_STOP
  | OTHER (id : Nat)
  deriving DecidableEq, Repr

/-- The recognizer events the plugin raises. -/
inductive mrcp_recognizer_event_id where
  | RECOGNIZER_START_OF_INPUT
  | RECOGNIZER_RECOGNITION_COMPLETE
  deriving DecidableEq, Repr

/-- Modelled from the spec: the completion causes of the protocol layer, whose
declaration (`mrcp_recog_header.h`) is not among the sources; the glossary lists
success, error, no-input-timeout and partial-match. -/
inductive mrcp_recog_completion_cause_e where
  | RECOGNIZER_COMPLETION_CAUSE_SUCCESS
  | RECOGNIZER_COMPLETION_CAUSE_NO_INPUT_TIMEOUT
  | RECOGNIZER_COMPLETION_CAUSE_ERROR
  | RECOGNIZER_COMPLETION_CAUSE_PARTIAL_MATCH
  deriving DecidableEq, Repr

/-- The parts of a protocol message (`mrcp_message_t`) the plugin reads or
writes.  A header field is `none` while its property is not set. -/
structure mrcp_message_t where
  message_type : mrcp_message_type_e
  method_id : mrcp_recognizer_method_id
  event_id : Option mrcp_recognizer_event_id
  request_id : Nat
  request_state : mrcp_request_state_e
  body : String
  content_type : Option String
  completion_cause : Option mrcp_recog_completion_cause_e
  /-- Whether `mrcp_resource_header_get` finds a recognizer header. -/
  has_recog_header : Bool
  start_input_timers : Option Bool
  no_input_timeout : Option Nat
  speech_complete_timeout : Option Nat
  deriving DecidableEq, Repr

/-- What the calls into the protocol layer give back during one step: whether
`mrcp_event_create`, `mrcp_resource_header_prepare` and
`mrcp_generic_header_prepare` return an object, and the status of
`mrcp_engine_channel_message_send`. -/
structure ProtocolLayer where
  event_created : Bool
  resource_header_prepared : Bool
  generic_header_prepared : Bool
  message_sent : Bool
  deriving DecidableEq, Repr

/-- The protocol layer's `mrcp_response_create(request, pool)`: a response to
`request`, complete unless the caller changes its state. -/
def mrcp_response_create (request : mrcp_message_t) : mrcp_message_t :=
  { message_type := .MRCP_MESSAGE_TYPE_RESPONSE, method_id := request.method_id,
    event_id := none, request_id := request.request_id,
    request_state := .MRCP_REQUEST_STATE_COMPLETE, body := "", content_type := none,
    completion_cause := none, has_recog_header := false, start_input_timers := none,
    no_input_timeout := none, speech_complete_timeout := none }

/-- The protocol layer's `mrcp_event_create(request, event_id, pool)`: `none`
when it returns `NULL`. -/
def mrcp_event_create (pl : ProtocolLayer) (request : mrcp_message_t)
    (event_id : mrcp_recognizer_event_id) : Option mrcp_message_t :=
  if pl.event_created then
    some { message_type := .MRCP_MESSAGE_TYPE_EVENT, method_id := request.method_id,
           event_id := some event_id, request_id := request.request_id,
           request_state := .MRCP_REQUEST_STATE_COMPLETE, body := "", content_type := none,
           completion_cause := none, has_recog_header := false, start_input_timers := none,
           no_input_timeout := none, speech_complete_timeout := none }
  else none

/-- The struct `demo_recog_channel_t`; `channel` holds the id of the engine
channel pointed to, the two timeouts are those set on `detector` (`none` while
the detector keeps its own default). -/
structure demo_recog_channel_t where
  channel : String
  recog_request : Option mrcp_message_t
  stop_response : Option mrcp_message_t
  timers_started : Bool
  noinput_timeout : Option Nat
  silence_timeout : Option Nat
  deriving DecidableEq, Repr

/-- The enum `demo_recog_msg_type_e`. -/
inductive demo_recog_msg_type_e where
  | DEMO_RECOG_MSG_OPEN_CHANNEL
  | DEMO_RECOG_MSG_CLOSE_CHANNEL
  | DEMO_RECOG_MSG_REQUEST_PROCESS
  | DEMO_RECOG_MSG_START_OF_INPUT
  | DEMO_RECOG_MSG_COMPLETE
  deriving DecidableEq, Repr

/-- The struct `demo_recog_msg_t`; `channel` holds the id of the engine channel
pointed to, `data` the C string pointed to. -/
structure demo_recog_msg_t where
  type : demo_recog_msg_type_e
  channel : String
  request : Option mrcp_message_t
  cause : mrcp_recog_completion_cause_e
  data : Option String
  deriving DecidableEq, Repr

/-- What the environment supplies while a RECOGNIZE request is processed: whether
`mrcp_engine_sink_stream_codec_get` returns a descriptor, the configuration file,
the generated uuid, the result of the vendor's `Start()`, and the protocol
layer's answers. -/
structure RecogEnv where
  descriptor : Bool
  ini : IniParser
  a_uuid : uuid
  startRet : Int
  pl : ProtocolLayer
  deriving DecidableEq, Repr

/-- The outcome of one plugin function: the registry and the channel afterwards,
the messages passed to `mrcp_engine_channel_message_send` in order, the
operations on which `stop()` was called, the task messages handed to
`demo_recog_msg_signal`, and the return value. -/
structure RecogStep where
  registry : Registry TencentRecognize
  channel : demo_recog_channel_t
  sent : List mrcp_message_t
  stopped : List TencentRecognize
  signaled : List demo_recog_msg_t
  ret : Bool
  deriving DecidableEq, Repr

/-- The channel struct as `demo_recog_engine_channel_create` leaves it
(`timers_started`, which it does not initialise, is taken as `false`). -/
def demo_recog_engine_channel_create (id : String) : demo_recog_channel_t :=
  { channel := id, recog_request := none, stop_response := none, timers_started := false,
    noinput_timeout := none, silence_timeout := none }

/-- The function `demo_recog_result_load`. -/
def demo_recog_result_load (pl : ProtocolLayer) (message : mrcp_message_t) (body : String) :
    Bool × mrcp_message_t :=
  if body = "" then (false, message)
  else
    let message1 := { message with body := body }
    if ¬ pl.generic_header_prepared then (false, message1)
    else (true, { message1 with content_type := some "application/x-nlsml" })

/-- The function `demo_recog_recognition_complete`: the return value, the
channel afterwards and the messages sent. -/
def demo_recog_recognition_complete (pl : ProtocolLayer) (recog_channel : demo_recog_channel_t)
    (cause : mrcp_recog_completion_cause_e) (body : String) :
    Bool × demo_recog_channel_t × List mrcp_message_t :=
  match recog_channel.recog_request with
  | none => (false, recog_channel, [])
  | some recog_request =>
    match mrcp_event_create pl recog_request .RECOGNIZER_RECOGNITION_COMPLETE with
    | none => (false, recog_channel, [])
    | some message =>
      let message1 :=
        if pl.resource_header_prepared then { message with completion_cause := some cause }
        else message
      let message2 := { message1 with request_state := .MRCP_REQUEST_STATE_INPROGRESS }
      let message3 := (demo_recog_result_load pl message2 body).2
      if cause = .RECOGNIZER_COMPLETION_CAUSE_SUCCESS then
        (pl.message_sent, { recog_channel with recog_request := none },
          [{ message3 with request_state := .MRCP_REQUEST_STATE_COMPLETE }])
      else (pl.message_sent, recog_channel, [message3])

/-- The function `demo_recog_channel_recognize`. -/
def demo_recog_channel_recognize (env : RecogEnv) (reg : Registry TencentRecognize)
    (channel : demo_recog_channel_t) (request : mrcp_message_t) : RecogStep :=
  let channelId := channel.channel
  let body := request.body
  let recog_channel := { channel with recog_request := some request }
  let fail : RecogStep :=
    let r := demo_recog_recognition_complete env.pl recog_channel
      .RECOGNIZER_COMPLETION_CAUSE_ERROR ""
    { registry := reg, channel := r.2.1, sent := r.2.2, stopped := [], signaled := [],
      ret := true }
  if ¬ env.descriptor then fail
  else if Recognize.GetVoiceId reg channelId ≠ "" then fail
  else
    match Recognize.Create env.ini env.a_uuid channelId with
    | none => fail
    | some recognize =>
      let recognize1 := Recognize.setRecogChannel recognize (some channelId)
      let recognize2 :=
        if body = "builtin:partial" then Recognize.setPartial recognize1 true else recognize1
      let r := TencentRecognize.init recognize2 env.startRet
      if r.1 < 0 then fail
      else
        let reg1 := Recognize.Set reg channelId r.2
        let recog_channel1 := { recog_channel with timers_started := true }
        let recog_channel2 :=
          if request.has_recog_header then
            { recog_channel1 with
              timers_started := request.start_input_timers.getD recog_channel1.timers_started,
              noinput_timeout :=
                if request.no_input_timeout.isSome then request.no_input_timeout
                else recog_channel1.noinput_timeout,
              silence_timeout :=
                if request.speech_complete_timeout.isSome then request.speech_complete_timeout
                else recog_channel1.silence_timeout }
          else recog_channel1
        { registry := reg1, channel := recog_channel2, sent := [], stopped := [],
          signaled := [], ret := true }

/-- The function `demo_recog_channel_stop`. -/
def demo_recog_channel_stop (reg : Registry TencentRecognize) (channel : demo_recog_channel_t)
    (response : mrcp_message_t) : RecogStep :=
  let d := Recognize.Del reg channel.channel
  { registry := d.registry,
    channel := { channel with stop_response := some response, recog_request := none },
    sent := [], stopped := d.stopped, signaled := [], ret := true }

/-- The function `demo_recog_channel_timers_start`. -/
def demo_recog_channel_timers_start (pl : ProtocolLayer) (reg : Registry TencentRecognize)
    (channel : demo_recog_channel_t) (response : mrcp_message_t) : RecogStep :=
  { registry := reg, channel := { channel with timers_started := true }, sent := [response],
    stopped := [], signaled := [], ret := pl.message_sent }

/-- The function `demo_recog_channel_request_dispatch`. -/
def demo_recog_channel_request_dispatch (env : RecogEnv) (reg : Registry TencentRecognize)
    (channel : demo_recog_channel_t) (request : mrcp_message_t) : RecogStep :=
  let response := mrcp_response_create request
  let unhandled : RecogStep :=
    { registry := reg, channel := channel, sent := [], stopped := [], signaled := [],
      ret := false }
  let r : RecogStep :=
    match request.method_id with
    | .RECOGNIZER_RECOGNIZE => demo_recog_channel_recognize env reg channel request
    | .RECOGNIZER_START_INPUT_TIMERS => demo_recog_channel_timers_start env.pl reg channel response
    | .RECOGNIZER_STOP => demo_recog_channel_stop reg channel response
    | _ => unhandled
  if r.ret = false then { r with sent := r.sent ++ [response], ret := true }
  else { r with ret := true }

/-- The result document that the worker's `sendComplete` wraps around the text. -/
def resultDocument (body : String) : String :=
  "<?xml version=\"1.0\" encoding=\"UTF-8\" ?>\n<result> \n  <interpretation grammar=\"session:default\" confidence=\"0.97\">\n    <instance><nlresult>"
    ++ body ++
  "</nlresult></instance>\n    <input mode=\"speech\"></input>\n  </interpretation>\n</result>"

/-- The worker's `sendComplete(demo_msg)` of `RecogEngine.cpp`. -/
def sendComplete (pl : ProtocolLayer) (reg : Registry TencentRecognize)
    (recog_channel : demo_recog_channel_t) (demo_msg : demo_recog_msg_t) : RecogStep :=
  let cause := demo_msg.cause
  let d : DelResult TencentRecognize :=
    if cause = .RECOGNIZER_COMPLETION_CAUSE_SUCCESS then Recognize.Del reg recog_channel.channel
    else { registry := reg, stopped := [] }
  let body := resultDocument (demo_msg.data.getD "")
  let r := demo_recog_recognition_complete pl recog_channel cause body
  { registry := d.registry, channel := r.2.1, sent := r.2.2, stopped := d.stopped,
    signaled := [], ret := true }

/-- The function `demo_recog_channel_close`. -/
def demo_recog_channel_close (reg : Registry TencentRecognize) (channel : demo_recog_channel_t) :
    RecogStep :=
  let d := Recognize.Del reg channel.channel
  { registry := d.registry, channel := channel, sent := [], stopped := d.stopped,
    signaled := [{ type := .DEMO_RECOG_MSG_CLOSE_CHANNEL, channel := channel.channel,
                   request := none, cause := .RECOGNIZER_COMPLETION_CAUSE_SUCCESS,
                   data := none }],
    ret := true }

/-! ### The recognition plugin over all channels -/

/-- The process-wide state of the recognition plugin: the registry, the channel
structs by channel id, and what has been sent and stopped so far. -/
structure RecogWorld where
  registry : Registry TencentRecognize
  channels : StdMap demo_recog_channel_t
  sent : List (String × mrcp_message_t)
  stopped : List TencentRecognize
  deriving DecidableEq, Repr

/-- An event on a recognition channel: a request handed to the worker's
dispatcher (RECOGNIZE, STOP or any other method), a `DEMO_RECOG_MSG_COMPLETE`
message processed by the worker on the channel it names, or the close of the
channel (`demo_recog_channel_close`). -/
inductive RecogEvent where
  | request (channelId : String) (request : mrcp_message_t) (env : RecogEnv)
  | complete (demo_msg : demo_recog_msg_t) (pl : ProtocolLayer)
  | close (channelId : String)

namespace RecogWorld

/-- The plugin before any channel is opened. -/
def init : RecogWorld := { registry := Registry.empty, channels := [], sent := [], stopped := [] }

/-- The channel struct of `channelId`, freshly created when the id is new. -/
def channelOf (w : RecogWorld) (channelId : String) : demo_recog_channel_t :=
  (StdMap.find w.channels channelId).getD (demo_recog_engine_channel_create channelId)

/-- Stores the outcome of a plugin function run on channel `channelId`. -/
def commit (w : RecogWorld) (channelId : String) (r : RecogStep) : RecogWorld :=
  { registry := r.registry,
    channels := StdMap.emplace (StdMap.erase w.channels channelId) channelId r.channel,
    sent := w.sent ++ r.sent.map (fun m => (channelId, m)),
    stopped := w.stopped ++ r.stopped }

/-- One event, processed by the source function it stands for. -/
def step (w : RecogWorld) : RecogEvent → RecogWorld
  | .request channelId request env =>
    commit w channelId
      (demo_recog_channel_request_dispatch env w.registry (channelOf w channelId) request)
  | .complete demo_msg pl =>
    commit w demo_msg.channel
      (sendComplete pl w.registry (channelOf w demo_msg.channel) demo_msg)
  | .close channelId =>
    commit w channelId (demo_recog_channel_close w.registry (channelOf w channelId))

/-- A sequence of events, processed one after the other. -/
def run (w : RecogWorld) (events : List RecogEvent) : RecogWorld := events.foldl step w

end RecogWorld

/-- The operation ids generated for the RECOGNIZE requests of a sequence of
events, in order. -/
def mintedIds : List RecogEvent → List String
  | [] => []
  | .request _ request env :: es =>
    if request.method_id = .RECOGNIZER_RECOGNIZE then env.a_uuid.to_string :: mintedIds es
    else mintedIds es
  | _ :: es => mintedIds es

/-- The RECOGNITION-COMPLETE event that `demo_recog_recognition_complete` builds
for `request` with cause error and an empty body, when the protocol layer
supplies the event and its header. -/
def errorCompletion (request : mrcp_message_t) : mrcp_message_t :=
  { message_type := .MRCP_MESSAGE_TYPE_EVENT, method_id := request.method_id,
    event_id := some .RECOGNIZER_RECOGNITION_COMPLETE, request_id := request.request_id,
    request_state := .MRCP_REQUEST_STATE_INPROGRESS, body := "", content_type := none,
    completion_cause := some .RECOGNIZER_COMPLETION_CAUSE_ERROR, has_recog_header := false,
    start_input_timers := none, no_input_timeout := none, speech_complete_timeout := none }

/-- Two RECOGNIZE requests processed one after the other on one channel, with
nothing in between: the outcome of the first and of the second. -/
def recognizeTwice (env1 env2 : RecogEnv) (reg : Registry TencentRecognize)
    (channel : demo_recog_channel_t) (request1 request2 : mrcp_message_t) :
    RecogStep × RecogStep :=
  (demo_recog_channel_recognize env1 reg channel request1,
   demo_recog_channel_recognize env2
     (demo_recog_channel_recognize env1 reg channel request1).registry
     (demo_recog_channel_recognize env1 reg channel request1).channel request2)

/-! ## Sequences of calls on one operation -/

/-- A call of a public method of a recognition operation. -/
inductive RecogCall where
  | init (startRet : Int)
  | stop
  | write (buff : List Byte)
  | setPartial (val : Bool)
  | setRecogChannel (val : Option String)
  deriving DecidableEq, Repr

/-- The object after one call; `none` when the call dereferences the empty
`mSpeechRecognizer`. -/
def RecogCall.apply (r : TencentRecognize) : RecogCall → Option TencentRecognize
  | .init startRet => some (TencentRecognize.init r startRet).2
  | .stop => some (TencentRecognize.stop r)
  | .write buff => (TencentRecognize.write r buff).map Prod.snd
  | .setPartial val => some (Recognize.setPartial r val)
  | .setRecogChannel val => some (Recognize.setRecogChannel r val)

/-- The object after a sequence of calls, oldest first. -/
def RecogCall.run : TencentRecognize → List RecogCall → Option TencentRecognize
  | r, [] => some r
  | r, c :: cs => (RecogCall.apply r c).bind (fun r1 => RecogCall.run r1 cs)

/-- A call of a public method of a synthesis operation; the audio thread reads
with the (unsigned) size of its frame. -/
inductive SynthCall where
  | init (startRet : Int)
  | stop
  | read (size : Nat)
  | pushData (data : List Byte)
  | onSynthesisEnd
  | setSynthChannel (val : Option String)
  | setVoiceName (val : String)
  | setText (val : String)
  deriving DecidableEq, Repr

/-- The object after one call; a read that is still waiting has changed
nothing. -/
def SynthCall.apply (s : TencentSynthesizer) : SynthCall → TencentSynthesizer
  | .init startRet => (TencentSynthesizer.init s startRet).2
  | .stop => TencentSynthesizer.stop s
  | .read size =>
    match Synthesizer.read s size with
    | .ok r => r.next
    | .error _ => s
  | .pushData data => Synthesizer.pushData s data
  | .onSynthesisEnd => Synthesizer.onSynthesisEnd s
  | .setSynthChannel val => Synthesizer.setSynthChannel s val
  | .setVoiceName val => Synthesizer.setVoiceName s val
  | .setText val => Synthesizer.setText s val

/-- The object after a sequence of calls, oldest first. -/
def SynthCall.run (s : TencentSynthesizer) (calls : List SynthCall) : TencentSynthesizer :=
  calls.foldl SynthCall.apply s

/-- The calls that are a read, a push or a stop. -/
def SynthCall.isReadPushStop : SynthCall → Bool
  | .read _ => true
  | .pushData _ => true
  | .stop => true
  | _ => false

/-- The bytes a returning read took off the queue: the front part of the old
queue that the new queue no longer has. -/
def dequeued (s : TencentSynthesizer) (r : ReadResult) : List Byte :=
  s.mAudioData.take (s.mAudioData.length - r.next.mAudioData.length)

/-- Successive reads with the given sizes: for each read that returns, its return
value and the bytes it took off the queue; and the object at the end.  A read
that does not return ends the sequence. -/
def pulls : TencentSynthesizer → List Nat → List (Int × List Byte) × TencentSynthesizer
  | s, [] => ([], s)
  | s, n :: ns =>
    match Synthesizer.read s n with
    | .error _ => ([], s)
    | .ok r => ((r.ret, dequeued s r) :: (pulls r.next ns).1, (pulls r.next ns).2)

/-- The bytes taken off the queue by successive reads, concatenated. -/
def delivered (s : TencentSynthesizer) (sizes : List Nat) : List Byte :=
  ((pulls s sizes).1.map Prod.snd).flatten

/-- The chunks pushed one after the other, then `onSynthesisEnd`. -/
def pushAllThenEnd (s : TencentSynthesizer) (chunks : List (List Byte)) : TencentSynthesizer :=
  Synthesizer.onSynthesisEnd (chunks.foldl Synthesizer.pushData s)

/-! ## The audio path and the vendor callbacks of the recognition plugin -/

/-- The media frame `mpf_frame_t`: which bits of `type` are set
(`MEDIA_FRAME_TYPE_AUDIO`, `MEDIA_FRAME_TYPE_VIDEO`, `MEDIA_FRAME_TYPE_EVENT`)
and the `codec_frame.size` bytes of `codec_frame.buffer`. -/
structure mpf_frame_t where
  audio : Bool
  video : Bool
  event : Bool
  buffer : List Byte
  deriving DecidableEq, Repr

/-- The registry after a method call through the shared pointer has changed the
operation stored under `voiceId` into `op`. -/
def Registry.modify {Op : Type} (reg : Registry Op) (voiceId : String) (op : Op) : Registry Op :=
  { reg with sMap := reg.sMap.map (fun p => if p.1 = voiceId then (p.1, op) else p) }

/-- The function `demo_recog_channel_request_process` (control thread);
`signal_status` is what `demo_recog_msg_signal` returns. -/
def demo_recog_channel_request_process (signal_status : Bool)
    (reg : Registry TencentRecognize) (channel : demo_recog_channel_t)
    (request : mrcp_message_t) : RecogStep :=
  let needSendResponse : Bool :=
    match request.method_id with
    | .RECOGNIZER_RECOGNIZE => true
    | _ => false
  let response :=
    { mrcp_response_create request with request_state := .MRCP_REQUEST_STATE_INPROGRESS }
  { registry := reg, channel := channel,
    sent := if needSendResponse = true then [response] else [],
    stopped := [],
    signaled := [{ type := .DEMO_RECOG_MSG_REQUEST_PROCESS, channel := channel.channel,
                   request := some request, cause := .RECOGNIZER_COMPLETION_CAUSE_SUCCESS,
                   data := none }],
    ret := signal_status }

/-- The function `demo_recog_start_of_input`: the return value and the messages
sent; `none` when it dereferences the empty `recog_request`. -/
def demo_recog_start_of_input (pl : ProtocolLayer) (recog_channel : demo_recog_channel_t) :
    Option (Bool × List mrcp_message_t) :=
  match recog_channel.recog_request with
  | none => none
  | some recog_request =>
    match mrcp_event_create pl recog_request .RECOGNIZER_START_OF_INPUT with
    | none => some (false, [])
    | some message =>
      some (pl.message_sent, [{ message with request_state := .MRCP_REQUEST_STATE_INPROGRESS }])

/-- The function `demo_recog_stream_write` (audio thread); `none` when the
operation's `write` dereferences an empty vendor session. -/
def demo_recog_stream_write (reg : Registry TencentRecognize)
    (recog_channel : demo_recog_channel_t) (frame : mpf_frame_t) : Option RecogStep :=
  let unchanged : RecogStep :=
    { registry := reg, channel := recog_channel, sent := [], stopped := [], signaled := [],
      ret := true }
  match recog_channel.stop_response with
  | some stop_response =>
    some { registry := reg, channel := { recog_channel with stop_response := none },
           sent := [stop_response], stopped := [], signaled := [], ret := true }
  | none =>
    if ¬ frame.audio then some unchanged
    else
      let voiceId := Recognize.GetVoiceId reg recog_channel.channel
      if voiceId = "" then some unchanged
      else
        match Recognize.GetRecognize reg voiceId with
        | none => some unchanged
        | some recognize =>
          match TencentRecognize.write recognize frame.buffer with
          | none => none
          | some w => some { unchanged with registry := Registry.modify reg voiceId w.2 }

namespace Recognize

/-- The method `Recognize::sendStartOfInput`: the task message it hands to
`demo_recog_msg_signal`; `none` when `mRecogChannel` is `nullptr`. -/
def sendStartOfInput (r : TencentRecognize) : Option demo_recog_msg_t :=
  match r.mRecogChannel with
  | none => none
  | some channel =>
    some { type := .DEMO_RECOG_MSG_START_OF_INPUT, channel := channel, request := none,
           cause := .RECOGNIZER_COMPLETION_CAUSE_SUCCESS, data := none }

/-- The method `Recognize::sendComplete(text)`: the task message it hands to
`demo_recog_msg_signal`; `none` when `mRecogChannel` is `nullptr`. -/
def sendComplete (r : TencentRecognize) (text : String) : Option demo_recog_msg_t :=
  let text1 := r.mVoiceId ++ "|" ++ text
  let body : Option String := if text1 ≠ "" then some text1 else none
  let cause : mrcp_recog_completion_cause_e :=
    if r.mIsPartial then .RECOGNIZER_COMPLETION_CAUSE_PARTIAL_MATCH
    else .RECOGNIZER_COMPLETION_CAUSE_SUCCESS
  match r.mRecogChannel with
  | none => none
  | some channel =>
    some { type := .DEMO_RECOG_MSG_COMPLETE, channel := channel, request := none,
           cause := cause, data := body }

end Recognize

/-- The vendor's `SpeechRecognitionResponse`: the fields the callbacks use. -/
structure SpeechRecognitionResponse where
  voice_id : String
  voice_text_str : String
  deriving DecidableEq, Repr

/-- What a vendor callback of the recognition plugin leaves: the registry, and the
task messages handed to `demo_recog_msg_signal`. -/
structure RecogCallback where
  registry : Registry TencentRecognize
  signaled : List demo_recog_msg_t
  deriving DecidableEq, Repr

/-- The callback `OnFail` of `TencentRecognize.cpp`; `none` when the operation
found has no channel to signal on. -/
def OnFail (reg : Registry TencentRecognize) (rsp : SpeechRecognitionResponse) :
    Option RecogCallback :=
  match Recognize.GetRecognize reg rsp.voice_id with
  | none => some { registry := reg, signaled := [] }
  | some recognize =>
    (Recognize.sendComplete recognize "").map (fun m => { registry := reg, signaled := [m] })

/-- The callback `OnSentenceBegin` of `TencentRecognize.cpp`. -/
def OnSentenceBegin (reg : Registry TencentRecognize) (rsp : SpeechRecognitionResponse) :
    Option RecogCallback :=
  match Recognize.GetRecognize reg rsp.voice_id with
  | none => some { registry := reg, signaled := [] }
  | some recognize =>
    (Recognize.sendStartOfInput recognize).map (fun m => { registry := reg, signaled := [m] })

/-- The callback `OnSentenceEnd` of `TencentRecognize.cpp`. -/
def OnSentenceEnd (reg : Registry TencentRecognize) (rsp : SpeechRecognitionResponse) :
    Option RecogCallback :=
  match Recognize.GetRecognize reg rsp.voice_id with
  | none => some { registry := reg, signaled := [] }
  | some recognize =>
    (Recognize.sendComplete recognize rsp.voice_text_str).map
      (fun m => { registry := reg, signaled := [m] })

/-- An answer of the plugin to a channel open or close
(`mrcp_engine_channel_open_respond`, `mrcp_engine_channel_close_respond`). -/
inductive channel_respond where
  | open_respond (status : Bool)
  | close_respond
  deriving DecidableEq, Repr

/-- The worker's `demo_recog_msg_process`: the outcome and the open or close
answers given; `none` when `demo_recog_start_of_input` dereferences the empty
`recog_request`. -/
def demo_recog_msg_process (env : RecogEnv) (reg : Registry TencentRecognize)
    (recog_channel : demo_recog_channel_t) (demo_msg : demo_recog_msg_t) :
    Option (RecogStep × List channel_respond) :=
  let unchanged : RecogStep :=
    { registry := reg, channel := recog_channel, sent := [], stopped := [], signaled := [],
      ret := true }
  match demo_msg.type with
  | .DEMO_RECOG_MSG_OPEN_CHANNEL => some (unchanged, [.open_respond true])
  | .DEMO_RECOG_MSG_CLOSE_CHANNEL => some (unchanged, [.close_respond])
  | .DEMO_RECOG_MSG_START_OF_INPUT =>
    (demo_recog_start_of_input env.pl recog_channel).map
      (fun r => ({ unchanged with sent := r.2 }, []))
  | .DEMO_RECOG_MSG_COMPLETE => some (sendComplete env.pl reg recog_channel demo_msg, [])
  | .DEMO_RECOG_MSG_REQUEST_PROCESS =>
    match demo_msg.request with
    | none => none
    | some request =>
      some ({ demo_recog_channel_request_dispatch env reg recog_channel request with
              ret := true }, [])

/-! ## The synthesis plugin (`SynthEngine.cpp`) -/

/-- The synthesizer methods named in the two `switch` statements; every other
method id is `OTHER`. -/
inductive mrcp_synthesizer_method_id where
  | SYNTHESIZER_SET_PARAMS
  | SYNTHESIZER_GET_PARAMS
  | SYNTHESIZER_SPEAK
  | SYNTHESIZER_STOP
  | SYNTHESIZER_PAUSE
  | SYNTHESIZER_RESUME
  | SYNTHESIZER_BARGE_IN_OCCURRED
  | SYNTHESIZER_CONTROL
  | SYNTHESIZER_DEFINE_LEXICON
  | OTHER (id : Nat)
  deriving DecidableEq, Repr

/-- The synthesizer events of the protocol layer; the plugin raises only
SPEAK-COMPLETE. -/
inductive mrcp_synthesizer_event_id where
  | SYNTHESIZER_SPEECH_MARKER
  | SYNTHESIZER_SPEAK_COMPLETE
  deriving DecidableEq, Repr

/-- Modelled from the spec: the completion causes of the synthesizer resource,
whose declaration (`mrcp_synth_header.h`) is not among the sources; the plugin
uses normal and error. -/
inductive mrcp_synth_completion_cause_e where
  | SYNTHESIZER_COMPLETION_CAUSE_NORMAL
  | SYNTHESIZER_COMPLETION_CAUSE_ERROR
  deriving DecidableEq, Repr

/-- The parts of a protocol message (`mrcp_message_t`) of the synthesizer
resource that the plugin reads or writes.  A header field is `none` while its
property is not set. -/
structure mrcp_synth_message_t where
  message_type : mrcp_message_type_e
  method_id : mrcp_synthesizer_method_id
  event_id : Option mrcp_synthesizer_event_id
  request_id : Nat
  request_state : mrcp_request_state_e
  body : String
  completion_cause : Option mrcp_synth_completion_cause_e
  /-- Whether `mrcp_resource_header_get` finds a synthesizer header. -/
  has_synth_header : Bool
  voice_age : Option Nat
  voice_name : Option String
  deriving DecidableEq, Repr

/-- The struct `demo_synth_channel_t`; `channel` holds the id of the engine
channel pointed to. -/
structure demo_synth_channel_t where
  channel : String
  speak_request : Option mrcp_synth_message_t
  stop_response : Option mrcp_synth_message_t
  time_to_complete : Nat
  paused : Bool
  deriving DecidableEq, Repr

/-- The enum `demo_synth_msg_type_e`. -/
inductive demo_synth_msg_type_e where
  | DEMO_SYNTH_MSG_OPEN_CHANNEL
  | DEMO_SYNTH_MSG_CLOSE_CHANNEL
  | DEMO_SYNTH_MSG_REQUEST_PROCESS
  | DEMO_SYNTH_MSG_SEND_COMPLETE
  deriving DecidableEq, Repr

/-- The struct `demo_synth_msg_t`; `channel` holds the id of the engine channel
pointed to. -/
structure demo_synth_msg_t where
  type : demo_synth_msg_type_e
  channel : String
  request : Option mrcp_synth_message_t
  deriving DecidableEq, Repr

/-- What the environment supplies while a SPEAK request is processed: whether
`mrcp_engine_source_stream_codec_get` returns a descriptor, the configuration
file, the generated uuid, the result of the vendor's `Start()`, and the protocol
layer's answers. -/
structure SynthEnv where
  descriptor : Bool
  ini : IniParser
  a_uuid : uuid
  startRet : Int
  pl : ProtocolLayer
  deriving DecidableEq, Repr

/-- The outcome of one function of the synthesis plugin: the registry and the
channel afterwards, the messages passed to `mrcp_engine_channel_message_send` in
order, the operations on which `stop()` was called, the task messages handed to
`demo_synth_msg_signal`, and the return value. -/
structure SynthStep where
  registry : Registry TencentSynthesizer
  channel : demo_synth_channel_t
  sent : List mrcp_synth_message_t
  stopped : List TencentSynthesizer
  signaled : List demo_synth_msg_t
  ret : Bool
  deriving DecidableEq, Repr

/-- The channel struct as `demo_synth_engine_channel_create` leaves it. -/
def demo_synth_engine_channel_create (id : String) : demo_synth_channel_t :=
  { channel := id, speak_request := none, stop_response := none, time_to_complete := 0,
    paused := false }

namespace SynthEngine

/-- The protocol layer's `mrcp_response_create(request, pool)` for a synthesizer
request: a response to `request`, complete unless the caller changes its state. -/
def mrcp_response_create (request : mrcp_synth_message_t) : mrcp_synth_message_t :=
  { message_type := .MRCP_MESSAGE_TYPE_RESPONSE, method_id := request.method_id,
    event_id := none, request_id := request.request_id,
    request_state := .MRCP_REQUEST_STATE_COMPLETE, body := "", completion_cause := none,
    has_synth_header := false, voice_age := none, voice_name := none }

/-- The protocol layer's `mrcp_event_create(request, event_id, pool)` for a
synthesizer request: `none` when it returns `NULL`. -/
def mrcp_event_create (pl : ProtocolLayer) (request : mrcp_synth_message_t)
    (event_id : mrcp_synthesizer_event_id) : Option mrcp_synth_message_t :=
  if pl.event_created then
    some { message_type := .MRCP_MESSAGE_TYPE_EVENT, method_id := request.method_id,
           event_id := some event_id, request_id := request.request_id,
           request_state := .MRCP_REQUEST_STATE_COMPLETE, body := "", completion_cause := none,
           has_synth_header := false, voice_age := none, voice_name := none }
  else none

/-- The function `sendError` of `SynthEngine.cpp`: the channel afterwards and
the messages sent. -/
def sendError (pl : ProtocolLayer) (synth_channel : demo_synth_channel_t) :
    demo_synth_channel_t × List mrcp_synth_message_t :=
  match synth_channel.speak_request with
  | none => (synth_channel, [])
  | some speak_request =>
    match mrcp_event_create pl speak_request .SYNTHESIZER_SPEAK_COMPLETE with
    | none => (synth_channel, [])
    | some message =>
      let message1 :=
        if pl.resource_header_prepared then
          { message with completion_cause := some .SYNTHESIZER_COMPLETION_CAUSE_ERROR }
        else message
      ({ synth_channel with speak_request := none },
        [{ message1 with request_state := .MRCP_REQUEST_STATE_COMPLETE }])

/-- The worker's `sendComplete(demo_msg)` of `SynthEngine.cpp`, run on the channel
the message names. -/
def sendComplete (pl : ProtocolLayer) (reg : Registry TencentSynthesizer)
    (synth_channel : demo_synth_channel_t) : SynthStep :=
  let d := Synthesizer.Del reg synth_channel.channel
  let quiet : SynthStep :=
    { registry := d.registry, channel := synth_channel, sent := [], stopped := d.stopped,
      signaled := [], ret := true }
  match synth_channel.speak_request with
  | none => quiet
  | some speak_request =>
    match mrcp_event_create pl speak_request .SYNTHESIZER_SPEAK_COMPLETE with
    | none => quiet
    | some message =>
      let message1 :=
        if pl.resource_header_prepared then
          { message with completion_cause := some .SYNTHESIZER_COMPLETION_CAUSE_NORMAL }
        else message
      { quiet with
        channel := { synth_channel with speak_request := none },
        sent := [{ message1 with request_state := .MRCP_REQUEST_STATE_COMPLETE }] }

end SynthEngine

/-- The function `demo_synth_channel_speak`. -/
def demo_synth_channel_speak (env : SynthEnv) (reg : Registry TencentSynthesizer)
    (channel : demo_synth_channel_t) (request : mrcp_synth_message_t) : SynthStep :=
  let channelId := channel.channel
  let body := request.body
  let synth_channel := { channel with speak_request := some request }
  let fail : SynthStep :=
    let r := SynthEngine.sendError env.pl synth_channel
    { registry := reg, channel := r.1, sent := r.2, stopped := [], signaled := [], ret := true }
  if ¬ env.descriptor then fail
  else
    let voiceName : String :=
      if request.has_synth_header then request.voice_name.getD "" else ""
    if Synthesizer.GetVoiceId reg channelId ≠ "" then fail
    else
      match Synthesizer.Create env.ini env.a_uuid channelId with
      | none => fail
      | some synthesizer =>
        let synthesizer1 := Synthesizer.setSynthChannel synthesizer (some channelId)
        let synthesizer2 := Synthesizer.setVoiceName synthesizer1 voiceName
        let synthesizer3 := Synthesizer.setText synthesizer2 body
        let r := TencentSynthesizer.init synthesizer3 env.startRet
        if r.1 < 0 then fail
        else
          { registry := Synthesizer.Set reg channelId r.2, channel := synth_channel, sent := [],
            stopped := [], signaled := [], ret := true }

/-- The function `demo_synth_channel_stop`. -/
def demo_synth_channel_stop (reg : Registry TencentSynthesizer) (channel : demo_synth_channel_t)
    (response : mrcp_synth_message_t) : SynthStep :=
  let d := Synthesizer.Del reg channel.channel
  { registry := d.registry,
    channel := { channel with stop_response := some response, speak_request := none },
    sent := [], stopped := d.stopped, signaled := [], ret := true }

/-- The function `demo_synth_channel_pause`. -/
def demo_synth_channel_pause (reg : Registry TencentSynthesizer) (channel : demo_synth_channel_t)
    (response : mrcp_synth_message_t) : SynthStep :=
  { registry := reg, channel := { channel with paused := true }, sent := [response],
    stopped := [], signaled := [], ret := true }

/-- The function `demo_synth_channel_resume`. -/
def demo_synth_channel_resume (reg : Registry TencentSynthesizer) (channel : demo_synth_channel_t)
    (response : mrcp_synth_message_t) : SynthStep :=
  { registry := reg, channel := { channel with paused := false }, sent := [response],
    stopped := [], signaled := [], ret := true }

/-- The function `demo_synth_channel_set_params`. -/
def demo_synth_channel_set_params (reg : Registry TencentSynthesizer)
    (channel : demo_synth_channel_t) (response : mrcp_synth_message_t) : SynthStep :=
  { registry := reg, channel := channel, sent := [response], stopped := [], signaled := [],
    ret := true }

/-- The function `demo_synth_channel_get_params`; `none` when it writes through
the `NULL` that `mrcp_resource_header_prepare` returned. -/
def demo_synth_channel_get_params (pl : ProtocolLayer) (reg : Registry TencentSynthesizer)
    (channel : demo_synth_channel_t) (request response : mrcp_synth_message_t) :
    Option SynthStep :=
  let done (response1 : mrcp_synth_message_t) : SynthStep :=
    { registry := reg, channel := channel, sent := [response1], stopped := [], signaled := [],
      ret := true }
  if request.has_synth_header then
    if request.voice_age.isSome ∨ request.voice_name.isSome then
      if pl.resource_header_prepared then
        let response1 :=
          if request.voice_age.isSome then { response with voice_age := some 25 } else response
        let response2 :=
          if request.voice_name.isSome then { response1 with voice_name := some "David" }
          else response1
        some (done response2)
      else none
    else some (done response)
  else some (done response)

/-- The function `demo_synth_channel_request_dispatch`. -/
def demo_synth_channel_request_dispatch (env : SynthEnv) (reg : Registry TencentSynthesizer)
    (channel : demo_synth_channel_t) (request : mrcp_synth_message_t) : Option SynthStep :=
  let response := SynthEngine.mrcp_response_create request
  let unhandled : SynthStep :=
    { registry := reg, channel := channel, sent := [], stopped := [], signaled := [],
      ret := false }
  let r : Option SynthStep :=
    match request.method_id with
    | .SYNTHESIZER_SET_PARAMS => some (demo_synth_channel_set_params reg channel response)
    | .SYNTHESIZER_GET_PARAMS => demo_synth_channel_get_params env.pl reg channel request response
    | .SYNTHESIZER_SPEAK => some (demo_synth_channel_speak env reg channel request)
    | .SYNTHESIZER_STOP => some (demo_synth_channel_stop reg channel response)
    | .SYNTHESIZER_PAUSE => some (demo_synth_channel_pause reg channel response)
    | .SYNTHESIZER_RESUME => some (demo_synth_channel_resume reg channel response)
    | .SYNTHESIZER_BARGE_IN_OCCURRED => some (demo_synth_channel_stop reg channel response)
    | _ => some unhandled
  r.map (fun r =>
    if r.ret = false then { r with sent := r.sent ++ [response], ret := true }
    else { r with ret := true })

/-- The function `demo_synth_stream_read` (audio thread) with the frame
afterwards; the error is that of the operation's `read` when it does not
return. -/
def demo_synth_stream_read (reg : Registry TencentSynthesizer)
    (synth_channel : demo_synth_channel_t) (frame : mpf_frame_t) :
    Except ReadStuck (SynthStep × mpf_frame_t) :=
  let unchanged : SynthStep :=
    { registry := reg, channel := synth_channel, sent := [], stopped := [], signaled := [],
      ret := true }
  match synth_channel.stop_response with
  | some stop_response =>
    .ok ({ registry := reg,
           channel := { synth_channel with stop_response := none, paused := false },
           sent := [stop_response], stopped := [], signaled := [], ret := true }, frame)
  | none =>
    if synth_channel.paused = true then .ok (unchanged, frame)
    else
      let voiceId := Synthesizer.GetVoiceId reg synth_channel.channel
      if voiceId = "" then .ok (unchanged, frame)
      else
        match Synthesizer.GetSynthesizer reg voiceId with
        | none => .ok (unchanged, frame)
        | some synthesizer =>
          match Synthesizer.read synthesizer (frame.buffer.length : Int) with
          | .error e => .error e
          | .ok r =>
            .ok ({ unchanged with
                   registry := Registry.modify reg voiceId r.next,
                   signaled :=
                     if r.ret < 0 then
                       [{ type := .DEMO_SYNTH_MSG_SEND_COMPLETE, channel := synth_channel.channel,
                          request := none }]
                     else [] },
                 { frame with audio := true, buffer := r.buff })

/-- The vendor's `SpeechSynthesisResponse`: the fields the callbacks use. -/
structure SpeechSynthesisResponse where
  session_id : String
  data : List Byte
  deriving DecidableEq, Repr

/-- The callback `OnSynthesisFail` of `TencentSynthesizer.cpp`: the registry
afterwards (the callbacks of the synthesis plugin signal nothing). -/
def OnSynthesisFail (reg : Registry TencentSynthesizer) (rsp : SpeechSynthesisResponse) :
    Registry TencentSynthesizer :=
  match Synthesizer.GetSynthesizer reg rsp.session_id with
  | none => reg
  | some synthesizer =>
    Registry.modify reg rsp.session_id (Synthesizer.onSynthesisEnd synthesizer)

/-- The callback `OnAudioResult` of `TencentSynthesizer.cpp`. -/
def OnAudioResult (reg : Registry TencentSynthesizer) (rsp : SpeechSynthesisResponse) :
    Registry TencentSynthesizer :=
  match Synthesizer.GetSynthesizer reg rsp.session_id with
  | none => reg
  | some synthesizer =>
    Registry.modify reg rsp.session_id (Synthesizer.pushData synthesizer rsp.data)

/-- The callback `OnSynthesisEnd` of `TencentSynthesizer.cpp`. -/
def OnSynthesisEnd (reg : Registry TencentSynthesizer) (rsp : SpeechSynthesisResponse) :
    Registry TencentSynthesizer :=
  match Synthesizer.GetSynthesizer reg rsp.session_id with
  | none => reg
  | some synthesizer =>
    let synthesizer1 :=
      if 0 < rsp.data.length then Synthesizer.pushData synthesizer rsp.data else synthesizer
    Registry.modify reg rsp.session_id (Synthesizer.onSynthesisEnd synthesizer1)

/-- The worker's `demo_synth_msg_process`: the outcome and the open or close
answers given; `none` when the dispatcher fails or dereferences an empty
request. -/
def demo_synth_msg_process (env : SynthEnv) (reg : Registry TencentSynthesizer)
    (synth_channel : demo_synth_channel_t) (demo_msg : demo_synth_msg_t) :
    Option (SynthStep × List channel_respond) :=
  let unchanged : SynthStep :=
    { registry := reg, channel := synth_channel, sent := [], stopped := [], signaled := [],
      ret := true }
  match demo_msg.type with
  | .DEMO_SYNTH_MSG_OPEN_CHANNEL => some (unchanged, [.open_respond true])
  | .DEMO_SYNTH_MSG_CLOSE_CHANNEL => some (unchanged, [.close_respond])
  | .DEMO_SYNTH_MSG_SEND_COMPLETE => some (SynthEngine.sendComplete env.pl reg synth_channel, [])
  | .DEMO_SYNTH_MSG_REQUEST_PROCESS =>
    match demo_msg.request with
    | none => none
    | some request =>
      (demo_synth_channel_request_dispatch env reg synth_channel request).map (fun r => (r, []))

/-- Successive calls of `demo_recog_stream_write`, one for each frame: the state
after the last one and all the messages sent, in order; `none` as soon as one of
the calls fails. -/
def recogTicks : Registry TencentRecognize → demo_recog_channel_t → List mpf_frame_t →
    Option RecogStep
  | reg, recog_channel, [] =>
    some { registry := reg, channel := recog_channel, sent := [], stopped := [],
           signaled := [], ret := true }
  | reg, recog_channel, frame :: frames =>
    (demo_recog_stream_write reg recog_channel frame).bind (fun r =>
      (recogTicks r.registry r.channel frames).map (fun r2 =>
        { r2 with sent := r.sent ++ r2.sent }))

/-- The responses among the messages sent for one request: by
`demo_recog_channel_request_process`, then by the worker's
`demo_recog_channel_request_dispatch`, then, for a STOP request, by the audio
tick that follows. -/
def recogResponses (signal_status : Bool) (env : RecogEnv) (reg : Registry TencentRecognize)
    (channel : demo_recog_channel_t) (request : mrcp_message_t) (frame : mpf_frame_t) :
    List mrcp_message_t :=
  let p := demo_recog_channel_request_process signal_status reg channel request
  let d := demo_recog_channel_request_dispatch env p.registry p.channel request
  let t : List mrcp_message_t :=
    if request.method_id = .RECOGNIZER_STOP then
      match demo_recog_stream_write d.registry d.channel frame with
      | some t => t.sent
      | none => []
    else []
  (p.sent ++ d.sent ++ t).filter
    (fun m => decide (m.message_type = .MRCP_MESSAGE_TYPE_RESPONSE))

/-- The methods that neither `switch` of the recognition plugin handles. -/
def unhandledMethod : mrcp_recognizer_method_id → Bool
  | .RECOGNIZER_RECOGNIZE => false
  | .RECOGNIZER_START_INPUT_TIMERS => false
  | .RECOGNIZER_STOP => false
  | _ => true

/-- A failed start: the outcome of `demo_recog_channel_recognize` on every path
that ends in the error completion. -/
def recognizeFailed (env : RecogEnv) (reg : Registry TencentRecognize)
    (channel : demo_recog_channel_t) (request : mrcp_message_t) : RecogStep :=
  { registry := reg,
    channel := (demo_recog_recognition_complete env.pl { channel with recog_request := some request }
      .RECOGNIZER_COMPLETION_CAUSE_ERROR "").2.1,
    sent := (demo_recog_recognition_complete env.pl { channel with recog_request := some request }
      .RECOGNIZER_COMPLETION_CAUSE_ERROR "").2.2,
    stopped := [], signaled := [], ret := true }

/-- The SPEAK-COMPLETE event that `sendError` and the worker's `sendComplete` of
the synthesis plugin build for `request` with the given cause, when the protocol
layer supplies the event and its header. -/
def speakCompletion (request : mrcp_synth_message_t) (cause : mrcp_synth_completion_cause_e) :
    mrcp_synth_message_t :=
  { message_type := .MRCP_MESSAGE_TYPE_EVENT, method_id := request.method_id,
    event_id := some .SYNTHESIZER_SPEAK_COMPLETE, request_id := request.request_id,
    request_state := .MRCP_REQUEST_STATE_COMPLETE, body := "", completion_cause := some cause,
    has_synth_header := false, voice_age := none, voice_name := none }

/-- The RECOGNITION-COMPLETE event that the worker's `sendComplete` of the
recognition plugin builds for `request` from a completion message with the given
cause and text, when the protocol layer supplies the event and its headers. -/
def recognitionCompletion (request : mrcp_message_t) (cause : mrcp_recog_completion_cause_e)
    (text : String) : mrcp_message_t :=
  { message_type := .MRCP_MESSAGE_TYPE_EVENT, method_id := request.method_id,
    event_id := some .RECOGNIZER_RECOGNITION_COMPLETE, request_id := request.request_id,
    request_state :=
      if cause = .RECOGNIZER_COMPLETION_CAUSE_SUCCESS then .MRCP_REQUEST_STATE_COMPLETE
      else .MRCP_REQUEST_STATE_INPROGRESS,
    body := resultDocument text, content_type := some "application/x-nlsml",
    completion_cause := some cause, has_recog_header := false, start_input_timers := none,
    no_input_timeout := none, speech_complete_timeout := none }

/-- The invariant of the registry in its plain form: both maps have the same
size, and the voice id of every channel resolves in the operation map. -/
def registryInvariant {Op : Type} (reg : Registry Op) : Prop :=
  StdMap.size reg.sChannelIdMap = StdMap.size reg.sMap ∧
  ∀ c v, StdMap.find reg.sChannelIdMap c = some v → (Registry.GetOperation reg v).isSome = true

/-- The worker of the synthesis plugin processing the task messages of one
channel one after the other: the state after the last one, with all the messages
sent and all the operations stopped on the way, in order; `none` as soon as the
processing of one message fails. -/
def synthRun (env : SynthEnv) : Registry TencentSynthesizer → demo_synth_channel_t →
    List demo_synth_msg_t → Option SynthStep
  | reg, synth_channel, [] =>
    some { registry := reg, channel := synth_channel, sent := [], stopped := [],
           signaled := [], ret := true }
  | reg, synth_channel, demo_msg :: msgs =>
    (demo_synth_msg_process env reg synth_channel demo_msg).bind (fun r =>
      (synthRun env r.1.registry r.1.channel msgs).map (fun r2 =>
        { r2 with sent := r.1.sent ++ r2.sent, stopped := r.1.stopped ++ r2.stopped }))

/-! ## Sample data -/

/-- A configuration file that selects the Tencent engine. -/
def demoIni : IniParser :=
  { mPt := [("generic.type", "tencent"), ("tencent.appid", "1300000000"),
            ("tencent.secretid", "id"), ("tencent.secretkey", "key")] }

/-- An environment in which every collaborator succeeds; `u` is the generated
uuid. -/
def demoEnv (u : List Byte) : RecogEnv :=
  { descriptor := true, ini := demoIni, a_uuid := { data := u }, startRet := 0,
    pl := { event_created := true, resource_header_prepared := true,
            generic_header_prepared := true, message_sent := true } }

/-- A request of method `method_id` with the given id and body. -/
def demoRequest (method_id : mrcp_recognizer_method_id) (request_id : Nat) (body : String) :
    mrcp_message_t :=
  { message_type := .MRCP_MESSAGE_TYPE_REQUEST, method_id := method_id, event_id := none,
    request_id := request_id, request_state := .MRCP_REQUEST_STATE_PENDING, body := body,
    content_type := none, completion_cause := none, has_recog_header := false,
    start_input_timers := none, no_input_timeout := none, speech_complete_timeout := none }

/-- A completion message with cause success, as `Recognize::sendComplete` signals it. -/
def demoComplete (channelId : String) (data : String) : demo_recog_msg_t :=
  { type := .DEMO_RECOG_MSG_COMPLETE, channel := channelId, request := none,
    cause := .RECOGNIZER_COMPLETION_CAUSE_SUCCESS, data := some data }

/-- Two channels: a start on each, a second start on the first, then a stop, a
completion, a new start and a close. -/
def demoEvents : List RecogEvent :=
  [ .request "ch1" (demoRequest .RECOGNIZER_RECOGNIZE 1 "") (demoEnv [1]),
    .request "ch1" (demoRequest .RECOGNIZER_RECOGNIZE 2 "") (demoEnv [2]),
    .request "ch2" (demoRequest .RECOGNIZER_RECOGNIZE 1 "builtin:partial") (demoEnv [3]),
    .request "ch1" (demoRequest .RECOGNIZER_STOP 3 "") (demoEnv [4]),
    .complete (demoComplete "ch2" "x|hello") (demoEnv []).pl,
    .request "ch1" (demoRequest .RECOGNIZER_RECOGNIZE 4 "") (demoEnv [5]),
    .close "ch2" ]

/-- A registry in which channel `ch1` is active. -/
def demoActive : Registry TencentRecognize :=
  (demo_recog_channel_recognize (demoEnv [1]) Registry.empty
    (demo_recog_engine_channel_create "ch1") (demoRequest .RECOGNIZER_RECOGNIZE 1 "")).registry

/-- A recognition operation whose vendor session is started. -/
def demoRecognize : TencentRecognize :=
  (TencentRecognize.init
    { mRecogChannel := some "ch1", mChannelId := "ch1", mVoiceId := "v1", mIsStop := false,
      mIniParser := demoIni, mAppId := "", mSecretId := "", mSecretKey := "",
      mIsPartial := false, mSpeechRecognizer := none } 0).2

/-- A synthesis operation with an empty queue, neither stopped nor ended, whose
vendor session is recorded as started. -/
def demoSynthesizer : TencentSynthesizer :=
  { mSynthChannel := some "ch1", mChannelId := "ch1", mVoiceId := "v1", mVoiceName := "1001",
    mText := "hello", mIsStop := false, mIsEnd := false, mAudioData := [],
    mIniParser := demoIni, mAppId := "1300000000", mSecretId := "id", mSecretKey := "key",
    mSpeechSynthesizer :=
      some { appId := "1300000000", secretId := "id", secretKey := "key", sessionId := "v1",
             voiceType := 1001, text := "hello", stops := [] } }

/-- A synthesis operation with three bytes queued. -/
def demoQueued : TencentSynthesizer := { demoSynthesizer with mAudioData := [1, 2, 3] }

/-- The buffer of scenario B: `"abc"` and `"de"` pushed, then the end signalled. -/
def scenarioB : TencentSynthesizer :=
  pushAllThenEnd demoSynthesizer [[97, 98, 99], [100, 101]]

/-- A recognition registry with `ch1` mapped to the started operation `v1`. -/
def demoRecogRegistry : Registry TencentRecognize :=
  Recognize.Set Registry.empty "ch1" demoRecognize

/-- A synthesis registry with `ch1` mapped to the operation `v1`. -/
def demoSynthRegistry : Registry TencentSynthesizer :=
  Synthesizer.Set Registry.empty "ch1" demoSynthesizer

/-- An environment of the synthesis plugin in which every collaborator
succeeds; `u` is the generated uuid. -/
def demoSynthEnv (u : List Byte) : SynthEnv :=
  { descriptor := true, ini := demoIni, a_uuid := { data := u }, startRet := 0,
    pl := { event_created := true, resource_header_prepared := true,
            generic_header_prepared := true, message_sent := true } }

/-- A synthesizer request of method `method_id` with the given id and body. -/
def demoSynthRequest (method_id : mrcp_synthesizer_method_id) (request_id : Nat)
    (body : String) : mrcp_synth_message_t :=
  { message_type := .MRCP_MESSAGE_TYPE_REQUEST, method_id := method_id, event_id := none,
    request_id := request_id, request_state := .MRCP_REQUEST_STATE_PENDING, body := body,
    completion_cause := none, has_synth_header := false, voice_age := none,
    voice_name := none }

/-- The recognition channel `ch1` with its RECOGNIZE request in progress. -/
def demoRecogChannel : demo_recog_channel_t :=
  { demo_recog_engine_channel_create "ch1" with
    recog_request := some (demoRequest .RECOGNIZER_RECOGNIZE 1 "") }

/-- The synthesis channel `ch1` with its SPEAK request in progress. -/
def demoSynthChannel : demo_synth_channel_t :=
  { demo_synth_engine_channel_create "ch1" with
    speak_request := some (demoSynthRequest .SYNTHESIZER_SPEAK 1 "hello") }

/-- An audio frame of four bytes. -/
def demoFrame : mpf_frame_t := { audio := true, video := false, event := false, buffer := [1, 2, 3, 4] }

/-- The vendor's failure report for the recognition operation `v1`. -/
def demoFailure : SpeechRecognitionResponse := { voice_id := "v1", voice_text_str := "" }

/-- The completion message that `OnFail` signals for the operation `v1` of
channel `ch1`. -/
def demoFailureMsg : demo_recog_msg_t :=
  { type := .DEMO_RECOG_MSG_COMPLETE, channel := "ch1", request := none,
    cause := .RECOGNIZER_COMPLETION_CAUSE_SUCCESS, data := some "v1|" }

/-- The vendor's failure report for the synthesis operation `v1`. -/
def demoSynthFailure : SpeechSynthesisResponse := { session_id := "v1", data := [] }

/-- An audio frame of `n` bytes to be filled by the synthesis plugin. -/
def demoSynthFrame (n : Nat) : mpf_frame_t :=
  { audio := false, video := false, event := false, buffer := List.replicate n 0 }

/-- The registry of the synthesis plugin after the vendor reported the failure of
`v1` and the audio thread has read the 800 bytes of closing silence. -/
def demoFailedDrained : Registry TencentSynthesizer :=
  match demo_synth_stream_read (OnSynthesisFail demoSynthRegistry demoSynthFailure)
      demoSynthChannel (demoSynthFrame 800) with
  | .ok r => r.1.registry
  | .error _ => demoSynthRegistry

/-- The outcome of an accepted RECOGNIZE request with body `builtin:partial` on
the fresh channel `ch1`. -/
def demoPartialStep : RecogStep :=
  demo_recog_channel_recognize (demoEnv [1]) Registry.empty
    (demo_recog_engine_channel_create "ch1") (demoRequest .RECOGNIZER_RECOGNIZE 1 "builtin:partial")

/-- The completion message that the operation registered by `demoPartialStep`
signals for the text `hello`. -/
def demoPartialMsg : demo_recog_msg_t :=
  { type := .DEMO_RECOG_MSG_COMPLETE, channel := "ch1", request := none,
    cause := .RECOGNIZER_COMPLETION_CAUSE_PARTIAL_MATCH,
    data := some ((demoEnv [1]).a_uuid.to_string ++ "|hello") }

/-- A second recognition operation, `v2`, made for channel `ch1`. -/
def demoRecognize2 : TencentRecognize := { demoRecognize with mVoiceId := "v2" }

/-- A registry in which two channels share the voice id `v1` while the operation
`v2` belongs to no channel: both maps have two entries and every channel
resolves. -/
def demoShared : Registry TencentRecognize :=
  { sChannelIdMap := [("ch1", "v1"), ("ch2", "v1")],
    sMap := [("v1", demoRecognize), ("v2", demoRecognize2)] }

/-- The completion message that the running operation `v1` of channel `ch1`
signals for the text `hello`. -/
def demoFirstDone : demo_recog_msg_t := demoComplete "ch1" "v1|hello"

/-- A recognition registry in which `ch1` is mapped to the newer operation `v2`. -/
def demoNewerRegistry : Registry TencentRecognize :=
  Recognize.Set Registry.empty "ch1" demoRecognize2

/-- The start-of-input message that `OnSentenceBegin` signals for channel `ch1`. -/
def demoStartOfInput : demo_recog_msg_t :=
  { type := .DEMO_RECOG_MSG_START_OF_INPUT, channel := "ch1", request := none,
    cause := .RECOGNIZER_COMPLETION_CAUSE_SUCCESS, data := none }

/-- The channel `ch1` after the worker has processed a STOP request on it. -/
def demoStopped : RecogStep :=
  demo_recog_channel_request_dispatch (demoEnv []) demoRecogRegistry demoRecogChannel
    (demoRequest .RECOGNIZER_STOP 2 "")

/-- The task message that `demo_synth_stream_read` signals for channel `ch1`
when a read returns -1. -/
def demoSendComplete : demo_synth_msg_t :=
  { type := .DEMO_SYNTH_MSG_SEND_COMPLETE, channel := "ch1", request := none }

/-- A synthesis registry with `ch1` mapped to the running operation that has
three bytes queued. -/
def demoQueuedRegistry : Registry TencentSynthesizer :=
  Synthesizer.Set Registry.empty "ch1" demoQueued

/-- A synthesis operation as `Synthesizer::Create` and the setters of
`demo_synth_channel_speak` leave it, before `init()`. -/
def demoCreated : TencentSynthesizer :=
  { mSynthChannel := some "ch1", mChannelId := "ch1", mVoiceId := "v1", mVoiceName := "",
    mText := "hello", mIsStop := false, mIsEnd := false, mAudioData := [],
    mIniParser := demoIni, mAppId := "", mSecretId := "", mSecretKey := "",
    mSpeechSynthesizer := none }

/-! # Theorems

## Facts about `StdMap` -/

namespace StdMap

theorem find_some_mem {V : Type} {m : StdMap V} {k : String} {v : V}
    (h : find m k = some v) : (k, v) ∈ m := by
  induction m with
  | nil => simp [find] at h
  | cons p m ih =>
    obtain ⟨k', v'⟩ := p
    by_cases hk : k' = k
    · subst hk
      simp [find] at h
      simp [h]
    · simp [find, hk] at h
      exact List.mem_cons_of_mem _ (ih h)

theorem find_eq_none_iff {V : Type} {m : StdMap V} {k : String} :
    find m k = none ↔ k ∉ keys m := by
  induction m with
  | nil => simp [find, keys]
  | cons p m ih =>
    obtain ⟨k', v'⟩ := p
    by_cases hk : k' = k
    · subst hk
      simp [find, keys]
    · have hk2 : ¬ k = k' := fun e => hk e.symm
      simp only [keys] at ih
      simp [find, keys, hk, hk2, ih]

theorem mem_find_of_nodup {V : Type} {m : StdMap V} {k : String} {v : V}
    (hn : (keys m).Nodup) (h : (k, v) ∈ m) : find m k = some v := by
  induction m with
  | nil => simp at h
  | cons p m ih =>
    obtain ⟨k', v'⟩ := p
    simp only [keys, List.map_cons, List.nodup_cons] at hn
    rcases List.mem_cons.mp h with heq | hmem
    · cases heq
      simp [find]
    · have hne : k' ≠ k := by
        intro e
        subst e
        exact hn.1 (List.mem_map.mpr ⟨(k', v), hmem, rfl⟩)
      simp only [find, hne, if_false]
      exact ih hn.2 hmem

theorem mem_erase {V : Type} {m : StdMap V} {k : String} {p : String × V} :
    p ∈ erase m k ↔ p ∈ m ∧ p.1 ≠ k := by
  simp [erase, List.mem_filter]

theorem find_erase_self {V : Type} (m : StdMap V) (k : String) : find (erase m k) k = none := by
  rw [find_eq_none_iff]
  intro h
  obtain ⟨p, hp, hk⟩ := List.mem_map.mp h
  exact (mem_erase.mp hp).2 hk

theorem find_erase_ne {V : Type} (m : StdMap V) {k k' : String} (h : k' ≠ k) :
    find (erase m k) k' = find m k' := by
  induction m with
  | nil => simp [erase, find]
  | cons p m ih =>
    obtain ⟨a, v⟩ := p
    by_cases ha : a = k
    · subst ha
      have hne : ¬ a = k' := fun e => h e.symm
      have : erase ((a, v) :: m) a = erase m a := by simp [erase]
      rw [this, ih]
      simp [find, hne]
    · have : erase ((a, v) :: m) k = (a, v) :: erase m k := by simp [erase, ha]
      rw [this]
      simp only [find, ih]

theorem erase_sublist {V : Type} (m : StdMap V) (k : String) : List.Sublist (erase m k) m :=
  List.filter_sublist m

theorem keys_erase_nodup {V : Type} {m : StdMap V} (k : String) (h : (keys m).Nodup) :
    (keys (erase m k)).Nodup :=
  List.Nodup.sublist ((erase_sublist m k).map Prod.fst) h

theorem erase_of_not_mem {V : Type} {m : StdMap V} {k : String} (h : k ∉ keys m) :
    erase m k = m := by
  apply List.filter_eq_self.mpr
  intro p hp
  simp only [decide_eq_true_eq]
  intro e
  exact h (List.mem_map.mpr ⟨p, hp, e⟩)

theorem erase_erase {V : Type} (m : StdMap V) (k : String) : erase (erase m k) k = erase m k := by
  simp [erase, List.filter_filter]

theorem find_append_of_none {V : Type} {m l : StdMap V} {k : String} (h : find m k = none) :
    find (m ++ l) k = find l k := by
  induction m with
  | nil => rfl
  | cons p m ih =>
    obtain ⟨k', v'⟩ := p
    by_cases hk : k' = k
    · subst hk
      simp [find] at h
    · simp only [find, hk, if_false] at h
      simp only [List.cons_append, find, hk, if_false]
      exact ih h

theorem find_emplace_erase_self {V : Type} (m : StdMap V) (k : String) (v : V) :
    find (emplace (erase m k) k v) k = some v := by
  have h := find_erase_self m k
  simp only [emplace, h]
  rw [find_append_of_none h]
  simp [find]

theorem emplace_of_not_mem {V : Type} {m : StdMap V} {k : String} (v : V) (h : k ∉ keys m) :
    emplace m k v = m ++ [(k, v)] := by
  have : find m k = none := find_eq_none_iff.mpr h
  simp [emplace, this]

end StdMap

/-- In a list whose images under `f` are pairwise distinct, the elements sharing
one image are at most one. -/
theorem length_le_one_of_nodup_map {α β : Type} (f : α → β) (l : List α)
    (hn : (l.map f).Nodup) (hall : ∀ x ∈ l, ∀ y ∈ l, f x = f y) : l.length ≤ 1 := by
  match l, hn, hall with
  | [], _, _ => simp
  | [_], _, _ => simp
  | a :: b :: t, hn, hall =>
    exfalso
    have hab : f a = f b := hall a (by simp) b (by simp)
    simp only [List.map_cons, List.nodup_cons, List.mem_cons] at hn
    exact hn.1 (Or.inl hab)

/-! ## The registry invariant -/

/-- The invariant of the two maps: keys are unique, the voice ids held by
`sChannelIdMap` are pairwise distinct, non-empty and exactly the keys of `sMap`,
and every operation of `sMap` is the one its own channel (`chanOf`) maps to. -/
structure RegInv {Op : Type} (chanOf : Op → String) (reg : Registry Op) : Prop where
  chanKeys : (StdMap.keys reg.sChannelIdMap).Nodup
  opKeys : (StdMap.keys reg.sMap).Nodup
  chanVals : (reg.sChannelIdMap.map Prod.snd).Nodup
  same : ∀ v, v ∈ reg.sChannelIdMap.map Prod.snd ↔ v ∈ StdMap.keys reg.sMap
  nonempty : "" ∉ reg.sChannelIdMap.map Prod.snd
  owner : ∀ p ∈ reg.sMap, (chanOf p.2, p.1) ∈ reg.sChannelIdMap

namespace RegInv

theorem inv_empty {Op : Type} (chanOf : Op → String) : RegInv chanOf (Registry.empty : Registry Op) := by
  constructor <;> simp [Registry.empty, StdMap.keys]

theorem inv_del2 {Op : Type} {chanOf : Op → String} {reg : Registry Op} (h : RegInv chanOf reg)
    {c v : String} (hc : StdMap.find reg.sChannelIdMap c = some v) :
    RegInv chanOf (Registry.Del2 reg c v) := by
  have hcv : (c, v) ∈ reg.sChannelIdMap := StdMap.find_some_mem hc
  have hinj := List.inj_on_of_nodup_map h.chanVals
  constructor
  · exact StdMap.keys_erase_nodup c h.chanKeys
  · exact StdMap.keys_erase_nodup v h.opKeys
  · exact List.Nodup.sublist ((StdMap.erase_sublist reg.sChannelIdMap c).map Prod.snd) h.chanVals
  · intro v'
    simp only [Registry.Del2, StdMap.keys, List.mem_map]
    constructor
    · rintro ⟨p, hp, rfl⟩
      obtain ⟨hpm, hpc⟩ := StdMap.mem_erase.mp hp
      have hk : p.2 ∈ StdMap.keys reg.sMap := (h.same p.2).mp (List.mem_map.mpr ⟨p, hpm, rfl⟩)
      obtain ⟨q, hq, hq1⟩ := List.mem_map.mp hk
      refine ⟨q, StdMap.mem_erase.mpr ⟨hq, ?_⟩, hq1⟩
      intro e
      have : p = (c, v) := hinj hpm hcv (by rw [← hq1]; exact e)
      exact hpc (by rw [this])
    · rintro ⟨q, hq, rfl⟩
      obtain ⟨hqm, hqv⟩ := StdMap.mem_erase.mp hq
      have hv : q.1 ∈ reg.sChannelIdMap.map Prod.snd :=
        (h.same q.1).mpr (List.mem_map.mpr ⟨q, hqm, rfl⟩)
      obtain ⟨p, hp, hp2⟩ := List.mem_map.mp hv
      refine ⟨p, StdMap.mem_erase.mpr ⟨hp, ?_⟩, hp2⟩
      intro e
      have hp' : (c, q.1) ∈ reg.sChannelIdMap := by
        have : p = (c, q.1) := Prod.ext e hp2
        rw [← this]; exact hp
      have := StdMap.mem_find_of_nodup h.chanKeys hp'
      rw [hc] at this
      exact hqv (Option.some.inj this).symm
  · intro hmem
    exact h.nonempty
      (((StdMap.erase_sublist reg.sChannelIdMap c).map Prod.snd).subset hmem)
  · intro q hq
    obtain ⟨hqm, hqv⟩ := StdMap.mem_erase.mp hq
    refine StdMap.mem_erase.mpr ⟨h.owner q hqm, ?_⟩
    intro e
    have hmem := h.owner q hqm
    simp only at e
    rw [e] at hmem
    have := StdMap.mem_find_of_nodup h.chanKeys hmem
    rw [hc] at this
    exact hqv (Option.some.inj this).symm

theorem inv_del {Op : Type} {chanOf : Op → String} {reg : Registry Op} (h : RegInv chanOf reg)
    (stop : Op → Op) (c : String) : RegInv chanOf (Registry.Del stop reg c).registry := by
  unfold Registry.Del
  by_cases hv : Registry.GetVoiceId reg c = ""
  · simp [hv, h]
  · have hc : StdMap.find reg.sChannelIdMap c = some (Registry.GetVoiceId reg c) := by
      unfold Registry.GetVoiceId at hv ⊢
      cases hf : StdMap.find reg.sChannelIdMap c with
      | none => simp [hf] at hv
      | some v => rfl
    have h2 := h.inv_del2 hc
    simp only [hv, if_false]
    cases Registry.GetOperation reg (Registry.GetVoiceId reg c) <;> exact h2

theorem inv_not_mapped {Op : Type} {chanOf : Op → String} {reg : Registry Op} (h : RegInv chanOf reg)
    {c : String} (hv : Registry.GetVoiceId reg c = "") : c ∉ StdMap.keys reg.sChannelIdMap := by
  rw [← StdMap.find_eq_none_iff]
  cases hf : StdMap.find reg.sChannelIdMap c with
  | none => rfl
  | some v =>
    exfalso
    have hv2 : v = "" := by simpa [Registry.GetVoiceId, hf] using hv
    subst hv2
    exact h.nonempty (List.mem_map.mpr ⟨(c, ""), StdMap.find_some_mem hf, rfl⟩)

theorem inv_set {Op : Type} {chanOf voiceId : Op → String} {reg : Registry Op}
    (h : RegInv chanOf reg) {c : String} {op : Op}
    (hv : Registry.GetVoiceId reg c = "") (hne : voiceId op ≠ "")
    (hfresh : voiceId op ∉ StdMap.keys reg.sMap) (hch : chanOf op = c) :
    RegInv chanOf (Registry.Set voiceId reg c op) := by
  have hc : c ∉ StdMap.keys reg.sChannelIdMap := h.inv_not_mapped hv
  have e1 : (Registry.Set voiceId reg c op).sChannelIdMap = reg.sChannelIdMap ++ [(c, voiceId op)] := by
    simp only [Registry.Set]
    rw [StdMap.erase_of_not_mem hc, StdMap.emplace_of_not_mem _ hc]
  have e2 : (Registry.Set voiceId reg c op).sMap = reg.sMap ++ [(voiceId op, op)] := by
    simp only [Registry.Set]
    rw [StdMap.erase_of_not_mem hfresh, StdMap.emplace_of_not_mem _ hfresh]
  have hval : voiceId op ∉ reg.sChannelIdMap.map Prod.snd := fun hm => hfresh ((h.same _).mp hm)
  constructor
  · rw [e1]
    simp only [StdMap.keys, List.map_append, List.map_cons, List.map_nil]
    exact List.Nodup.append h.chanKeys (by simp) (by simpa [StdMap.keys] using hc)
  · rw [e2]
    simp only [StdMap.keys, List.map_append, List.map_cons, List.map_nil]
    exact List.Nodup.append h.opKeys (by simp) (by simpa [StdMap.keys] using hfresh)
  · rw [e1]
    simp only [List.map_append, List.map_cons, List.map_nil]
    exact List.Nodup.append h.chanVals (by simp) (by simpa using hval)
  · intro v
    rw [e1, e2]
    have := h.same v
    simp only [StdMap.keys, List.map_append, List.map_cons, List.map_nil, List.mem_append,
      List.mem_singleton] at this ⊢
    rw [this]
  · rw [e1]
    simp only [List.map_append, List.map_cons, List.map_nil, List.mem_append, List.mem_singleton]
    rintro (hm | hm)
    · exact h.nonempty hm
    · exact hne hm.symm
  · intro p hp
    rw [e1]
    rw [e2] at hp
    rcases List.mem_append.mp hp with hp | hp
    · exact List.mem_append_left _ (h.owner p hp)
    · have : p = (voiceId op, op) := by simpa using hp
      subst this
      simp [hch]

/-- Under the invariant, both maps have the same size. -/
theorem inv_size_eq {Op : Type} {chanOf : Op → String} {reg : Registry Op} (h : RegInv chanOf reg) :
    StdMap.size reg.sChannelIdMap = StdMap.size reg.sMap := by
  have hp : List.Perm (reg.sChannelIdMap.map Prod.snd) (StdMap.keys reg.sMap) :=
    (List.perm_ext_iff_of_nodup h.chanVals h.opKeys).mpr h.same
  have := hp.length_eq
  simpa [StdMap.size, StdMap.keys] using this

/-- Under the invariant, the voice id of every channel resolves in `sMap`. -/
theorem inv_resolves {Op : Type} {chanOf : Op → String} {reg : Registry Op} (h : RegInv chanOf reg)
    {c v : String} (hc : StdMap.find reg.sChannelIdMap c = some v) :
    (Registry.GetOperation reg v).isSome = true := by
  have hk : v ∈ StdMap.keys reg.sMap :=
    (h.same v).mp (List.mem_map.mpr ⟨(c, v), StdMap.find_some_mem hc, rfl⟩)
  cases hf : Registry.GetOperation reg v with
  | some _ => rfl
  | none => exact absurd hk (StdMap.find_eq_none_iff.mp hf)

/-- Under the invariant, a channel has at most one entry in `sChannelIdMap`. -/
theorem inv_one_entry {Op : Type} {chanOf : Op → String} {reg : Registry Op} (h : RegInv chanOf reg)
    (c : String) : (reg.sChannelIdMap.filter (fun p => decide (p.1 = c))).length ≤ 1 := by
  apply length_le_one_of_nodup_map Prod.fst
  · exact List.Nodup.sublist ((List.filter_sublist _).map Prod.fst) h.chanKeys
  · intro x hx y hy
    have hx2 := (List.mem_filter.mp hx).2
    have hy2 := (List.mem_filter.mp hy).2
    simp only [decide_eq_true_eq] at hx2 hy2
    rw [hx2, hy2]

/-- Under the invariant, at most one operation of `sMap` belongs to a channel. -/
theorem inv_one_operation {Op : Type} {chanOf : Op → String} {reg : Registry Op}
    (h : RegInv chanOf reg) (c : String) :
    (reg.sMap.filter (fun p => decide (chanOf p.2 = c))).length ≤ 1 := by
  apply length_le_one_of_nodup_map Prod.fst
  · exact List.Nodup.sublist ((List.filter_sublist _).map Prod.fst) h.opKeys
  · intro x hx y hy
    obtain ⟨hxm, hx2⟩ := List.mem_filter.mp hx
    obtain ⟨hym, hy2⟩ := List.mem_filter.mp hy
    simp only [decide_eq_true_eq] at hx2 hy2
    have h1 := StdMap.mem_find_of_nodup h.chanKeys (h.owner x hxm)
    have h2 := StdMap.mem_find_of_nodup h.chanKeys (h.owner y hym)
    rw [hx2] at h1
    rw [hy2, h1] at h2
    exact Option.some.inj h2

end RegInv

/-! ## The registry under the events of the recognition plugin -/

theorem uuid.to_string_ne_empty (u : uuid) : u.to_string ≠ "" := by
  intro h
  have := congrArg String.data h
  simp [uuid.to_string] at this

theorem Registry.del_keys_subset {Op : Type} (stop : Op → Op) (reg : Registry Op) (c : String) :
    ∀ k ∈ StdMap.keys (Registry.Del stop reg c).registry.sMap, k ∈ StdMap.keys reg.sMap := by
  intro k hk
  unfold Registry.Del at hk
  have hsub : ∀ v, k ∈ StdMap.keys (Registry.Del2 reg c v).sMap → k ∈ StdMap.keys reg.sMap :=
    fun v h => ((StdMap.erase_sublist reg.sMap v).map Prod.fst).subset h
  by_cases hv : Registry.GetVoiceId reg c = ""
  · simpa [hv] using hk
  · simp only [hv, if_false] at hk
    cases hop : Registry.GetOperation reg (Registry.GetVoiceId reg c) with
    | none => rw [hop] at hk; exact hsub _ hk
    | some op => rw [hop] at hk; exact hsub _ hk

/-- The registry after `demo_recog_channel_recognize`: unchanged, or the channel
was unmapped and an operation with the generated voice id was registered for it. -/
theorem recognize_registry (env : RecogEnv) (reg : Registry TencentRecognize)
    (channel : demo_recog_channel_t) (request : mrcp_message_t) :
    (demo_recog_channel_recognize env reg channel request).registry = reg ∨
    (Recognize.GetVoiceId reg channel.channel = "" ∧
      ∃ op : TencentRecognize, op.mVoiceId = env.a_uuid.to_string ∧
        op.mChannelId = channel.channel ∧
        (demo_recog_channel_recognize env reg channel request).registry =
          Recognize.Set reg channel.channel op) := by
  unfold demo_recog_channel_recognize
  by_cases hd : env.descriptor = true
  · by_cases hv : Recognize.GetVoiceId reg channel.channel = ""
    · cases hcr : Recognize.Create env.ini env.a_uuid channel.channel with
      | none => left; simp [hd, hv, hcr]
      | some recognize =>
        have hrec : recognize.mVoiceId = env.a_uuid.to_string ∧
            recognize.mChannelId = channel.channel := by
          unfold Recognize.Create at hcr
          split at hcr
          · cases hcr; exact ⟨rfl, rfl⟩
          · cases hcr
        by_cases hi : env.startRet < 0
        · left; simp [hd, hv, hcr, TencentRecognize.init, hi]
        · right
          refine ⟨hv, ?_⟩
          by_cases hb : request.body = "builtin:partial"
          · refine ⟨_, ?_, ?_, by simp only [hd, hv, hcr, TencentRecognize.init, hi, hb]; simp; rfl⟩
            · simp [Recognize.loadConfig, Recognize.setPartial, Recognize.setRecogChannel, hrec.1]
            · simp [Recognize.loadConfig, Recognize.setPartial, Recognize.setRecogChannel, hrec.2]
          · refine ⟨_, ?_, ?_, by simp only [hd, hv, hcr, TencentRecognize.init, hi, hb]; simp; rfl⟩
            · simp [Recognize.loadConfig, Recognize.setRecogChannel, hrec.1]
            · simp [Recognize.loadConfig, Recognize.setRecogChannel, hrec.2]
    · left; simp [hd, hv]
  · left; simp [hd]

/-- The registry after the dispatcher, by method. -/
theorem dispatch_registry (env : RecogEnv) (reg : Registry TencentRecognize)
    (channel : demo_recog_channel_t) (request : mrcp_message_t) :
    (demo_recog_channel_request_dispatch env reg channel request).registry =
      if request.method_id = .RECOGNIZER_RECOGNIZE then
        (demo_recog_channel_recognize env reg channel request).registry
      else if request.method_id = .RECOGNIZER_STOP then
        (Recognize.Del reg channel.channel).registry
      else reg := by
  unfold demo_recog_channel_request_dispatch
  cases hm : request.method_id <;>
    simp [demo_recog_channel_stop, demo_recog_channel_timers_start] <;>
    split <;> rfl

theorem mintedIds_cons (e : RecogEvent) (es : List RecogEvent) :
    mintedIds (e :: es) = mintedIds [e] ++ mintedIds es := by
  cases e with
  | request c request env =>
    by_cases h : request.method_id = .RECOGNIZER_RECOGNIZE <;> simp [mintedIds, h]
  | complete m pl => simp [mintedIds]
  | close c => simp [mintedIds]

/-- One event keeps the invariant, and adds no key to `sMap` other than the id
generated for it. -/
theorem RecogWorld.step_inv (w : RecogWorld) (e : RecogEvent)
    (h : RegInv TencentRecognize.mChannelId w.registry)
    (hfresh : ∀ id ∈ mintedIds [e], id ∉ StdMap.keys w.registry.sMap) :
    RegInv TencentRecognize.mChannelId (RecogWorld.step w e).registry ∧
    ∀ k ∈ StdMap.keys (RecogWorld.step w e).registry.sMap,
      k ∈ StdMap.keys w.registry.sMap ∨ k ∈ mintedIds [e] := by
  cases e with
  | request c request env =>
    simp only [RecogWorld.step, RecogWorld.commit, dispatch_registry]
    by_cases hm : request.method_id = .RECOGNIZER_RECOGNIZE
    · simp only [hm, if_true]
      rcases recognize_registry env w.registry (RecogWorld.channelOf w c) request with
        hr | ⟨hv, op, hid, hch, hr⟩
      · rw [hr]
        exact ⟨h, fun k hk => Or.inl hk⟩
      · rw [hr]
        have hf : op.mVoiceId ∉ StdMap.keys w.registry.sMap := by
          rw [hid]
          exact hfresh _ (by simp [mintedIds, hm])
        have hne : op.mVoiceId ≠ "" := by rw [hid]; exact uuid.to_string_ne_empty _
        refine ⟨h.inv_set hv hne hf hch, ?_⟩
        intro k hk
        simp only [Recognize.Set, Registry.Set] at hk
        rw [StdMap.erase_of_not_mem hf, StdMap.emplace_of_not_mem _ hf] at hk
        simp only [StdMap.keys, List.map_append, List.map_cons, List.map_nil, List.mem_append,
          List.mem_singleton] at hk
        rcases hk with hk | hk
        · exact Or.inl hk
        · right
          simp [mintedIds, hm, hk, hid]
    · simp only [hm, if_false]
      by_cases hs : request.method_id = .RECOGNIZER_STOP
      · simp only [hs, if_true]
        exact ⟨h.inv_del _ _, fun k hk => Or.inl (Registry.del_keys_subset _ _ _ k hk)⟩
      · simp only [hs, if_false]
        exact ⟨h, fun k hk => Or.inl hk⟩
  | complete m pl =>
    simp only [RecogWorld.step, RecogWorld.commit, sendComplete]
    by_cases hc : m.cause = .RECOGNIZER_COMPLETION_CAUSE_SUCCESS
    · simp only [hc, if_true]
      exact ⟨h.inv_del _ _, fun k hk => Or.inl (Registry.del_keys_subset _ _ _ k hk)⟩
    · simp only [hc, if_false]
      exact ⟨h, fun k hk => Or.inl hk⟩
  | close c =>
    simp only [RecogWorld.step, RecogWorld.commit, demo_recog_channel_close]
    exact ⟨h.inv_del _ _, fun k hk => Or.inl (Registry.del_keys_subset _ _ _ k hk)⟩

/-- A sequence of events with pairwise distinct generated ids, none of them
registered yet, keeps the invariant. -/
theorem RecogWorld.run_inv (events : List RecogEvent) :
    ∀ w : RecogWorld, RegInv TencentRecognize.mChannelId w.registry →
      (mintedIds events).Nodup →
      (∀ id ∈ mintedIds events, id ∉ StdMap.keys w.registry.sMap) →
      RegInv TencentRecognize.mChannelId (RecogWorld.run w events).registry := by
  induction events with
  | nil => intro w h _ _; exact h
  | cons e es ih =>
    intro w h hn hfresh
    rw [mintedIds_cons] at hn hfresh
    have hstep := RecogWorld.step_inv w e h
      (fun id hid => hfresh id (List.mem_append_left _ hid))
    have hn2 := List.nodup_append.mp hn
    refine ih (RecogWorld.step w e) hstep.1 hn2.2.1 ?_
    intro id hid hk
    rcases hstep.2 id hk with hk | hk
    · exact hfresh id (List.mem_append_right _ hid) hk
    · exact hn2.2.2 hk hid

/-- C1. From the empty registry, after every sequence of recognition events
(requests of any method handed to the dispatcher, among them RECOGNIZE and STOP,
completion messages, channel closes, on any channels) in which the operation
ids generated for the RECOGNIZE requests are pairwise distinct, the two maps
have the same size, the voice id of every channel resolves in the operation
map, a channel has at most one entry in the channel map, and at most one
registered operation belongs to a channel. -/
theorem registry_invariant_under_events (events : List RecogEvent)
    (hfresh : (mintedIds events).Nodup) :
    StdMap.size (RecogWorld.run RecogWorld.init events).registry.sChannelIdMap =
      StdMap.size (RecogWorld.run RecogWorld.init events).registry.sMap ∧
    (∀ c v, StdMap.find (RecogWorld.run RecogWorld.init events).registry.sChannelIdMap c = some v →
      (Recognize.GetRecognize (RecogWorld.run RecogWorld.init events).registry v).isSome = true) ∧
    (∀ c, ((RecogWorld.run RecogWorld.init events).registry.sChannelIdMap.filter
      (fun p => decide (p.1 = c))).length ≤ 1) ∧
    (∀ c, ((RecogWorld.run RecogWorld.init events).registry.sMap.filter
      (fun p => decide (p.2.mChannelId = c))).length ≤ 1) := by
  have h := RecogWorld.run_inv events RecogWorld.init
    (RegInv.inv_empty TencentRecognize.mChannelId) hfresh
    (by intro id _; simp [RecogWorld.init, Registry.empty, StdMap.keys])
  exact ⟨h.inv_size_eq, fun c v hc => h.inv_resolves hc, h.inv_one_entry, h.inv_one_operation⟩

/-- C1 at `demoEvents`, after which one operation is registered, and at its first
three events, after which two are. -/
theorem registry_invariant_under_events_witness :
    (mintedIds demoEvents).Nodup ∧
    StdMap.size (RecogWorld.run RecogWorld.init demoEvents).registry.sChannelIdMap =
      StdMap.size (RecogWorld.run RecogWorld.init demoEvents).registry.sMap ∧
    StdMap.keys (RecogWorld.run RecogWorld.init demoEvents).registry.sChannelIdMap = ["ch1"] ∧
    StdMap.size (RecogWorld.run RecogWorld.init (demoEvents.take 3)).registry.sChannelIdMap =
      StdMap.size (RecogWorld.run RecogWorld.init (demoEvents.take 3)).registry.sMap ∧
    StdMap.keys (RecogWorld.run RecogWorld.init (demoEvents.take 3)).registry.sChannelIdMap =
      ["ch1", "ch2"] :=
  ⟨by decide, (registry_invariant_under_events demoEvents (by decide)).1, by decide,
   (registry_invariant_under_events (demoEvents.take 3) (by decide)).1, by decide⟩

/-! ## A start on a channel that is already active -/

theorem recognition_complete_error (pl : ProtocolLayer) (channel : demo_recog_channel_t)
    (request : mrcp_message_t) (hr : channel.recog_request = some request)
    (he : pl.event_created = true) (hh : pl.resource_header_prepared = true) :
    demo_recog_recognition_complete pl channel .RECOGNIZER_COMPLETION_CAUSE_ERROR "" =
      (pl.message_sent, channel, [errorCompletion request]) := by
  simp [demo_recog_recognition_complete, hr, mrcp_event_create, he, hh, demo_recog_result_load,
    errorCompletion]

/-- A rejected start: the channel is already mapped. -/
theorem recognize_rejected (env : RecogEnv) (reg : Registry TencentRecognize)
    (channel : demo_recog_channel_t) (request : mrcp_message_t)
    (hd : env.descriptor = true) (hv : Recognize.GetVoiceId reg channel.channel ≠ "")
    (he : env.pl.event_created = true) (hh : env.pl.resource_header_prepared = true) :
    demo_recog_channel_recognize env reg channel request =
      { registry := reg, channel := { channel with recog_request := some request },
        sent := [errorCompletion request], stopped := [], signaled := [], ret := true } := by
  have hc := recognition_complete_error env.pl { channel with recog_request := some request }
    request rfl he hh
  simp [demo_recog_channel_recognize, hd, hv, hc]

/-- An accepted start: descriptor present, channel unmapped, engine configured,
vendor session started. -/
theorem recognize_accepted (env : RecogEnv) (reg : Registry TencentRecognize)
    (channel : demo_recog_channel_t) (request : mrcp_message_t)
    (hd : env.descriptor = true) (hv : Recognize.GetVoiceId reg channel.channel = "")
    (ht : TYPE_TENCENT = env.ini.get "generic" "type") (hs : 0 ≤ env.startRet) :
    (demo_recog_channel_recognize env reg channel request).sent = [] ∧
    (demo_recog_channel_recognize env reg channel request).channel.channel = channel.channel ∧
    Recognize.GetVoiceId (demo_recog_channel_recognize env reg channel request).registry
      channel.channel = env.a_uuid.to_string := by
  have hs2 : ¬ env.startRet < 0 := not_lt.mpr hs
  have hget : ∀ op : TencentRecognize, op.mVoiceId = env.a_uuid.to_string →
      Recognize.GetVoiceId (Recognize.Set reg channel.channel op) channel.channel =
        env.a_uuid.to_string := by
    intro op hop
    simp [Recognize.GetVoiceId, Registry.GetVoiceId, Recognize.Set, Registry.Set,
      StdMap.find_emplace_erase_self, hop]
  have hinit : ∀ op : TencentRecognize, ¬ (TencentRecognize.init op env.startRet).1 < 0 := by
    intro op; simp [TencentRecognize.init, hs2]
  have hvid : ∀ op : TencentRecognize,
      (TencentRecognize.init op env.startRet).2.mVoiceId = op.mVoiceId := by
    intro op; simp [TencentRecognize.init, hs2, Recognize.loadConfig]
  simp only [demo_recog_channel_recognize, hd, hv, Recognize.Create, ht, hinit,
    not_true_eq_false, ne_eq, not_false_eq_true, if_true, if_false]
  refine ⟨trivial, ?_, ?_⟩
  · split <;> rfl
  · apply hget
    rw [hvid]
    split <;> rfl

/-- C2. In `demo_recog_channel_recognize` with a codec descriptor present (and a
protocol layer that supplies the event and its header): when the channel already
has a registry entry, the registry is unchanged, no operation is created or
stopped, and exactly one message is sent, the RECOGNITION-COMPLETE event with
completion cause error; hence when a first start on an unmapped channel is
accepted and a second start follows with nothing in between, the two starts
together send exactly that one event, and the second leaves the registry as the
first made it. -/
theorem recognize_already_active (env1 env2 : RecogEnv) (reg : Registry TencentRecognize)
    (channel : demo_recog_channel_t) (request1 request2 : mrcp_message_t)
    (hd : env2.descriptor = true) (he : env2.pl.event_created = true)
    (hh : env2.pl.resource_header_prepared = true) :
    (Recognize.GetVoiceId reg channel.channel ≠ "" →
      (demo_recog_channel_recognize env2 reg channel request2).registry = reg ∧
      (demo_recog_channel_recognize env2 reg channel request2).stopped = [] ∧
      (demo_recog_channel_recognize env2 reg channel request2).sent = [errorCompletion request2] ∧
      (errorCompletion request2).event_id = some .RECOGNIZER_RECOGNITION_COMPLETE ∧
      (errorCompletion request2).completion_cause = some .RECOGNIZER_COMPLETION_CAUSE_ERROR) ∧
    (Recognize.GetVoiceId reg channel.channel = "" → env1.descriptor = true →
      TYPE_TENCENT = env1.ini.get "generic" "type" → 0 ≤ env1.startRet →
      (recognizeTwice env1 env2 reg channel request1 request2).1.sent ++
        (recognizeTwice env1 env2 reg channel request1 request2).2.sent =
          [errorCompletion request2] ∧
      (recognizeTwice env1 env2 reg channel request1 request2).2.registry =
        (recognizeTwice env1 env2 reg channel request1 request2).1.registry ∧
      (recognizeTwice env1 env2 reg channel request1 request2).2.stopped = []) := by
  constructor
  · intro hv
    rw [recognize_rejected env2 reg channel request2 hd hv he hh]
    exact ⟨rfl, rfl, rfl, rfl, rfl⟩
  · intro hv hd1 ht hs
    obtain ⟨h1, h2, h3⟩ := recognize_accepted env1 reg channel request1 hd1 hv ht hs
    have hv2 : Recognize.GetVoiceId (demo_recog_channel_recognize env1 reg channel request1).registry
        (demo_recog_channel_recognize env1 reg channel request1).channel.channel ≠ "" := by
      rw [h2, h3]
      exact uuid.to_string_ne_empty _
    simp only [recognizeTwice]
    rw [recognize_rejected env2 _ _ request2 hd hv2 he hh, h1]
    exact ⟨rfl, rfl, rfl⟩

/-- C2 at a second start on the active channel `ch1`, and at two starts in a row
on `ch1` from the empty registry. -/
theorem recognize_already_active_witness :
    (Recognize.GetVoiceId demoActive "ch1" ≠ "" ∧
      (demo_recog_channel_recognize (demoEnv [2]) demoActive
        (demo_recog_engine_channel_create "ch1")
        (demoRequest .RECOGNIZER_RECOGNIZE 2 "")).sent =
          [errorCompletion (demoRequest .RECOGNIZER_RECOGNIZE 2 "")]) ∧
    (recognizeTwice (demoEnv [1]) (demoEnv [2]) Registry.empty
        (demo_recog_engine_channel_create "ch1") (demoRequest .RECOGNIZER_RECOGNIZE 1 "")
        (demoRequest .RECOGNIZER_RECOGNIZE 2 "")).1.sent ++
      (recognizeTwice (demoEnv [1]) (demoEnv [2]) Registry.empty
        (demo_recog_engine_channel_create "ch1") (demoRequest .RECOGNIZER_RECOGNIZE 1 "")
        (demoRequest .RECOGNIZER_RECOGNIZE 2 "")).2.sent =
          [errorCompletion (demoRequest .RECOGNIZER_RECOGNIZE 2 "")] :=
  ⟨⟨by decide,
    ((recognize_already_active (demoEnv [1]) (demoEnv [2]) demoActive
      (demo_recog_engine_channel_create "ch1") (demoRequest .RECOGNIZER_RECOGNIZE 1 "")
      (demoRequest .RECOGNIZER_RECOGNIZE 2 "") rfl rfl rfl).1 (by decide)).2.2.1⟩,
   ((recognize_already_active (demoEnv [1]) (demoEnv [2]) Registry.empty
      (demo_recog_engine_channel_create "ch1") (demoRequest .RECOGNIZER_RECOGNIZE 1 "")
      (demoRequest .RECOGNIZER_RECOGNIZE 2 "") rfl rfl rfl).2
        (by decide) rfl (by decide) (by decide)).1⟩

/-! ## `Del(channelId)` -/

namespace Registry

theorem find_of_GetVoiceId_ne {Op : Type} {reg : Registry Op} {c : String}
    (h : GetVoiceId reg c ≠ "") : StdMap.find reg.sChannelIdMap c = some (GetVoiceId reg c) := by
  unfold GetVoiceId at h ⊢
  cases hf : StdMap.find reg.sChannelIdMap c with
  | none => simp [hf] at h
  | some v => rfl

theorem Del_mapped {Op : Type} (stop : Op → Op) (reg : Registry Op) (c : String)
    (h : GetVoiceId reg c ≠ "") :
    Del stop reg c =
      { registry := Del2 reg c (GetVoiceId reg c),
        stopped := ((GetOperation reg (GetVoiceId reg c)).map stop).toList } := by
  unfold Del
  simp only [h, if_false]
  cases GetOperation reg (GetVoiceId reg c) <;> rfl

theorem Del_unmapped {Op : Type} (stop : Op → Op) (reg : Registry Op) (c : String)
    (h : GetVoiceId reg c = "") : Del stop reg c = { registry := reg, stopped := [] } := by
  simp [Del, h]

theorem GetVoiceId_Del2 {Op : Type} (reg : Registry Op) (c v : String) :
    GetVoiceId (Del2 reg c v) c = "" := by
  simp [GetVoiceId, Del2, StdMap.find_erase_self]

theorem GetVoiceId_Del {Op : Type} (stop : Op → Op) (reg : Registry Op) (c : String) :
    GetVoiceId (Del stop reg c).registry c = "" := by
  by_cases h : GetVoiceId reg c = ""
  · rw [Del_unmapped stop reg c h]; exact h
  · rw [Del_mapped stop reg c h]; exact GetVoiceId_Del2 _ _ _

/-- What `Del(channelId)` does, for any `stop()`. -/
theorem Del_spec {Op : Type} (stop : Op → Op) (reg : Registry Op) (c : String) :
    (GetVoiceId reg c ≠ "" →
      (Del stop reg c).stopped = ((GetOperation reg (GetVoiceId reg c)).map stop).toList ∧
      GetVoiceId (Del stop reg c).registry c = "" ∧
      GetOperation (Del stop reg c).registry (GetVoiceId reg c) = none ∧
      (∀ c', c' ≠ c → StdMap.find (Del stop reg c).registry.sChannelIdMap c' =
        StdMap.find reg.sChannelIdMap c') ∧
      (∀ v', v' ≠ GetVoiceId reg c → StdMap.find (Del stop reg c).registry.sMap v' =
        StdMap.find reg.sMap v')) ∧
    (GetVoiceId reg c = "" → Del stop reg c = { registry := reg, stopped := [] }) ∧
    Del stop (Del stop reg c).registry c =
      { registry := (Del stop reg c).registry, stopped := [] } := by
  refine ⟨?_, Del_unmapped stop reg c, Del_unmapped stop _ c (GetVoiceId_Del stop reg c)⟩
  intro h
  rw [Del_mapped stop reg c h]
  refine ⟨rfl, GetVoiceId_Del2 _ _ _, ?_, ?_, ?_⟩
  · simp [GetOperation, Del2, StdMap.find_erase_self]
  · intro c' hc'
    exact StdMap.find_erase_ne _ hc'
  · intro v' hv'
    exact StdMap.find_erase_ne _ hv'

end Registry

/-- C3. For every registry and channel id `c`, for `Recognize::Del` and for
`Synthesizer::Del` alike: when `c` is mapped to an operation id `v`
(`GetVoiceId` gives the non-empty `v`), `Del(c)` calls `stop()` exactly once, on
the operation registered under `v` when there is one and on nothing otherwise;
afterwards `GetVoiceId(c)` is empty, the lookup of `v` gives `nullptr`, and the
entries of both maps under every other key are as before.  When `c` is not
mapped, `Del(c)` changes nothing and stops nothing.  A second `Del(c)` changes
nothing and stops nothing. -/
theorem del_removes_entry_and_stops_once (reg : Registry TencentRecognize)
    (sreg : Registry TencentSynthesizer) (c : String) :
    ((Recognize.GetVoiceId reg c ≠ "" →
        (Recognize.Del reg c).stopped =
          ((Recognize.GetRecognize reg (Recognize.GetVoiceId reg c)).map
            TencentRecognize.stop).toList ∧
        Recognize.GetVoiceId (Recognize.Del reg c).registry c = "" ∧
        Recognize.GetRecognize (Recognize.Del reg c).registry (Recognize.GetVoiceId reg c) = none ∧
        (∀ c', c' ≠ c → StdMap.find (Recognize.Del reg c).registry.sChannelIdMap c' =
          StdMap.find reg.sChannelIdMap c') ∧
        (∀ v', v' ≠ Recognize.GetVoiceId reg c →
          StdMap.find (Recognize.Del reg c).registry.sMap v' = StdMap.find reg.sMap v')) ∧
      (Recognize.GetVoiceId reg c = "" →
        Recognize.Del reg c = { registry := reg, stopped := [] }) ∧
      Recognize.Del (Recognize.Del reg c).registry c =
        { registry := (Recognize.Del reg c).registry, stopped := [] }) ∧
    ((Synthesizer.GetVoiceId sreg c ≠ "" →
        (Synthesizer.Del sreg c).stopped =
          ((Synthesizer.GetSynthesizer sreg (Synthesizer.GetVoiceId sreg c)).map
            TencentSynthesizer.stop).toList ∧
        Synthesizer.GetVoiceId (Synthesizer.Del sreg c).registry c = "" ∧
        Synthesizer.GetSynthesizer (Synthesizer.Del sreg c).registry
          (Synthesizer.GetVoiceId sreg c) = none ∧
        (∀ c', c' ≠ c → StdMap.find (Synthesizer.Del sreg c).registry.sChannelIdMap c' =
          StdMap.find sreg.sChannelIdMap c') ∧
        (∀ v', v' ≠ Synthesizer.GetVoiceId sreg c →
          StdMap.find (Synthesizer.Del sreg c).registry.sMap v' = StdMap.find sreg.sMap v')) ∧
      (Synthesizer.GetVoiceId sreg c = "" →
        Synthesizer.Del sreg c = { registry := sreg, stopped := [] }) ∧
      Synthesizer.Del (Synthesizer.Del sreg c).registry c =
        { registry := (Synthesizer.Del sreg c).registry, stopped := [] }) :=
  ⟨Registry.Del_spec TencentRecognize.stop reg c, Registry.Del_spec TencentSynthesizer.stop sreg c⟩

/-- C3 at a registry in which `ch1` is mapped to `v1`: the operation is stopped
once and both entries are gone; on the unmapped `ch2` nothing happens. -/
theorem del_removes_entry_and_stops_once_witness :
    Recognize.GetVoiceId demoRecogRegistry "ch1" = "v1" ∧
    (Recognize.Del demoRecogRegistry "ch1").stopped = [TencentRecognize.stop demoRecognize] ∧
    Recognize.GetRecognize (Recognize.Del demoRecogRegistry "ch1").registry "v1" = none ∧
    Recognize.Del demoRecogRegistry "ch2" = { registry := demoRecogRegistry, stopped := [] } ∧
    (Synthesizer.Del demoSynthRegistry "ch1").stopped =
      [TencentSynthesizer.stop demoSynthesizer] :=
  ⟨by decide,
   ((del_removes_entry_and_stops_once demoRecogRegistry demoSynthRegistry "ch1").1.1
      (by decide)).1,
   ((del_removes_entry_and_stops_once demoRecogRegistry demoSynthRegistry "ch1").1.1
      (by decide)).2.2.1,
   (del_removes_entry_and_stops_once demoRecogRegistry demoSynthRegistry "ch2").1.2.1
      (by decide),
   ((del_removes_entry_and_stops_once demoRecogRegistry demoSynthRegistry "ch1").2.1
      (by decide)).1⟩

/-! ## `stop()` -/

theorem TencentRecognize.recog_stop_stop (r : TencentRecognize) :
    TencentRecognize.stop (TencentRecognize.stop r) = TencentRecognize.stop r := by
  unfold TencentRecognize.stop
  cases hs : r.mIsStop
  · cases hr : r.mSpeechRecognizer <;> simp [hr]
  · simp [hs]

theorem TencentSynthesizer.synth_stop_stop (s : TencentSynthesizer) :
    TencentSynthesizer.stop (TencentSynthesizer.stop s) = TencentSynthesizer.stop s := by
  unfold TencentSynthesizer.stop
  cases hs : s.mIsStop
  · cases hr : s.mSpeechSynthesizer <;> simp [hr]
  · simp [hs]

theorem iterate_of_idempotent {α : Type} (f : α → α) (hf : ∀ x, f (f x) = f x) (x : α)
    (n : Nat) : Nat.iterate f (n + 1) x = f x := by
  induction n with
  | zero => rfl
  | succ n ih => rw [Function.iterate_succ_apply', ih, hf]

theorem TencentRecognize.recog_vendorStops_stop (r : TencentRecognize) :
    TencentRecognize.vendorStops (TencentRecognize.stop r) =
      TencentRecognize.vendorStops r +
        (if r.mSpeechRecognizer.isSome = true ∧ r.mIsStop = false then 1 else 0) := by
  unfold TencentRecognize.stop TencentRecognize.vendorStops
  cases hs : r.mIsStop <;> cases hr : r.mSpeechRecognizer <;> simp [hr]

theorem TencentSynthesizer.synth_vendorStops_stop (s : TencentSynthesizer) :
    TencentSynthesizer.vendorStops (TencentSynthesizer.stop s) =
      TencentSynthesizer.vendorStops s +
        (if s.mSpeechSynthesizer.isSome = true ∧ s.mIsStop = false then 1 else 0) := by
  unfold TencentSynthesizer.stop TencentSynthesizer.vendorStops
  cases hs : s.mIsStop <;> cases hr : s.mSpeechSynthesizer <;> simp [hr]

/-- C4. For `TencentRecognize::stop` and `TencentSynthesizer::stop`, every
operation and every `N ≥ 1`: `N` calls of `stop()` leave the operation (its
vendor session included) as one call does, and over the `N` calls the vendor
session receives one `Stop` when a session was started and the stop flag was not
yet set, and none otherwise. -/
theorem stop_idempotent (r : TencentRecognize) (s : TencentSynthesizer) (N : Nat) (hN : 1 ≤ N) :
    Nat.iterate TencentRecognize.stop N r = TencentRecognize.stop r ∧
    TencentRecognize.vendorStops (Nat.iterate TencentRecognize.stop N r) =
      TencentRecognize.vendorStops r +
        (if r.mSpeechRecognizer.isSome = true ∧ r.mIsStop = false then 1 else 0) ∧
    Nat.iterate TencentSynthesizer.stop N s = TencentSynthesizer.stop s ∧
    TencentSynthesizer.vendorStops (Nat.iterate TencentSynthesizer.stop N s) =
      TencentSynthesizer.vendorStops s +
        (if s.mSpeechSynthesizer.isSome = true ∧ s.mIsStop = false then 1 else 0) := by
  obtain ⟨n, rfl⟩ : ∃ n, N = n + 1 := ⟨N - 1, by omega⟩
  rw [iterate_of_idempotent _ TencentRecognize.recog_stop_stop,
    iterate_of_idempotent _ TencentSynthesizer.synth_stop_stop]
  exact ⟨rfl, TencentRecognize.recog_vendorStops_stop r, rfl, TencentSynthesizer.synth_vendorStops_stop s⟩

/-- C4 at three calls of `stop()` on started operations: the vendor session has
received one `Stop`. -/
theorem stop_idempotent_witness :
    (1 ≤ 3) ∧
    Nat.iterate TencentRecognize.stop 3 demoRecognize = TencentRecognize.stop demoRecognize ∧
    TencentRecognize.vendorStops (Nat.iterate TencentRecognize.stop 3 demoRecognize) = 1 ∧
    TencentSynthesizer.vendorStops (Nat.iterate TencentSynthesizer.stop 3 demoSynthesizer) = 1 :=
  ⟨by decide, (stop_idempotent demoRecognize demoSynthesizer 3 (by decide)).1,
   (stop_idempotent demoRecognize demoSynthesizer 3 (by decide)).2.1,
   (stop_idempotent demoRecognize demoSynthesizer 3 (by decide)).2.2.2⟩

/-! ## The stop flag -/

theorem RecogCall.recog_apply_stopped (r : TencentRecognize) (c : RecogCall) (h : r.mIsStop = true) :
    ∃ t, RecogCall.apply r c = some t ∧ t.mIsStop = true := by
  cases c with
  | init startRet =>
    refine ⟨_, rfl, ?_⟩
    simp only [TencentRecognize.init, Recognize.loadConfig]
    split <;> exact h
  | stop => exact ⟨_, rfl, by simp [TencentRecognize.stop, h]⟩
  | write buff => exact ⟨r, by simp [RecogCall.apply, TencentRecognize.write, h], h⟩
  | setPartial val => exact ⟨_, rfl, h⟩
  | setRecogChannel val => exact ⟨_, rfl, h⟩

theorem RecogCall.recog_run_stopped (calls : List RecogCall) :
    ∀ r : TencentRecognize, r.mIsStop = true →
      ∃ t, RecogCall.run r calls = some t ∧ t.mIsStop = true := by
  induction calls with
  | nil => intro r h; exact ⟨r, rfl, h⟩
  | cons c cs ih =>
    intro r h
    obtain ⟨t, ht, hs⟩ := RecogCall.recog_apply_stopped r c h
    obtain ⟨u, hu, hus⟩ := ih t hs
    exact ⟨u, by simp [RecogCall.run, ht, hu], hus⟩

theorem TencentRecognize.recog_stop_mIsStop (r : TencentRecognize) :
    (TencentRecognize.stop r).mIsStop = true := by
  unfold TencentRecognize.stop
  cases hs : r.mIsStop
  · cases hr : r.mSpeechRecognizer <;> simp
  · simp [hs]

theorem TencentSynthesizer.synth_stop_mIsStop (s : TencentSynthesizer) :
    (TencentSynthesizer.stop s).mIsStop = true := by
  unfold TencentSynthesizer.stop
  cases hs : s.mIsStop
  · cases hr : s.mSpeechSynthesizer <;> simp
  · simp [hs]

theorem Synthesizer.read_ok_flags (s : TencentSynthesizer) (size : Int) (r : ReadResult)
    (h : Synthesizer.read s size = .ok r) :
    r.next.mIsStop = s.mIsStop ∧ r.next.mIsEnd = s.mIsEnd := by
  unfold Synthesizer.read at h
  simp only at h
  split_ifs at h <;> cases h <;> exact ⟨rfl, rfl⟩

theorem SynthCall.synth_apply_stopped (s : TencentSynthesizer) (c : SynthCall) (h : s.mIsStop = true) :
    (SynthCall.apply s c).mIsStop = true := by
  cases c with
  | init startRet =>
    simp only [SynthCall.apply, TencentSynthesizer.init, Synthesizer.loadConfig]
    split <;> exact h
  | stop => exact TencentSynthesizer.synth_stop_mIsStop s
  | read size =>
    simp only [SynthCall.apply]
    split
    · rename_i r hr
      rw [(Synthesizer.read_ok_flags s size r hr).1]
      exact h
    · exact h
  | pushData data => simp [SynthCall.apply, Synthesizer.pushData, h]
  | onSynthesisEnd => exact h
  | setSynthChannel val => exact h
  | setVoiceName val => exact h
  | setText val => exact h

theorem SynthCall.synth_run_stopped (calls : List SynthCall) :
    ∀ s : TencentSynthesizer, s.mIsStop = true → (SynthCall.run s calls).mIsStop = true := by
  induction calls with
  | nil => intro s h; exact h
  | cons c cs ih =>
    intro s h
    exact ih _ (SynthCall.synth_apply_stopped s c h)

/-- C5. The stop flag is one-way: after `stop()`, whatever sequence of calls of
the public methods follows (none of them fails), the flag is still set; a
`TencentRecognize::write` made then returns 0 and leaves the operation and its
vendor session untouched (no `Write` reaches the vendor), and a
`Synthesizer::pushData` made then leaves the operation, and so the audio queue,
as it is. -/
theorem stopped_flag_one_way (r : TencentRecognize) (s : TencentSynthesizer)
    (rcalls : List RecogCall) (scalls : List SynthCall) :
    (∃ t, RecogCall.run (TencentRecognize.stop r) rcalls = some t ∧ t.mIsStop = true ∧
      ∀ buff, TencentRecognize.write t buff = some (0, t)) ∧
    (SynthCall.run (TencentSynthesizer.stop s) scalls).mIsStop = true ∧
    ∀ data, Synthesizer.pushData (SynthCall.run (TencentSynthesizer.stop s) scalls) data =
      SynthCall.run (TencentSynthesizer.stop s) scalls := by
  obtain ⟨t, ht, hs⟩ := RecogCall.recog_run_stopped rcalls _ (TencentRecognize.recog_stop_mIsStop r)
  have h2 := SynthCall.synth_run_stopped scalls _ (TencentSynthesizer.synth_stop_mIsStop s)
  refine ⟨⟨t, ht, hs, ?_⟩, h2, ?_⟩
  · intro buff
    simp [TencentRecognize.write, hs]
  · intro data
    simp [Synthesizer.pushData, h2]


/-! ## The audio queue -/

/-- A read with a positive size whose wait condition holds: what it returns. -/
theorem Synthesizer.read_of_wait (s : TencentSynthesizer) (n : Nat) (hpos : 0 < n)
    (hwait : s.mIsStop = true ∨ s.mIsEnd = true ∨ n ≤ s.mAudioData.length) :
    Synthesizer.read s (n : Int) =
      .ok { ret := if s.mAudioData = [] then -1 else 0,
            buff := s.mAudioData.take n ++ List.replicate (n - min n s.mAudioData.length) 0,
            next := { s with mAudioData := s.mAudioData.drop n } } := by
  have hw : s.mIsStop = true ∨ s.mIsEnd = true ∨ (n : Int) ≤ (s.mAudioData.length : Int) := by
    rcases hwait with h | h | h
    · exact Or.inl h
    · exact Or.inr (Or.inl h)
    · exact Or.inr (Or.inr (by exact_mod_cast h))
  have hn : ¬ ((n : Int) < 0) := by omega
  unfold Synthesizer.read
  simp only [hn, if_false, hw, not_true_eq_false]
  by_cases hlt : s.mAudioData.length < n
  · have hlt2 : (s.mAudioData.length : Int) < (n : Int) := by exact_mod_cast hlt
    simp only [hlt2, if_true, Int.toNat_ofNat]
    by_cases he : s.mAudioData = []
    · have hs : { s with mAudioData := ([] : List Byte) } = s := by
        cases s; simp only [TencentSynthesizer.mk.injEq, true_and, and_true] at he ⊢; exact he.symm
      simp [he, hs]
    · have hl : 0 < s.mAudioData.length := List.length_pos.mpr he
      have hl2 : ¬ ((s.mAudioData.length : Int) ≤ 0) := by omega
      simp only [hl2, if_false, he]
      rw [List.take_of_length_le (le_refl _), List.drop_of_length_le (le_refl _),
        List.take_of_length_le hlt.le, List.drop_of_length_le hlt.le, min_eq_right hlt.le]
  · have hlt2 : ¬ ((s.mAudioData.length : Int) < (n : Int)) := by exact_mod_cast hlt
    have hn2 : ¬ ((n : Int) ≤ 0) := by omega
    have he : s.mAudioData ≠ [] := by
      intro he; rw [he] at hlt; simp at hlt; omega
    simp only [hlt2, if_false, hn2, Int.toNat_ofNat, he, min_eq_left (not_lt.mp hlt)]


theorem take_min_length {α : Type} (n : Nat) (l : List α) : l.take (min n l.length) = l.take n := by
  rcases Nat.le_total n l.length with h | h
  · rw [min_eq_left h]
  · rw [min_eq_right h, List.take_of_length_le (le_refl _), List.take_of_length_le h]

theorem drop_min_length {α : Type} (n : Nat) (l : List α) : l.drop (min n l.length) = l.drop n := by
  rcases Nat.le_total n l.length with h | h
  · rw [min_eq_left h]
  · rw [min_eq_right h, List.drop_of_length_le (le_refl _), List.drop_of_length_le h]

/-- C7. `Synthesizer::read(buff, maxLen)` with `maxLen > 0`, once its wait
condition holds (stopped, or ended, or at least `maxLen` bytes queued), returns;
with `k = min maxLen (queued length)`: when `k > 0` it returns 0, the buffer has
`maxLen` bytes of which the first `k` are the `k` oldest queued bytes in order
and the rest are zero, and the object afterwards differs only in its queue,
which has lost exactly these `k` bytes at the front; when the queue is empty it
returns -1 and leaves the object, queue and flags included, as it was. -/
theorem read_spec (s : TencentSynthesizer) (maxLen : Int) (hpos : 0 < maxLen)
    (hwait : s.mIsStop = true ∨ s.mIsEnd = true ∨ maxLen ≤ (s.mAudioData.length : Int)) :
    ∃ r, Synthesizer.read s maxLen = .ok r ∧
      (0 < min maxLen.toNat s.mAudioData.length →
        r.ret = 0 ∧ r.buff.length = maxLen.toNat ∧
        r.buff.take (min maxLen.toNat s.mAudioData.length) =
          s.mAudioData.take (min maxLen.toNat s.mAudioData.length) ∧
        r.buff.drop (min maxLen.toNat s.mAudioData.length) =
          List.replicate (maxLen.toNat - min maxLen.toNat s.mAudioData.length) 0 ∧
        r.next = { s with mAudioData :=
          s.mAudioData.drop (min maxLen.toNat s.mAudioData.length) }) ∧
      (s.mAudioData = [] → r.ret = -1 ∧ r.next = s) := by
  obtain ⟨n, rfl⟩ := Int.eq_ofNat_of_zero_le hpos.le
  have hn : 0 < n := by exact_mod_cast hpos
  have hw : s.mIsStop = true ∨ s.mIsEnd = true ∨ n ≤ s.mAudioData.length := by
    rcases hwait with h | h | h
    · exact Or.inl h
    · exact Or.inr (Or.inl h)
    · exact Or.inr (Or.inr (by exact_mod_cast h))
  refine ⟨_, Synthesizer.read_of_wait s n hn hw, ?_, ?_⟩
  · intro hk
    simp only [Int.toNat_ofNat] at hk ⊢
    have he : s.mAudioData ≠ [] := by
      intro he; rw [he] at hk; simp at hk
    have hlen : (s.mAudioData.take n).length = min n s.mAudioData.length := List.length_take _ _
    refine ⟨by simp [he], ?_, ?_, ?_, ?_⟩
    · simp only [List.length_append, List.length_take, List.length_replicate]
      omega
    · rw [List.take_left' hlen, take_min_length]
    · rw [List.drop_left' hlen]
    · rw [drop_min_length]
  · intro he
    refine ⟨by simp [he], ?_⟩
    cases s
    simp only [TencentSynthesizer.mk.injEq, true_and, and_true] at he ⊢
    simp [he]

/-- C7 at `demoQueued` (three bytes queued) with `maxLen = 2`: the read returns 0,
fills the two bytes of the buffer with the two oldest bytes and leaves the third
in the queue. -/
theorem read_spec_witness :
    (0 : Int) < 2 ∧ (2 : Int) ≤ (demoQueued.mAudioData.length : Int) ∧
    ∃ r, Synthesizer.read demoQueued 2 = .ok r ∧ r.ret = 0 ∧ r.buff.length = 2 ∧
      r.buff.take 2 = [1, 2] ∧ r.next.mAudioData = [3] := by
  refine ⟨by decide, by decide, ?_⟩
  obtain ⟨r, hr, h1, _⟩ := read_spec demoQueued 2 (by decide) (Or.inr (Or.inr (by decide)))
  obtain ⟨a, b, c, _, e⟩ := h1 (by decide)
  exact ⟨r, hr, a, b, c, by rw [e]; rfl⟩

theorem foldl_pushData (chunks : List (List Byte)) :
    ∀ s : TencentSynthesizer, s.mIsStop = false → s.mIsEnd = false →
      chunks.foldl Synthesizer.pushData s =
        { s with mAudioData := s.mAudioData ++ chunks.flatten } := by
  induction chunks with
  | nil => intro s _ _; simp
  | cons c cs ih =>
    intro s hs he
    have h1 : Synthesizer.pushData s c = { s with mAudioData := s.mAudioData ++ c } := by
      simp [Synthesizer.pushData, hs, he]
    rw [List.foldl_cons, h1, ih { s with mAudioData := s.mAudioData ++ c } hs he]
    simp [List.append_assoc]

theorem dequeued_of_drop (s : TencentSynthesizer) (n : Nat) (ret : Int) (buff : List Byte) :
    dequeued s { ret := ret, buff := buff, next := { s with mAudioData := s.mAudioData.drop n } } =
      s.mAudioData.take n := by
  simp only [dequeued, List.length_drop]
  have : s.mAudioData.length - (s.mAudioData.length - n) = min n s.mAudioData.length := by omega
  rw [this, take_min_length]

/-- Successive reads of positive sizes on a stopped or ended buffer: all of them
return, together they take the front of the queue, and each one either returns
0 having taken at least one byte or returns -1 having taken none. -/
theorem pulls_open (sizes : List Nat) :
    ∀ s : TencentSynthesizer, (s.mIsStop = true ∨ s.mIsEnd = true) → (∀ n ∈ sizes, 0 < n) →
      (pulls s sizes).1.length = sizes.length ∧
      ((pulls s sizes).1.map Prod.snd).flatten = s.mAudioData.take sizes.sum ∧
      (pulls s sizes).2 = { s with mAudioData := s.mAudioData.drop sizes.sum } ∧
      (∀ p ∈ (pulls s sizes).1, (p.1 = 0 ∧ p.2 ≠ []) ∨ (p.1 = -1 ∧ p.2 = [])) := by
  induction sizes with
  | nil => intro s _ _; simp [pulls]
  | cons n ns ih =>
    intro s hopen hpos
    have hn : 0 < n := hpos n (by simp)
    have hw : s.mIsStop = true ∨ s.mIsEnd = true ∨ n ≤ s.mAudioData.length := by
      rcases hopen with h | h
      · exact Or.inl h
      · exact Or.inr (Or.inl h)
    have hread := Synthesizer.read_of_wait s n hn hw
    have hopen2 : ({ s with mAudioData := s.mAudioData.drop n } : TencentSynthesizer).mIsStop = true ∨
        ({ s with mAudioData := s.mAudioData.drop n } : TencentSynthesizer).mIsEnd = true := hopen
    obtain ⟨h1, h2, h3, h4⟩ := ih _ hopen2 (fun m hm => hpos m (List.mem_cons_of_mem _ hm))
    simp only [pulls, hread, dequeued_of_drop]
    refine ⟨by simp [h1], ?_, ?_, ?_⟩
    · simp only [List.map_cons, List.flatten_cons, h2, List.sum_cons]
      rw [List.take_add]
    · rw [h3]
      simp [List.drop_drop, Nat.add_comm]
    · intro p hp
      rcases List.mem_cons.mp hp with hp | hp
      · subst hp
        by_cases he : s.mAudioData = []
        · right; simp [he]
        · left
          refine ⟨by simp [he], ?_⟩
          simp only [ne_eq, List.take_eq_nil_iff, he, or_false]
          omega
      · exact h4 p hp


/-- C10. `Synthesizer::pushData(data, len)` on a buffer that is neither stopped
nor ended changes only the queue, which becomes the old queue followed by the
bytes of `data` in order; on a stopped or ended buffer it changes nothing; the
two flags are unchanged in both cases. -/
theorem pushData_spec (s : TencentSynthesizer) (data : List Byte) :
    (s.mIsStop = false ∧ s.mIsEnd = false →
      Synthesizer.pushData s data = { s with mAudioData := s.mAudioData ++ data }) ∧
    (s.mIsStop = true ∨ s.mIsEnd = true → Synthesizer.pushData s data = s) ∧
    (Synthesizer.pushData s data).mIsStop = s.mIsStop ∧
    (Synthesizer.pushData s data).mIsEnd = s.mIsEnd := by
  unfold Synthesizer.pushData
  refine ⟨?_, ?_, ?_, ?_⟩
  · rintro ⟨hs, he⟩; simp [hs, he]
  · intro h; simp [h]
  · split <;> rfl
  · split <;> rfl

/-- C10 on the running `demoSynthesizer`, and on the ended `scenarioB`. -/
theorem pushData_spec_witness :
    (Synthesizer.pushData demoSynthesizer [1, 2]).mAudioData = [1, 2] ∧
    Synthesizer.pushData scenarioB [1, 2] = scenarioB :=
  ⟨by rw [(pushData_spec demoSynthesizer [1, 2]).1 ⟨rfl, rfl⟩]; rfl,
   (pushData_spec scenarioB [1, 2]).2.1 (Or.inr rfl)⟩

/-- C8 (the code at the failing input). A second `onSynthesisEnd`, made when the
end flag is already set, appends another `160 * 5` zero bytes to the queue. -/
theorem onSynthesisEnd_twice_appends (s : TencentSynthesizer) :
    (Synthesizer.onSynthesisEnd s).mIsEnd = true ∧
    (Synthesizer.onSynthesisEnd (Synthesizer.onSynthesisEnd s)).mAudioData =
      (Synthesizer.onSynthesisEnd s).mAudioData ++ List.replicate 800 0 ∧
    (Synthesizer.onSynthesisEnd (Synthesizer.onSynthesisEnd demoSynthesizer)).mAudioData.length =
      1600 := by
  refine ⟨rfl, rfl, ?_⟩
  simp only [Synthesizer.onSynthesisEnd, demoSynthesizer, silence, List.length_append,
    List.length_replicate, List.length_nil]

/-! ### Round trip -/

theorem pushAllThenEnd_eq (s : TencentSynthesizer) (chunks : List (List Byte))
    (hs : s.mIsStop = false) (he : s.mIsEnd = false) :
    pushAllThenEnd s chunks =
      { s with mIsEnd := true, mAudioData := s.mAudioData ++ chunks.flatten ++ silence } := by
  simp [pushAllThenEnd, foldl_pushData chunks s hs he, Synthesizer.onSynthesisEnd]

/-- C6 as amended. On a buffer that is neither stopped nor ended and whose queue
is empty, after any chunks are pushed and the end is signalled once, successive
reads of any positive sizes all return, and the bytes they take off the queue,
concatenated, are the first bytes (as many as the sizes add up to) of the pushed
chunks in order followed by the `160 * 5` zero bytes of `onSynthesisEnd`; each
read returns 0 having taken at least one byte or -1 having taken none; and once
the sizes add up to the length of all that, every further read of a positive
size returns -1 and changes nothing. -/
theorem relay_round_trip_with_silence (s : TencentSynthesizer) (chunks : List (List Byte))
    (sizes : List Nat) (hq : s.mAudioData = []) (hs : s.mIsStop = false)
    (he : s.mIsEnd = false) (hpos : ∀ n ∈ sizes, 0 < n) :
    (pulls (pushAllThenEnd s chunks) sizes).1.length = sizes.length ∧
    delivered (pushAllThenEnd s chunks) sizes =
      (chunks.flatten ++ List.replicate 800 0).take sizes.sum ∧
    (∀ p ∈ (pulls (pushAllThenEnd s chunks) sizes).1,
      (p.1 = 0 ∧ p.2 ≠ []) ∨ (p.1 = -1 ∧ p.2 = [])) ∧
    ((chunks.flatten ++ List.replicate 800 0).length ≤ sizes.sum →
      delivered (pushAllThenEnd s chunks) sizes = chunks.flatten ++ List.replicate 800 0 ∧
      ∀ n : Nat, 0 < n →
        Synthesizer.read (pulls (pushAllThenEnd s chunks) sizes).2 n =
          .ok { ret := -1, buff := List.replicate n 0,
                next := (pulls (pushAllThenEnd s chunks) sizes).2 }) := by
  have hend : (pushAllThenEnd s chunks).mIsEnd = true := by
    rw [pushAllThenEnd_eq s chunks hs he]
  have hqueue : (pushAllThenEnd s chunks).mAudioData = chunks.flatten ++ List.replicate 800 0 := by
    rw [pushAllThenEnd_eq s chunks hs he]
    simp only [hq, List.nil_append]
    rfl
  obtain ⟨h1, h2, h3, h4⟩ := pulls_open sizes (pushAllThenEnd s chunks) (Or.inr hend) hpos
  rw [hqueue] at h2 h3
  refine ⟨h1, h2, h4, ?_⟩
  intro hlen
  refine ⟨by rw [delivered, h2, List.take_of_length_le hlen], ?_⟩
  intro n hn
  have hempty : (pulls (pushAllThenEnd s chunks) sizes).2.mAudioData = [] := by
    rw [h3]
    exact List.drop_of_length_le hlen
  have hopen : (pulls (pushAllThenEnd s chunks) sizes).2.mIsEnd = true := by
    rw [h3]; exact hend
  rw [Synthesizer.read_of_wait _ n hn (Or.inr (Or.inl hopen))]
  generalize (pulls (pushAllThenEnd s chunks) sizes).2 = t at hempty
  cases t
  simp only at hempty
  simp [hempty]

set_option maxRecDepth 100000 in
/-- C6 as amended, at scenario B with three pulls of size 2. -/
theorem relay_round_trip_with_silence_witness :
    (∀ n ∈ [2, 2, 2], 0 < n) ∧
    delivered scenarioB [2, 2, 2] = [97, 98, 99, 100, 101, 0] :=
  ⟨by decide,
   by
    have h := (relay_round_trip_with_silence demoSynthesizer [[97, 98, 99], [100, 101]]
      [2, 2, 2] rfl rfl rfl (by decide)).2.1
    rw [scenarioB, h]
    decide⟩

set_option maxRecDepth 100000 in
/-- C6 refuted as stated, at scenario B (`"abc"`, `"de"`, end): the third pull of
size 2 takes `"e"` and a zero byte off the queue, not `"e"` alone; the fourth
pull returns 0, not end-of-stream; and pulling in chunks of 2 until nothing is
left does not yield `"abcde"`. -/
theorem relay_round_trip_counterexample :
    (pulls scenarioB [2, 2, 2]).1 = [(0, [97, 98]), (0, [99, 100]), (0, [101, 0])] ∧
    (Synthesizer.read (pulls scenarioB [2, 2, 2]).2 2).toOption.map ReadResult.ret = some 0 ∧
    delivered scenarioB (List.replicate 403 2) ≠ [97, 98, 99, 100, 101] := by
  have hend : scenarioB.mIsEnd = true := rfl
  refine ⟨by decide, by decide, ?_⟩
  intro h
  have h2 := (pulls_open (List.replicate 403 2) scenarioB (Or.inr hend)
    (by intro n hn; rw [List.eq_of_mem_replicate hn]; decide)).2.1
  have h3 := congrArg List.length (h2.symm.trans h)
  simp only [scenarioB, pushAllThenEnd, Synthesizer.onSynthesisEnd, Synthesizer.pushData,
    demoSynthesizer, silence, List.foldl_cons, List.foldl_nil, List.length_take,
    List.length_append, List.length_replicate, List.sum_replicate, List.length_cons,
    List.length_nil, List.nil_append] at h3
  simp at h3

/-! ### Reads after `stop()` -/

theorem Synthesizer.read_ok_next (s : TencentSynthesizer) (size : Int) (r : ReadResult)
    (h : Synthesizer.read s size = .ok r) :
    ∃ k, r.next = { s with mAudioData := s.mAudioData.drop k } := by
  unfold Synthesizer.read at h
  simp only at h
  split_ifs at h <;> cases h
  · exact ⟨0, by cases s; rfl⟩
  · exact ⟨_, rfl⟩
  · exact ⟨0, by cases s; rfl⟩
  · exact ⟨_, rfl⟩

theorem SynthCall.apply_rps (t : TencentSynthesizer) (c : SynthCall) (ht : t.mIsStop = true)
    (hc : c.isReadPushStop = true) :
    ∃ k, SynthCall.apply t c = { t with mAudioData := t.mAudioData.drop k } := by
  cases c with
  | read size =>
    simp only [SynthCall.apply]
    split
    · rename_i r hr
      exact Synthesizer.read_ok_next t size r hr
    · exact ⟨0, by cases t; rfl⟩
  | pushData data =>
    refine ⟨0, ?_⟩
    cases t
    simp_all [SynthCall.apply, Synthesizer.pushData]
  | stop =>
    refine ⟨0, ?_⟩
    cases t
    simp_all [SynthCall.apply, TencentSynthesizer.stop]
  | init _ => simp [SynthCall.isReadPushStop] at hc
  | onSynthesisEnd => simp [SynthCall.isReadPushStop] at hc
  | setSynthChannel _ => simp [SynthCall.isReadPushStop] at hc
  | setVoiceName _ => simp [SynthCall.isReadPushStop] at hc
  | setText _ => simp [SynthCall.isReadPushStop] at hc

theorem SynthCall.run_rps (calls : List SynthCall) :
    ∀ t : TencentSynthesizer, t.mIsStop = true →
      (∀ c ∈ calls, c.isReadPushStop = true) →
      ∃ k, SynthCall.run t calls = { t with mAudioData := t.mAudioData.drop k } := by
  induction calls with
  | nil => intro t _ _; exact ⟨0, by cases t; rfl⟩
  | cons c cs ih =>
    intro t ht hc
    obtain ⟨k, hk⟩ := SynthCall.apply_rps t c ht (hc c (by simp))
    obtain ⟨j, hj⟩ := ih (SynthCall.apply t c) (SynthCall.synth_apply_stopped t c ht)
      (fun d hd => hc d (List.mem_cons_of_mem _ hd))
    refine ⟨k + j, ?_⟩
    simp only [SynthCall.run, List.foldl_cons] at hj ⊢
    rw [hj, hk]
    simp [List.drop_drop, Nat.add_comm]

theorem TencentSynthesizer.stop_mAudioData (s : TencentSynthesizer) :
    (TencentSynthesizer.stop s).mAudioData = s.mAudioData := by
  unfold TencentSynthesizer.stop
  cases hs : s.mIsStop
  · cases hr : s.mSpeechSynthesizer <;> simp
  · simp [hs]

/-- C9 as amended. Once `stop()` has been called on a synthesis operation, and
whatever reads, pushes and further stops have followed, the queue is what is
left of the queue held at `stop()` after some bytes were taken from its front
(nothing was appended), and a read of a positive size returns at once: -1 with
nothing dequeued when the queue is empty, and otherwise 0 with the oldest
`min size (queued length)` bytes dequeued.  When the queue was empty at
`stop()`, every such read returns -1 and changes nothing. -/
theorem read_after_stop_drains (s : TencentSynthesizer) (calls : List SynthCall) (n : Nat)
    (hn : 0 < n) (hcalls : ∀ c ∈ calls, c.isReadPushStop = true) :
    (∃ k, (SynthCall.run (TencentSynthesizer.stop s) calls).mAudioData = s.mAudioData.drop k) ∧
    Synthesizer.read (SynthCall.run (TencentSynthesizer.stop s) calls) n =
      .ok { ret := if (SynthCall.run (TencentSynthesizer.stop s) calls).mAudioData = [] then -1
                   else 0,
            buff := (SynthCall.run (TencentSynthesizer.stop s) calls).mAudioData.take n ++
              List.replicate
                (n - min n (SynthCall.run (TencentSynthesizer.stop s) calls).mAudioData.length) 0,
            next := { SynthCall.run (TencentSynthesizer.stop s) calls with
              mAudioData :=
                (SynthCall.run (TencentSynthesizer.stop s) calls).mAudioData.drop n } } ∧
    (s.mAudioData = [] →
      Synthesizer.read (SynthCall.run (TencentSynthesizer.stop s) calls) n =
        .ok { ret := -1, buff := List.replicate n 0,
              next := SynthCall.run (TencentSynthesizer.stop s) calls }) := by
  have hstop := SynthCall.synth_run_stopped calls _ (TencentSynthesizer.synth_stop_mIsStop s)
  obtain ⟨k, hk⟩ := SynthCall.run_rps calls _ (TencentSynthesizer.synth_stop_mIsStop s) hcalls
  have hq : (SynthCall.run (TencentSynthesizer.stop s) calls).mAudioData = s.mAudioData.drop k := by
    rw [hk]
    simp [TencentSynthesizer.stop_mAudioData]
  have hread := Synthesizer.read_of_wait _ n hn (Or.inl hstop)
  refine ⟨⟨k, hq⟩, hread, ?_⟩
  intro he
  rw [hread]
  have hempty : (SynthCall.run (TencentSynthesizer.stop s) calls).mAudioData = [] := by
    rw [hq, he, List.drop_nil]
  generalize SynthCall.run (TencentSynthesizer.stop s) calls = t at hempty
  cases t
  simp only at hempty
  simp [hempty]

/-- C9 as amended, at `demoQueued` (three bytes queued): after `stop()`, a push and
a read of 2, a read of 2 returns 0 with the last byte. -/
theorem read_after_stop_drains_witness :
    (0 < 2) ∧ (∀ c ∈ [SynthCall.pushData [9], SynthCall.read 2], c.isReadPushStop = true) ∧
    (Synthesizer.read (SynthCall.run (TencentSynthesizer.stop demoQueued)
      [SynthCall.pushData [9], SynthCall.read 2]) (2 : Nat)).toOption.map
        (fun r => (r.ret, r.buff, r.next.mAudioData)) = some (0, [3, 0], []) :=
  ⟨by decide, by decide,
   by
    rw [(read_after_stop_drains demoQueued [SynthCall.pushData [9], SynthCall.read 2] 2
      (by decide) (by decide)).2.1]
    decide⟩

/-- C9 refuted as stated: `stop()` on a buffer holding three bytes, then a read of
size 2, returns 0 and dequeues two bytes. -/
theorem read_after_stop_counterexample :
    (Synthesizer.read (TencentSynthesizer.stop demoQueued) 2).toOption.map
      (fun r => (r.ret, r.buff, r.next.mAudioData)) = some (0, [1, 2], [3]) := by
  decide


/-! ## STOP requests -/

theorem recog_dispatch_stop (env : RecogEnv) (reg : Registry TencentRecognize)
    (channel : demo_recog_channel_t) (request : mrcp_message_t)
    (hm : request.method_id = .RECOGNIZER_STOP) :
    demo_recog_channel_request_dispatch env reg channel request =
      { registry := (Recognize.Del reg channel.channel).registry,
        channel := { channel with stop_response := some (mrcp_response_create request),
                                  recog_request := none },
        sent := [], stopped := (Recognize.Del reg channel.channel).stopped, signaled := [],
        ret := true } := by
  simp [demo_recog_channel_request_dispatch, hm, demo_recog_channel_stop]

theorem synth_dispatch_stop (env : SynthEnv) (reg : Registry TencentSynthesizer)
    (channel : demo_synth_channel_t) (request : mrcp_synth_message_t)
    (hm : request.method_id = .SYNTHESIZER_STOP) :
    demo_synth_channel_request_dispatch env reg channel request =
      some { registry := (Synthesizer.Del reg channel.channel).registry,
             channel := { channel with
               stop_response := some (SynthEngine.mrcp_response_create request),
               speak_request := none },
             sent := [], stopped := (Synthesizer.Del reg channel.channel).stopped,
             signaled := [], ret := true } := by
  simp [demo_synth_channel_request_dispatch, hm, demo_synth_channel_stop]

/-- C11. A STOP request handed to the dispatcher of the recognition plugin, and
of the synthesis plugin alike: the step sends no message; afterwards the channel
has no registry entry (`GetVoiceId` is empty), the operation it was mapped to,
if any, has had `stop()` called on it once and can no longer be looked up, the
response created for the request is stored as the pending stop response, and the
active request is cleared. -/
theorem stop_request_deletes_and_defers_reply (env : RecogEnv) (senv : SynthEnv)
    (reg : Registry TencentRecognize) (sreg : Registry TencentSynthesizer)
    (channel : demo_recog_channel_t) (schannel : demo_synth_channel_t)
    (request : mrcp_message_t) (srequest : mrcp_synth_message_t)
    (hm : request.method_id = .RECOGNIZER_STOP)
    (hs : srequest.method_id = .SYNTHESIZER_STOP) :
    ((demo_recog_channel_request_dispatch env reg channel request).sent = [] ∧
      Recognize.GetVoiceId (demo_recog_channel_request_dispatch env reg channel request).registry
        channel.channel = "" ∧
      (Recognize.GetVoiceId reg channel.channel ≠ "" →
        (demo_recog_channel_request_dispatch env reg channel request).stopped =
          ((Recognize.GetRecognize reg (Recognize.GetVoiceId reg channel.channel)).map
            TencentRecognize.stop).toList ∧
        Recognize.GetRecognize (demo_recog_channel_request_dispatch env reg channel request).registry
          (Recognize.GetVoiceId reg channel.channel) = none) ∧
      (demo_recog_channel_request_dispatch env reg channel request).channel.stop_response =
        some (mrcp_response_create request) ∧
      (demo_recog_channel_request_dispatch env reg channel request).channel.recog_request = none) ∧
    (∃ r, demo_synth_channel_request_dispatch senv sreg schannel srequest = some r ∧
      r.sent = [] ∧
      Synthesizer.GetVoiceId r.registry schannel.channel = "" ∧
      (Synthesizer.GetVoiceId sreg schannel.channel ≠ "" →
        r.stopped =
          ((Synthesizer.GetSynthesizer sreg (Synthesizer.GetVoiceId sreg schannel.channel)).map
            TencentSynthesizer.stop).toList ∧
        Synthesizer.GetSynthesizer r.registry
          (Synthesizer.GetVoiceId sreg schannel.channel) = none) ∧
      r.channel.stop_response = some (SynthEngine.mrcp_response_create srequest) ∧
      r.channel.speak_request = none) := by
  constructor
  · rw [recog_dispatch_stop env reg channel request hm]
    have h := Registry.Del_spec TencentRecognize.stop reg channel.channel
    refine ⟨rfl, Registry.GetVoiceId_Del _ _ _, fun hv => ?_, rfl, rfl⟩
    exact ⟨(h.1 hv).1, (h.1 hv).2.2.1⟩
  · refine ⟨_, synth_dispatch_stop senv sreg schannel srequest hs, rfl,
      Registry.GetVoiceId_Del _ _ _, fun hv => ?_, rfl, rfl⟩
    have h := Registry.Del_spec TencentSynthesizer.stop sreg schannel.channel
    exact ⟨(h.1 hv).1, (h.1 hv).2.2.1⟩

/-- C11 at a STOP on `ch1`, mapped to the started operation `v1`, in both plugins. -/
theorem stop_request_deletes_and_defers_reply_witness :
    (demo_recog_channel_request_dispatch (demoEnv []) demoRecogRegistry demoRecogChannel
      (demoRequest .RECOGNIZER_STOP 2 "")).sent = [] ∧
    (demo_recog_channel_request_dispatch (demoEnv []) demoRecogRegistry demoRecogChannel
      (demoRequest .RECOGNIZER_STOP 2 "")).stopped = [TencentRecognize.stop demoRecognize] ∧
    (demo_recog_channel_request_dispatch (demoEnv []) demoRecogRegistry demoRecogChannel
      (demoRequest .RECOGNIZER_STOP 2 "")).channel.recog_request = none :=
  ⟨(stop_request_deletes_and_defers_reply (demoEnv []) (demoSynthEnv []) demoRecogRegistry
      demoSynthRegistry demoRecogChannel demoSynthChannel (demoRequest .RECOGNIZER_STOP 2 "")
      (demoSynthRequest .SYNTHESIZER_STOP 2 "") rfl rfl).1.1,
   ((stop_request_deletes_and_defers_reply (demoEnv []) (demoSynthEnv []) demoRecogRegistry
      demoSynthRegistry demoRecogChannel demoSynthChannel (demoRequest .RECOGNIZER_STOP 2 "")
      (demoSynthRequest .SYNTHESIZER_STOP 2 "") rfl rfl).1.2.2.1 (by decide)).1,
   (stop_request_deletes_and_defers_reply (demoEnv []) (demoSynthEnv []) demoRecogRegistry
      demoSynthRegistry demoRecogChannel demoSynthChannel (demoRequest .RECOGNIZER_STOP 2 "")
      (demoSynthRequest .SYNTHESIZER_STOP 2 "") rfl rfl).1.2.2.2.2⟩


/-! ## The audio tick after a STOP -/

theorem stream_write_pending (reg : Registry TencentRecognize) (channel : demo_recog_channel_t)
    (frame : mpf_frame_t) (response : mrcp_message_t)
    (hp : channel.stop_response = some response) :
    demo_recog_stream_write reg channel frame =
      some { registry := reg, channel := { channel with stop_response := none },
             sent := [response], stopped := [], signaled := [], ret := true } := by
  simp [demo_recog_stream_write, hp]

theorem stream_write_idle (reg : Registry TencentRecognize) (channel : demo_recog_channel_t)
    (frame : mpf_frame_t) (hp : channel.stop_response = none)
    (hv : Recognize.GetVoiceId reg channel.channel = "" ∨
      Recognize.GetRecognize reg (Recognize.GetVoiceId reg channel.channel) = none) :
    demo_recog_stream_write reg channel frame =
      some { registry := reg, channel := channel, sent := [], stopped := [], signaled := [],
             ret := true } := by
  unfold demo_recog_stream_write
  simp only [hp]
  by_cases ha : frame.audio = true
  · rcases hv with hv | hv
    · simp [ha, hv]
    · by_cases hv2 : Recognize.GetVoiceId reg channel.channel = ""
      · simp [ha, hv2]
      · simp [ha, hv2, hv]
  · simp [ha]

theorem recogTicks_idle (frames : List mpf_frame_t) (reg : Registry TencentRecognize)
    (channel : demo_recog_channel_t) (hp : channel.stop_response = none)
    (hv : Recognize.GetVoiceId reg channel.channel = "") :
    recogTicks reg channel frames =
      some { registry := reg, channel := channel, sent := [], stopped := [], signaled := [],
             ret := true } := by
  induction frames with
  | nil => rfl
  | cons f fs ih =>
    simp [recogTicks, stream_write_idle reg channel f hp (Or.inl hv), ih]

/-- C12. A call of `demo_recog_stream_write` on a channel with a pending stop
response sends exactly that response, clears the pending response and touches
neither the registry nor any operation.  Hence, after a STOP request was handed
to the dispatcher (a step that sends nothing), the first audio tick sends the
response to that request, and the ticks that follow, however many, send nothing
more and leave the registry, in which the channel has no entry, as the stop left
it (no operation is written to): over the stop and all the ticks the response is
sent exactly once. -/
theorem stop_reply_sent_once_by_next_tick (env : RecogEnv) (reg reg0 : Registry TencentRecognize)
    (channel channel0 : demo_recog_channel_t) (request response : mrcp_message_t)
    (frame : mpf_frame_t) (frames : List mpf_frame_t)
    (hp : channel0.stop_response = some response)
    (hm : request.method_id = .RECOGNIZER_STOP) :
    demo_recog_stream_write reg0 channel0 frame =
      some { registry := reg0, channel := { channel0 with stop_response := none },
             sent := [response], stopped := [], signaled := [], ret := true } ∧
    (demo_recog_channel_request_dispatch env reg channel request).sent = [] ∧
    demo_recog_stream_write (demo_recog_channel_request_dispatch env reg channel request).registry
        (demo_recog_channel_request_dispatch env reg channel request).channel frame =
      some { registry := (demo_recog_channel_request_dispatch env reg channel request).registry,
             channel := { (demo_recog_channel_request_dispatch env reg channel request).channel
                          with stop_response := none },
             sent := [mrcp_response_create request], stopped := [], signaled := [],
             ret := true } ∧
    recogTicks (demo_recog_channel_request_dispatch env reg channel request).registry
        (demo_recog_channel_request_dispatch env reg channel request).channel (frame :: frames) =
      some { registry := (demo_recog_channel_request_dispatch env reg channel request).registry,
             channel := { (demo_recog_channel_request_dispatch env reg channel request).channel
                          with stop_response := none },
             sent := [mrcp_response_create request], stopped := [], signaled := [],
             ret := true } ∧
    Recognize.GetVoiceId (demo_recog_channel_request_dispatch env reg channel request).registry
      channel.channel = "" := by
  have hd := recog_dispatch_stop env reg channel request hm
  have hpend : (demo_recog_channel_request_dispatch env reg channel request).channel.stop_response =
      some (mrcp_response_create request) := by rw [hd]
  have hgone : Recognize.GetVoiceId
      (demo_recog_channel_request_dispatch env reg channel request).registry
      channel.channel = "" := by
    rw [hd]; exact Registry.GetVoiceId_Del _ _ _
  have hch : (demo_recog_channel_request_dispatch env reg channel request).channel.channel =
      channel.channel := by rw [hd]
  have htick := stream_write_pending
    (demo_recog_channel_request_dispatch env reg channel request).registry
    (demo_recog_channel_request_dispatch env reg channel request).channel frame _ hpend
  refine ⟨stream_write_pending reg0 channel0 frame response hp, by rw [hd], htick, ?_, hgone⟩
  simp only [recogTicks, htick, Option.some_bind]
  rw [recogTicks_idle frames _ _ rfl (by simpa [hch] using hgone)]
  rfl

/-- C12 at a STOP on the active channel `ch1` followed by three audio ticks. -/
theorem stop_reply_sent_once_by_next_tick_witness :
    (recogTicks
      (demo_recog_channel_request_dispatch (demoEnv []) demoRecogRegistry demoRecogChannel
        (demoRequest .RECOGNIZER_STOP 2 "")).registry
      (demo_recog_channel_request_dispatch (demoEnv []) demoRecogRegistry demoRecogChannel
        (demoRequest .RECOGNIZER_STOP 2 "")).channel
      [demoFrame, demoFrame, demoFrame]).map RecogStep.sent =
      some [mrcp_response_create (demoRequest .RECOGNIZER_STOP 2 "")] := by
  rw [(stop_reply_sent_once_by_next_tick (demoEnv []) demoRecogRegistry demoRecogRegistry
    demoRecogChannel
    { demoRecogChannel with stop_response := some (demoRequest .RECOGNIZER_STOP 9 "") }
    (demoRequest .RECOGNIZER_STOP 2 "") (demoRequest .RECOGNIZER_STOP 9 "") demoFrame
    [demoFrame, demoFrame] rfl rfl).2.2.2.1]
  rfl


/-! ## One response for each request -/

theorem recognition_complete_events (pl : ProtocolLayer) (channel : demo_recog_channel_t)
    (cause : mrcp_recog_completion_cause_e) (body : String) :
    ∀ m ∈ (demo_recog_recognition_complete pl channel cause body).2.2,
      m.message_type = .MRCP_MESSAGE_TYPE_EVENT := by
  intro m hm
  unfold demo_recog_recognition_complete at hm
  cases hr : channel.recog_request with
  | none => simp [hr] at hm
  | some req =>
    by_cases he : pl.event_created = true
    · simp only [hr, mrcp_event_create, he, if_true, demo_recog_result_load] at hm
      split_ifs at hm <;> simp at hm <;> subst hm <;> rfl
    · simp [hr, mrcp_event_create, he] at hm

theorem recognize_failed_of (env : RecogEnv) (reg : Registry TencentRecognize)
    (channel : demo_recog_channel_t) (request : mrcp_message_t)
    (hf : env.descriptor = false ∨ env.startRet < 0) :
    demo_recog_channel_recognize env reg channel request =
      recognizeFailed env reg channel request := by
  unfold demo_recog_channel_recognize recognizeFailed
  rcases hf with hd | hs
  · simp [hd]
  · by_cases hd : env.descriptor = true
    · by_cases hv : Recognize.GetVoiceId reg channel.channel = ""
      · cases hcr : Recognize.Create env.ini env.a_uuid channel.channel with
        | none => simp [hd, hv, hcr]
        | some recognize => simp [hd, hv, hcr, TencentRecognize.init, hs]
      · simp [hd, hv]
    · simp [hd]

theorem recognize_sent_events (env : RecogEnv) (reg : Registry TencentRecognize)
    (channel : demo_recog_channel_t) (request : mrcp_message_t) :
    ∀ m ∈ (demo_recog_channel_recognize env reg channel request).sent,
      m.message_type = .MRCP_MESSAGE_TYPE_EVENT := by
  have hfail : ∀ m ∈ (recognizeFailed env reg channel request).sent,
      m.message_type = .MRCP_MESSAGE_TYPE_EVENT :=
    recognition_complete_events _ _ _ _
  by_cases hf : env.descriptor = false ∨ env.startRet < 0
  · rw [recognize_failed_of env reg channel request hf]; exact hfail
  · have hd : env.descriptor = true := by
      cases h : env.descriptor
      · exact absurd (Or.inl h) hf
      · rfl
    have hs : ¬ env.startRet < 0 := fun h => hf (Or.inr h)
    by_cases hv : Recognize.GetVoiceId reg channel.channel = ""
    · cases hcr : Recognize.Create env.ini env.a_uuid channel.channel with
      | none =>
        have : demo_recog_channel_recognize env reg channel request =
            recognizeFailed env reg channel request := by
          simp [demo_recog_channel_recognize, recognizeFailed, hd, hv, hcr]
        rw [this]; exact hfail
      | some recognize =>
        intro m hm
        simp [demo_recog_channel_recognize, hd, hv, hcr, TencentRecognize.init, hs] at hm
    · have : demo_recog_channel_recognize env reg channel request =
          recognizeFailed env reg channel request := by
        simp [demo_recog_channel_recognize, recognizeFailed, hd, hv]
      rw [this]; exact hfail


theorem recognize_responses (env : RecogEnv) (reg : Registry TencentRecognize)
    (channel : demo_recog_channel_t) (request : mrcp_message_t) :
    (demo_recog_channel_recognize env reg channel request).sent.filter
      (fun m => decide (m.message_type = .MRCP_MESSAGE_TYPE_RESPONSE)) = [] := by
  apply List.filter_eq_nil_iff.mpr
  intro m hm
  rw [recognize_sent_events env reg channel request m hm]
  decide

theorem recognize_ret (env : RecogEnv) (reg : Registry TencentRecognize)
    (channel : demo_recog_channel_t) (request : mrcp_message_t) :
    (demo_recog_channel_recognize env reg channel request).ret = true := by
  unfold demo_recog_channel_recognize
  by_cases hd : env.descriptor = true
  · by_cases hv : Recognize.GetVoiceId reg channel.channel = ""
    · cases hcr : Recognize.Create env.ini env.a_uuid channel.channel with
      | none => simp [hd, hv, hcr]
      | some recognize =>
        simp only [hd, hv, hcr, not_true_eq_false, ne_eq, if_false, if_true]
        split_ifs <;> rfl
    · simp [hd, hv]
  · simp [hd]

/-- C13 (the code at the failing input, and elsewhere). For a START-INPUT-TIMERS
request for which the protocol layer's send returns `FALSE`, the handler's
response is followed by the same response sent once more by the dispatcher: two
responses for one request.  For every other method, and for START-INPUT-TIMERS
when the send returns `TRUE`, exactly one response is sent for the request. -/
theorem timers_start_failed_send_answers_twice (signal_status : Bool) (env : RecogEnv)
    (reg : Registry TencentRecognize) (channel : demo_recog_channel_t)
    (request : mrcp_message_t) (frame : mpf_frame_t) :
    (request.method_id = .RECOGNIZER_START_INPUT_TIMERS → env.pl.message_sent = false →
      recogResponses signal_status env reg channel request frame =
        [mrcp_response_create request, mrcp_response_create request]) ∧
    (request.method_id ≠ .RECOGNIZER_START_INPUT_TIMERS ∨ env.pl.message_sent = true →
      (recogResponses signal_status env reg channel request frame).length = 1) := by
  constructor
  · intro hm hs
    simp [recogResponses, demo_recog_channel_request_process, demo_recog_channel_request_dispatch,
      hm, demo_recog_channel_timers_start, hs, mrcp_response_create]
  · intro h
    cases hm : request.method_id with
    | RECOGNIZER_RECOGNIZE =>
      have hr := recognize_responses env reg channel request
      have hret := recognize_ret env reg channel request
      simp [recogResponses, demo_recog_channel_request_process,
        demo_recog_channel_request_dispatch, hm, hret, hr, mrcp_response_create]
    | RECOGNIZER_STOP =>
      simp [recogResponses, demo_recog_channel_request_process,
        demo_recog_channel_request_dispatch, hm, demo_recog_channel_stop,
        demo_recog_stream_write, mrcp_response_create]
    | RECOGNIZER_START_INPUT_TIMERS =>
      have hs : env.pl.message_sent = true := by
        rcases h with h | h
        · exact absurd hm h
        · exact h
      simp [recogResponses, demo_recog_channel_request_process,
        demo_recog_channel_request_dispatch, hm, demo_recog_channel_timers_start, hs,
        mrcp_response_create]
    | RECOGNIZER_SET_PARAMS =>
      simp [recogResponses, demo_recog_channel_request_process,
        demo_recog_channel_request_dispatch, hm, mrcp_response_create]
    | RECOGNIZER_GET_PARAMS =>
      simp [recogResponses, demo_recog_channel_request_process,
        demo_recog_channel_request_dispatch, hm, mrcp_response_create]
    | RECOGNIZER_DEFINE_GRAMMAR =>
      simp [recogResponses, demo_recog_channel_request_process,
        demo_recog_channel_request_dispatch, hm, mrcp_response_create]
    | RECOGNIZER_GET_RESULT =>
      simp [recogResponses, demo_recog_channel_request_process,
        demo_recog_channel_request_dispatch, hm, mrcp_response_create]
    | OTHER id =>
      simp [recogResponses, demo_recog_channel_request_process,
        demo_recog_channel_request_dispatch, hm, mrcp_response_create]

/-! ## Requests the plugin does not handle -/

/-- C14 as amended. For a recognition request whose method the plugin does not
handle (SET-PARAMS, GET-PARAMS, DEFINE-GRAMMAR, GET-RESULT or an unknown method
id), `demo_recog_channel_request_process` sends nothing and the dispatcher sends
exactly one message, the response created for the request and left as created
(a response whose request state is complete); no event is sent, and the
registry and the whole channel struct (active request, pending stop response,
timers flag) are unchanged. -/
theorem unhandled_request_gets_plain_response (signal_status : Bool) (env : RecogEnv)
    (reg : Registry TencentRecognize) (channel : demo_recog_channel_t)
    (request : mrcp_message_t) (hu : unhandledMethod request.method_id = true) :
    (demo_recog_channel_request_process signal_status reg channel request).sent = [] ∧
    (demo_recog_channel_request_process signal_status reg channel request).registry = reg ∧
    (demo_recog_channel_request_process signal_status reg channel request).channel = channel ∧
    demo_recog_channel_request_dispatch env reg channel request =
      { registry := reg, channel := channel, sent := [mrcp_response_create request],
        stopped := [], signaled := [], ret := true } ∧
    (mrcp_response_create request).message_type = .MRCP_MESSAGE_TYPE_RESPONSE ∧
    (mrcp_response_create request).request_state = .MRCP_REQUEST_STATE_COMPLETE := by
  cases hm : request.method_id <;>
    simp [hm, unhandledMethod] at hu <;>
    simp [demo_recog_channel_request_process, demo_recog_channel_request_dispatch, hm,
      mrcp_response_create]

/-- C14 as amended, at a SET-PARAMS request on the active channel `ch1`. -/
theorem unhandled_request_gets_plain_response_witness :
    unhandledMethod (demoRequest .RECOGNIZER_SET_PARAMS 5 "").method_id = true ∧
    demo_recog_channel_request_dispatch (demoEnv []) demoRecogRegistry demoRecogChannel
        (demoRequest .RECOGNIZER_SET_PARAMS 5 "") =
      { registry := demoRecogRegistry, channel := demoRecogChannel,
        sent := [mrcp_response_create (demoRequest .RECOGNIZER_SET_PARAMS 5 "")],
        stopped := [], signaled := [], ret := true } :=
  ⟨rfl, (unhandled_request_gets_plain_response true (demoEnv []) demoRecogRegistry
    demoRecogChannel (demoRequest .RECOGNIZER_SET_PARAMS 5 "") rfl).2.2.2.1⟩

/-- C14 refuted as stated: the one reply to a SET-PARAMS request has request
state complete, not in-progress. -/
theorem unhandled_request_counterexample :
    (demo_recog_channel_request_process true demoRecogRegistry demoRecogChannel
      (demoRequest .RECOGNIZER_SET_PARAMS 5 "")).sent = [] ∧
    (demo_recog_channel_request_dispatch (demoEnv []) demoRecogRegistry demoRecogChannel
      (demoRequest .RECOGNIZER_SET_PARAMS 5 "")).sent.map mrcp_message_t.request_state =
      [.MRCP_REQUEST_STATE_COMPLETE] ∧
    mrcp_request_state_e.MRCP_REQUEST_STATE_COMPLETE ≠ .MRCP_REQUEST_STATE_INPROGRESS := by
  decide

/-! ## Failed starts -/

/-- C15 (the code at the failing input). In `demo_recog_channel_recognize`, when
the codec descriptor is absent or the vendor's `Start()` fails (and the protocol
layer supplies the event and its header), no operation is registered and exactly
one RECOGNITION-COMPLETE event with completion cause error is sent; but this
event has request state in-progress, and the channel's active request is still
the failed request. -/
theorem recognize_failure_not_terminal (env : RecogEnv) (reg : Registry TencentRecognize)
    (channel : demo_recog_channel_t) (request : mrcp_message_t)
    (hf : env.descriptor = false ∨ env.startRet < 0)
    (he : env.pl.event_created = true) (hh : env.pl.resource_header_prepared = true) :
    (demo_recog_channel_recognize env reg channel request).registry = reg ∧
    (demo_recog_channel_recognize env reg channel request).sent = [errorCompletion request] ∧
    (errorCompletion request).event_id = some .RECOGNIZER_RECOGNITION_COMPLETE ∧
    (errorCompletion request).completion_cause = some .RECOGNIZER_COMPLETION_CAUSE_ERROR ∧
    (errorCompletion request).request_state = .MRCP_REQUEST_STATE_INPROGRESS ∧
    (demo_recog_channel_recognize env reg channel request).channel.recog_request =
      some request := by
  rw [recognize_failed_of env reg channel request hf]
  have hc := recognition_complete_error env.pl { channel with recog_request := some request }
    request rfl he hh
  simp [recognizeFailed, hc, errorCompletion]


/-- C15 at a RECOGNIZE request on `ch1` when no codec descriptor is available. -/
theorem recognize_failure_not_terminal_witness :
    (demo_recog_channel_recognize { demoEnv [1] with descriptor := false } Registry.empty
      (demo_recog_engine_channel_create "ch1") (demoRequest .RECOGNIZER_RECOGNIZE 1 "")).sent.map
        mrcp_message_t.request_state = [.MRCP_REQUEST_STATE_INPROGRESS] ∧
    (demo_recog_channel_recognize { demoEnv [1] with descriptor := false } Registry.empty
      (demo_recog_engine_channel_create "ch1")
      (demoRequest .RECOGNIZER_RECOGNIZE 1 "")).channel.recog_request =
        some (demoRequest .RECOGNIZER_RECOGNIZE 1 "") := by
  have h := recognize_failure_not_terminal { demoEnv [1] with descriptor := false }
    Registry.empty (demo_recog_engine_channel_create "ch1")
    (demoRequest .RECOGNIZER_RECOGNIZE 1 "") (Or.inl rfl) rfl rfl
  exact ⟨by rw [h.2.1]; rfl, h.2.2.2.2.2⟩

theorem sendError_active (pl : ProtocolLayer) (channel : demo_synth_channel_t)
    (request : mrcp_synth_message_t) (hr : channel.speak_request = some request)
    (he : pl.event_created = true) (hh : pl.resource_header_prepared = true) :
    SynthEngine.sendError pl channel =
      ({ channel with speak_request := none },
        [speakCompletion request .SYNTHESIZER_COMPLETION_CAUSE_ERROR]) := by
  simp [SynthEngine.sendError, hr, SynthEngine.mrcp_event_create, he, hh, speakCompletion]

theorem speak_failed_of (env : SynthEnv) (reg : Registry TencentSynthesizer)
    (channel : demo_synth_channel_t) (request : mrcp_synth_message_t)
    (hf : env.descriptor = false ∨ env.startRet < 0) :
    demo_synth_channel_speak env reg channel request =
      { registry := reg,
        channel := (SynthEngine.sendError env.pl { channel with speak_request := some request }).1,
        sent := (SynthEngine.sendError env.pl { channel with speak_request := some request }).2,
        stopped := [], signaled := [], ret := true } := by
  unfold demo_synth_channel_speak
  rcases hf with hd | hs
  · simp [hd]
  · by_cases hd : env.descriptor = true
    · by_cases hv : Synthesizer.GetVoiceId reg channel.channel = ""
      · cases hcr : Synthesizer.Create env.ini env.a_uuid channel.channel with
        | none => simp [hd, hv, hcr]
        | some synthesizer => simp [hd, hv, hcr, TencentSynthesizer.init, hs]
      · simp [hd, hv]
    · simp [hd]

/-- C16. In `demo_synth_channel_speak`, when the codec descriptor is absent or the
vendor's `Start()` fails, so that `init()` returns a negative value wherever it
is reached (and the protocol layer supplies the event and its header): exactly
one message is sent, the SPEAK-COMPLETE event for the request with completion
cause error and request state complete; the channel's active speak request is
cleared; and the registry is unchanged. -/
theorem speak_failure_is_terminal_error (env : SynthEnv) (reg : Registry TencentSynthesizer)
    (channel : demo_synth_channel_t) (request : mrcp_synth_message_t)
    (hf : env.descriptor = false ∨ env.startRet < 0)
    (he : env.pl.event_created = true) (hh : env.pl.resource_header_prepared = true) :
    (demo_synth_channel_speak env reg channel request).sent =
      [speakCompletion request .SYNTHESIZER_COMPLETION_CAUSE_ERROR] ∧
    (speakCompletion request .SYNTHESIZER_COMPLETION_CAUSE_ERROR).event_id =
      some .SYNTHESIZER_SPEAK_COMPLETE ∧
    (speakCompletion request .SYNTHESIZER_COMPLETION_CAUSE_ERROR).completion_cause =
      some .SYNTHESIZER_COMPLETION_CAUSE_ERROR ∧
    (speakCompletion request .SYNTHESIZER_COMPLETION_CAUSE_ERROR).request_state =
      .MRCP_REQUEST_STATE_COMPLETE ∧
    (demo_synth_channel_speak env reg channel request).channel.speak_request = none ∧
    (demo_synth_channel_speak env reg channel request).registry = reg ∧
    (demo_synth_channel_speak env reg channel request).stopped = [] := by
  rw [speak_failed_of env reg channel request hf,
    sendError_active env.pl { channel with speak_request := some request } request rfl he hh]
  exact ⟨rfl, rfl, rfl, rfl, rfl, rfl, rfl⟩

/-- C16 at a SPEAK request on `ch1` without a codec descriptor, and at one whose
vendor session fails to start. -/
theorem speak_failure_is_terminal_error_witness :
    (demo_synth_channel_speak { demoSynthEnv [1] with descriptor := false } Registry.empty
      (demo_synth_engine_channel_create "ch1") (demoSynthRequest .SYNTHESIZER_SPEAK 1 "hi")).sent =
      [speakCompletion (demoSynthRequest .SYNTHESIZER_SPEAK 1 "hi")
        .SYNTHESIZER_COMPLETION_CAUSE_ERROR] ∧
    (demo_synth_channel_speak { demoSynthEnv [1] with startRet := -1 } Registry.empty
      (demo_synth_engine_channel_create "ch1")
      (demoSynthRequest .SYNTHESIZER_SPEAK 1 "hi")).registry = Registry.empty :=
  ⟨(speak_failure_is_terminal_error { demoSynthEnv [1] with descriptor := false } Registry.empty
      (demo_synth_engine_channel_create "ch1") (demoSynthRequest .SYNTHESIZER_SPEAK 1 "hi")
      (Or.inl rfl) rfl rfl).1,
   (speak_failure_is_terminal_error { demoSynthEnv [1] with startRet := -1 } Registry.empty
      (demo_synth_engine_channel_create "ch1") (demoSynthRequest .SYNTHESIZER_SPEAK 1 "hi")
      (Or.inr (by decide)) rfl rfl).2.2.2.2.2.1⟩


/-! ## Vendor failures -/

theorem resultDocument_ne_empty (body : String) : resultDocument body ≠ "" := by
  intro h
  have := congrArg String.length h
  simp only [resultDocument, String.length_append] at this
  have h2 : 0 < "</nlresult></instance>\n    <input mode=\"speech\"></input>\n  </interpretation>\n</result>".length := by
    decide
  have h3 : ("" : String).length = 0 := rfl
  omega

theorem worker_sendComplete_active (pl : ProtocolLayer) (reg : Registry TencentRecognize)
    (channel : demo_recog_channel_t) (request : mrcp_message_t) (demo_msg : demo_recog_msg_t)
    (hr : channel.recog_request = some request) (he : pl.event_created = true)
    (hh : pl.resource_header_prepared = true) (hg : pl.generic_header_prepared = true) :
    (sendComplete pl reg channel demo_msg).sent =
      [recognitionCompletion request demo_msg.cause (demo_msg.data.getD "")] := by
  have hne := resultDocument_ne_empty (demo_msg.data.getD "")
  by_cases hc : demo_msg.cause = .RECOGNIZER_COMPLETION_CAUSE_SUCCESS
  · simp [sendComplete, demo_recog_recognition_complete, hr, mrcp_event_create, he, hh,
      demo_recog_result_load, hne, hg, hc, recognitionCompletion]
  · simp [sendComplete, demo_recog_recognition_complete, hr, mrcp_event_create, he, hh,
      demo_recog_result_load, hne, hg, hc, recognitionCompletion]

theorem voiceId_bar_ne_empty (voiceId : String) : voiceId ++ "|" ≠ "" := by
  intro h
  have := congrArg String.length h
  simp only [String.length_append] at this
  have h2 : "|".length = 1 := by decide
  have h3 : ("" : String).length = 0 := rfl
  omega

/-- C17 as amended. When `OnFail` fires for a registered recognition operation
that has its channel, it changes nothing in the registry and signals one
completion message for that channel whose text is the voice id followed by `|`
and nothing else, and whose cause is success, or partial-match when the
operation was started with `builtin:partial`.  The completion the worker then
emits for the channel's active request (the protocol layer supplying the event
and its headers) is the one RECOGNITION-COMPLETE event with that cause, never
error, and with the result document around that text as its body. -/
theorem onfail_completes_with_success (env : RecogEnv) (reg : Registry TencentRecognize)
    (rsp : SpeechRecognitionResponse) (recognize : TencentRecognize)
    (channel : demo_recog_channel_t) (request : mrcp_message_t)
    (hreg : Recognize.GetRecognize reg rsp.voice_id = some recognize)
    (hch : recognize.mRecogChannel = some channel.channel)
    (hr : channel.recog_request = some request)
    (he : env.pl.event_created = true) (hh : env.pl.resource_header_prepared = true)
    (hg : env.pl.generic_header_prepared = true) :
    ∃ demo_msg, OnFail reg rsp = some { registry := reg, signaled := [demo_msg] } ∧
      demo_msg.type = .DEMO_RECOG_MSG_COMPLETE ∧
      demo_msg.channel = channel.channel ∧
      demo_msg.cause =
        (if recognize.mIsPartial = true then .RECOGNIZER_COMPLETION_CAUSE_PARTIAL_MATCH
         else .RECOGNIZER_COMPLETION_CAUSE_SUCCESS) ∧
      demo_msg.cause ≠ .RECOGNIZER_COMPLETION_CAUSE_ERROR ∧
      demo_msg.data = some (recognize.mVoiceId ++ "|") ∧
      ∃ r, demo_recog_msg_process env reg channel demo_msg = some (r, []) ∧
        r.sent = [recognitionCompletion request demo_msg.cause (recognize.mVoiceId ++ "|")] ∧
        (recognitionCompletion request demo_msg.cause
          (recognize.mVoiceId ++ "|")).completion_cause = some demo_msg.cause ∧
        (recognitionCompletion request demo_msg.cause
          (recognize.mVoiceId ++ "|")).body ≠ "" := by
  have hb := voiceId_bar_ne_empty recognize.mVoiceId
  refine ⟨{ type := .DEMO_RECOG_MSG_COMPLETE, channel := channel.channel, request := none,
            cause := if recognize.mIsPartial = true then .RECOGNIZER_COMPLETION_CAUSE_PARTIAL_MATCH
                     else .RECOGNIZER_COMPLETION_CAUSE_SUCCESS,
            data := some (recognize.mVoiceId ++ "|") }, ?_, rfl, rfl, rfl, ?_, rfl, ?_⟩
  · simp [OnFail, hreg, Recognize.sendComplete, hch, hb]
  · simp only
    split <;> decide
  · refine ⟨_, rfl, ?_, rfl, resultDocument_ne_empty _⟩
    exact worker_sendComplete_active env.pl reg channel request _ hr he hh hg

/-- C17 as amended, at the failure of the operation `v1` of channel `ch1`. -/
theorem onfail_completes_with_success_witness :
    OnFail demoRecogRegistry demoFailure =
      some { registry := demoRecogRegistry, signaled := [demoFailureMsg] } ∧
    (demo_recog_msg_process (demoEnv []) demoRecogRegistry demoRecogChannel demoFailureMsg).map
      (fun r => r.1.sent) =
      some [recognitionCompletion (demoRequest .RECOGNIZER_RECOGNIZE 1 "")
        .RECOGNIZER_COMPLETION_CAUSE_SUCCESS "v1|"] := by
  obtain ⟨m, h1, _, _, h4, _, h6, r, h7, h8, _⟩ := onfail_completes_with_success (demoEnv [])
    demoRecogRegistry demoFailure demoRecognize demoRecogChannel
    (demoRequest .RECOGNIZER_RECOGNIZE 1 "") (by decide) rfl rfl rfl rfl rfl
  have hm : m = demoFailureMsg := by
    have : (OnFail demoRecogRegistry demoFailure) =
        some { registry := demoRecogRegistry, signaled := [demoFailureMsg] } := by decide
    rw [this] at h1
    simpa using h1.symm
  subst hm
  exact ⟨h1, by rw [h7]; simp [h8]; rfl⟩

/-- C17 refuted as stated: after `OnFail` for the registered operation `v1`, the
completion the worker emits carries completion cause success, not error, and a
body that is not empty. -/
theorem onfail_counterexample :
    (OnFail demoRecogRegistry demoFailure).map RecogCallback.signaled = some [demoFailureMsg] ∧
    (demo_recog_msg_process (demoEnv []) demoRecogRegistry demoRecogChannel demoFailureMsg).map
      (fun r => r.1.sent.map (fun m => (m.completion_cause, decide (m.body = "")))) =
      some [(some .RECOGNIZER_COMPLETION_CAUSE_SUCCESS, false)] := by
  decide


theorem synth_sendComplete_active (pl : ProtocolLayer) (reg : Registry TencentSynthesizer)
    (channel : demo_synth_channel_t) (request : mrcp_synth_message_t)
    (hr : channel.speak_request = some request) (he : pl.event_created = true)
    (hh : pl.resource_header_prepared = true) :
    SynthEngine.sendComplete pl reg channel =
      { registry := (Synthesizer.Del reg channel.channel).registry,
        channel := { channel with speak_request := none },
        sent := [speakCompletion request .SYNTHESIZER_COMPLETION_CAUSE_NORMAL],
        stopped := (Synthesizer.Del reg channel.channel).stopped, signaled := [],
        ret := true } := by
  simp [SynthEngine.sendComplete, hr, SynthEngine.mrcp_event_create, he, hh, speakCompletion]

/-- C18 as amended. When `OnSynthesisFail` fires for a registered synthesis
operation, it does to the operation what `onSynthesisEnd` does (the end flag is
set and the closing silence appended) and nothing else: it sends and signals
nothing.  The SPEAK-COMPLETE event for the channel's speak request is raised
later by the worker's `sendComplete`, which the audio thread signals once a read
returns -1, and that event carries completion cause normal and request state
complete (the protocol layer supplying the event and its header). -/
theorem synthesis_failure_completes_normally (pl : ProtocolLayer)
    (reg reg2 : Registry TencentSynthesizer) (rsp : SpeechSynthesisResponse)
    (synthesizer : TencentSynthesizer) (channel : demo_synth_channel_t)
    (request : mrcp_synth_message_t)
    (hreg : Synthesizer.GetSynthesizer reg rsp.session_id = some synthesizer)
    (hr : channel.speak_request = some request)
    (he : pl.event_created = true) (hh : pl.resource_header_prepared = true) :
    OnSynthesisFail reg rsp =
      Registry.modify reg rsp.session_id (Synthesizer.onSynthesisEnd synthesizer) ∧
    (SynthEngine.sendComplete pl reg2 channel).sent =
      [speakCompletion request .SYNTHESIZER_COMPLETION_CAUSE_NORMAL] ∧
    (speakCompletion request .SYNTHESIZER_COMPLETION_CAUSE_NORMAL).event_id =
      some .SYNTHESIZER_SPEAK_COMPLETE ∧
    (speakCompletion request .SYNTHESIZER_COMPLETION_CAUSE_NORMAL).completion_cause =
      some .SYNTHESIZER_COMPLETION_CAUSE_NORMAL ∧
    (speakCompletion request .SYNTHESIZER_COMPLETION_CAUSE_NORMAL).request_state =
      .MRCP_REQUEST_STATE_COMPLETE ∧
    (SynthEngine.sendComplete pl reg2 channel).channel.speak_request = none := by
  rw [synth_sendComplete_active pl reg2 channel request hr he hh]
  refine ⟨?_, rfl, rfl, rfl, rfl, rfl⟩
  simp [OnSynthesisFail, hreg]

set_option maxRecDepth 100000 in
/-- C18 as amended, at the failure of the operation `v1` of channel `ch1`. -/
theorem synthesis_failure_completes_normally_witness :
    Synthesizer.GetSynthesizer demoSynthRegistry demoSynthFailure.session_id =
      some demoSynthesizer ∧
    (SynthEngine.sendComplete (demoSynthEnv []).pl demoFailedDrained demoSynthChannel).sent =
      [speakCompletion (demoSynthRequest .SYNTHESIZER_SPEAK 1 "hello")
        .SYNTHESIZER_COMPLETION_CAUSE_NORMAL] :=
  ⟨by decide,
   (synthesis_failure_completes_normally (demoSynthEnv []).pl demoSynthRegistry demoFailedDrained
     demoSynthFailure demoSynthesizer demoSynthChannel
     (demoSynthRequest .SYNTHESIZER_SPEAK 1 "hello") (by decide) rfl rfl rfl).2.1⟩

set_option maxRecDepth 100000 in
/-- C18 refuted as stated: the vendor reports the failure of the registered
operation `v1`; the audio thread reads the closing silence, its next read
returns -1 and signals the worker; the SPEAK-COMPLETE event the worker then
emits carries completion cause normal, not error. -/
theorem synthesis_failure_counterexample :
    (match demo_synth_stream_read demoFailedDrained demoSynthChannel (demoSynthFrame 160) with
      | .ok r => r.1.signaled
      | .error _ => []) =
      [{ type := .DEMO_SYNTH_MSG_SEND_COMPLETE, channel := "ch1", request := none }] ∧
    (demo_synth_msg_process (demoSynthEnv []) demoFailedDrained demoSynthChannel
      { type := .DEMO_SYNTH_MSG_SEND_COMPLETE, channel := "ch1", request := none }).map
      (fun r => r.1.sent.map (fun m => (m.event_id, m.completion_cause))) =
      some [(some .SYNTHESIZER_SPEAK_COMPLETE, some .SYNTHESIZER_COMPLETION_CAUSE_NORMAL)] := by
  decide


/-! ## Operations that are not registered -/

theorem stream_read_idle (reg : Registry TencentSynthesizer) (channel : demo_synth_channel_t)
    (frame : mpf_frame_t) (hp : channel.stop_response = none)
    (hv : Synthesizer.GetVoiceId reg channel.channel = "" ∨
      Synthesizer.GetSynthesizer reg (Synthesizer.GetVoiceId reg channel.channel) = none) :
    demo_synth_stream_read reg channel frame =
      .ok ({ registry := reg, channel := channel, sent := [], stopped := [], signaled := [],
             ret := true }, frame) := by
  unfold demo_synth_stream_read
  simp only [hp]
  by_cases ha : channel.paused = true
  · simp [ha]
  · rcases hv with hv | hv
    · simp [ha, hv]
    · by_cases hv2 : Synthesizer.GetVoiceId reg channel.channel = ""
      · simp [ha, hv2]
      · simp [ha, hv2, hv]

/-- C19. An operation id that is not in the registry: each of the vendor
callbacks `OnFail`, `OnSentenceBegin`, `OnSentenceEnd` returns with the registry
as it was and no task message signalled, and each of `OnSynthesisFail`,
`OnAudioResult`, `OnSynthesisEnd` returns the registry as it was (these never
signal).  A channel without a pending stop response that has no registry entry,
or whose entry no longer resolves to an operation: `demo_recog_stream_write`
and `demo_synth_stream_read` return with the registry, the channel struct and
the frame as they were, nothing sent and nothing signalled. -/
theorem not_found_is_noop (reg : Registry TencentRecognize) (sreg : Registry TencentSynthesizer)
    (rsp : SpeechRecognitionResponse) (srsp : SpeechSynthesisResponse)
    (channel : demo_recog_channel_t) (schannel : demo_synth_channel_t) (frame : mpf_frame_t) :
    (Recognize.GetRecognize reg rsp.voice_id = none →
      OnFail reg rsp = some { registry := reg, signaled := [] } ∧
      OnSentenceBegin reg rsp = some { registry := reg, signaled := [] } ∧
      OnSentenceEnd reg rsp = some { registry := reg, signaled := [] }) ∧
    (Synthesizer.GetSynthesizer sreg srsp.session_id = none →
      OnSynthesisFail sreg srsp = sreg ∧ OnAudioResult sreg srsp = sreg ∧
      OnSynthesisEnd sreg srsp = sreg) ∧
    (channel.stop_response = none →
      (Recognize.GetVoiceId reg channel.channel = "" ∨
        Recognize.GetRecognize reg (Recognize.GetVoiceId reg channel.channel) = none) →
      demo_recog_stream_write reg channel frame =
        some { registry := reg, channel := channel, sent := [], stopped := [], signaled := [],
               ret := true }) ∧
    (schannel.stop_response = none →
      (Synthesizer.GetVoiceId sreg schannel.channel = "" ∨
        Synthesizer.GetSynthesizer sreg (Synthesizer.GetVoiceId sreg schannel.channel) = none) →
      demo_synth_stream_read sreg schannel frame =
        .ok ({ registry := sreg, channel := schannel, sent := [], stopped := [], signaled := [],
               ret := true }, frame)) := by
  refine ⟨fun h => ?_, fun h => ?_, stream_write_idle reg channel frame,
    stream_read_idle sreg schannel frame⟩
  · simp [OnFail, OnSentenceBegin, OnSentenceEnd, h]
  · simp [OnSynthesisFail, OnAudioResult, OnSynthesisEnd, h]

/-- C19 at callbacks for the unknown id `gone` and at audio ticks on the channel
`ch2`, which has no entry. -/
theorem not_found_is_noop_witness :
    OnFail demoRecogRegistry { voice_id := "gone", voice_text_str := "" } =
      some { registry := demoRecogRegistry, signaled := [] } ∧
    OnSynthesisEnd demoSynthRegistry { session_id := "gone", data := [1, 2] } =
      demoSynthRegistry ∧
    demo_recog_stream_write demoRecogRegistry (demo_recog_engine_channel_create "ch2") demoFrame =
      some { registry := demoRecogRegistry, channel := demo_recog_engine_channel_create "ch2",
             sent := [], stopped := [], signaled := [], ret := true } :=
  ⟨((not_found_is_noop demoRecogRegistry demoSynthRegistry
      { voice_id := "gone", voice_text_str := "" } { session_id := "gone", data := [1, 2] }
      (demo_recog_engine_channel_create "ch2") (demo_synth_engine_channel_create "ch2")
      demoFrame).1 (by decide)).1,
   ((not_found_is_noop demoRecogRegistry demoSynthRegistry
      { voice_id := "gone", voice_text_str := "" } { session_id := "gone", data := [1, 2] }
      (demo_recog_engine_channel_create "ch2") (demo_synth_engine_channel_create "ch2")
      demoFrame).2.1 (by decide)).2.2,
   (not_found_is_noop demoRecogRegistry demoSynthRegistry
      { voice_id := "gone", voice_text_str := "" } { session_id := "gone", data := [1, 2] }
      (demo_recog_engine_channel_create "ch2") (demo_synth_engine_channel_create "ch2")
      demoFrame).2.2.1 rfl (Or.inl (by decide))⟩

/-! ## `init()` -/

theorem recognize_keeps_registry_of_start_failure (env : RecogEnv)
    (reg : Registry TencentRecognize) (channel : demo_recog_channel_t)
    (request : mrcp_message_t) (hs : env.startRet < 0) :
    (demo_recog_channel_recognize env reg channel request).registry = reg := by
  rw [recognize_failed_of env reg channel request (Or.inr hs)]
  rfl

theorem speak_keeps_registry_of_start_failure (env : SynthEnv)
    (reg : Registry TencentSynthesizer) (channel : demo_synth_channel_t)
    (request : mrcp_synth_message_t) (hs : env.startRet < 0) :
    (demo_synth_channel_speak env reg channel request).registry = reg := by
  rw [speak_failed_of env reg channel request (Or.inr hs)]

/-- C20. For an operation that holds no vendor session yet (as `Create` returns
it), `TencentRecognize::init` and `TencentSynthesizer::init` return -1 exactly
when the vendor's `Start()` returns a negative value; in that case the operation
still holds no session, a later `stop()` reaches no vendor session, and
`demo_recog_channel_recognize` / `demo_synth_channel_speak` leave the registry
as it was; otherwise they return 0 and the operation holds the session that was
started for its voice id, with no `Stop` or `Write` received yet. -/
theorem init_fails_exactly_on_start_failure (r : TencentRecognize) (s : TencentSynthesizer)
    (startRet : Int) (hr : r.mSpeechRecognizer = none) (hs : s.mSpeechSynthesizer = none) :
    ((TencentRecognize.init r startRet).1 = -1 ↔ startRet < 0) ∧
    ((TencentSynthesizer.init s startRet).1 = -1 ↔ startRet < 0) ∧
    (startRet < 0 →
      (TencentRecognize.init r startRet).2.mSpeechRecognizer = none ∧
      (TencentRecognize.stop (TencentRecognize.init r startRet).2).mSpeechRecognizer = none ∧
      TencentRecognize.vendorStops (TencentRecognize.stop (TencentRecognize.init r startRet).2) = 0 ∧
      (TencentSynthesizer.init s startRet).2.mSpeechSynthesizer = none ∧
      (TencentSynthesizer.stop (TencentSynthesizer.init s startRet).2).mSpeechSynthesizer = none ∧
      TencentSynthesizer.vendorStops
        (TencentSynthesizer.stop (TencentSynthesizer.init s startRet).2) = 0 ∧
      (∀ (env : RecogEnv) (reg : Registry TencentRecognize) (channel : demo_recog_channel_t)
        (request : mrcp_message_t), env.startRet = startRet →
        (demo_recog_channel_recognize env reg channel request).registry = reg) ∧
      (∀ (env : SynthEnv) (reg : Registry TencentSynthesizer) (channel : demo_synth_channel_t)
        (request : mrcp_synth_message_t), env.startRet = startRet →
        (demo_synth_channel_speak env reg channel request).registry = reg)) ∧
    (0 ≤ startRet →
      (TencentRecognize.init r startRet).1 = 0 ∧
      (∃ sess, (TencentRecognize.init r startRet).2.mSpeechRecognizer = some sess ∧
        sess.voiceId = r.mVoiceId ∧ sess.stopCalls = 0 ∧ sess.written = []) ∧
      (TencentSynthesizer.init s startRet).1 = 0 ∧
      (∃ sess, (TencentSynthesizer.init s startRet).2.mSpeechSynthesizer = some sess ∧
        sess.sessionId = s.mVoiceId ∧ sess.stops = [])) := by
  refine ⟨?_, ?_, ?_, ?_⟩
  · by_cases h : startRet < 0 <;> simp [TencentRecognize.init, h]
  · by_cases h : startRet < 0 <;> simp [TencentSynthesizer.init, h]
  · intro h
    have h1 : (TencentRecognize.init r startRet).2.mSpeechRecognizer = none := by
      simp [TencentRecognize.init, h, Recognize.loadConfig, hr]
    have h2 : (TencentSynthesizer.init s startRet).2.mSpeechSynthesizer = none := by
      simp [TencentSynthesizer.init, h, Synthesizer.loadConfig, hs]
    have h3 : ∀ x : TencentRecognize, x.mSpeechRecognizer = none →
        (TencentRecognize.stop x).mSpeechRecognizer = none := by
      intro x hx
      unfold TencentRecognize.stop
      split
      · exact hx
      · simp [hx]
    have h4 : ∀ x : TencentSynthesizer, x.mSpeechSynthesizer = none →
        (TencentSynthesizer.stop x).mSpeechSynthesizer = none := by
      intro x hx
      unfold TencentSynthesizer.stop
      split
      · exact hx
      · simp [hx]
    refine ⟨h1, h3 _ h1, ?_, h2, h4 _ h2, ?_, ?_, ?_⟩
    · simp [TencentRecognize.vendorStops, h3 _ h1]
    · simp [TencentSynthesizer.vendorStops, h4 _ h2]
    · intro env reg channel request he
      exact recognize_keeps_registry_of_start_failure env reg channel request (he ▸ h)
    · intro env reg channel request he
      exact speak_keeps_registry_of_start_failure env reg channel request (he ▸ h)
  · intro h
    have h' : ¬ startRet < 0 := not_lt.mpr h
    refine ⟨by simp [TencentRecognize.init, h'], ⟨_, by simp [TencentRecognize.init, h']; rfl, ?_, rfl, rfl⟩,
      by simp [TencentSynthesizer.init, h'], ⟨_, by simp [TencentSynthesizer.init, h']; rfl, ?_, rfl⟩⟩
    · simp [Recognize.loadConfig]
    · simp [Synthesizer.loadConfig]

/-- C20 at operations as `Create` returns them, with `Start()` returning -3 and
returning 0. -/
theorem init_fails_exactly_on_start_failure_witness :
    (Recognize.Create demoIni { data := [1] } "ch1").map
      (fun r => ((TencentRecognize.init r (-3)).1,
        (TencentRecognize.init r (-3)).2.mSpeechRecognizer.isSome,
        (TencentRecognize.init r 0).1,
        (TencentRecognize.init r 0).2.mSpeechRecognizer.isSome)) =
      some (-1, false, 0, true) ∧
    ((TencentSynthesizer.init { demoSynthesizer with mSpeechSynthesizer := none } (-3)).1 = -1 ↔
      (-3 : Int) < 0) := by
  refine ⟨by decide, ?_⟩
  exact (init_fails_exactly_on_start_failure { demoRecognize with mSpeechRecognizer := none }
    { demoSynthesizer with mSpeechSynthesizer := none } (-3) rfl rfl).2.1


/-! ## The channel after a completion -/

theorem msg_process_complete (env : RecogEnv) (reg : Registry TencentRecognize)
    (channel : demo_recog_channel_t) (demo_msg : demo_recog_msg_t)
    (ht : demo_msg.type = .DEMO_RECOG_MSG_COMPLETE) :
    demo_recog_msg_process env reg channel demo_msg =
      some (sendComplete env.pl reg channel demo_msg, []) := by
  simp [demo_recog_msg_process, ht]

theorem sendComplete_success_state (pl : ProtocolLayer) (reg : Registry TencentRecognize)
    (channel : demo_recog_channel_t) (demo_msg : demo_recog_msg_t) (request : mrcp_message_t)
    (hr : channel.recog_request = some request) (he : pl.event_created = true)
    (hc : demo_msg.cause = .RECOGNIZER_COMPLETION_CAUSE_SUCCESS) :
    (sendComplete pl reg channel demo_msg).registry = (Recognize.Del reg channel.channel).registry ∧
    (sendComplete pl reg channel demo_msg).stopped = (Recognize.Del reg channel.channel).stopped ∧
    (sendComplete pl reg channel demo_msg).channel = { channel with recog_request := none } := by
  simp [sendComplete, demo_recog_recognition_complete, hr, mrcp_event_create, he, hc]

theorem sendComplete_other_state (pl : ProtocolLayer) (reg : Registry TencentRecognize)
    (channel : demo_recog_channel_t) (demo_msg : demo_recog_msg_t)
    (hc : demo_msg.cause ≠ .RECOGNIZER_COMPLETION_CAUSE_SUCCESS) :
    (sendComplete pl reg channel demo_msg).registry = reg ∧
    (sendComplete pl reg channel demo_msg).stopped = [] ∧
    (sendComplete pl reg channel demo_msg).channel = channel := by
  refine ⟨by simp [sendComplete, hc], by simp [sendComplete, hc], ?_⟩
  simp only [sendComplete, demo_recog_recognition_complete]
  cases channel.recog_request with
  | none => rfl
  | some request =>
    simp only
    cases mrcp_event_create pl request .RECOGNIZER_RECOGNITION_COMPLETE with
    | none => rfl
    | some message => simp [hc]

/-- C22 as amended. On an active channel (registry entry present, active request
set), the worker's processing of a completion message returns: with cause
success (the protocol layer supplying the event) the channel has no registry
entry and no active request afterwards, and a RECOGNIZE request that follows is
accepted (nothing is sent and the channel is mapped to the new operation); with
any other cause the registry and the whole channel struct, active request
included, are as before, and a RECOGNIZE request that follows is rejected as
already active: the registry stays as it is and the one message sent is the
error completion of the new request. -/
theorem complete_returns_to_opened_on_success (env env2 : RecogEnv)
    (reg : Registry TencentRecognize) (channel : demo_recog_channel_t)
    (demo_msg : demo_recog_msg_t) (request request2 : mrcp_message_t)
    (ht : demo_msg.type = .DEMO_RECOG_MSG_COMPLETE)
    (hr : channel.recog_request = some request)
    (hv : Recognize.GetVoiceId reg channel.channel ≠ "")
    (he : env.pl.event_created = true)
    (hd2 : env2.descriptor = true) (ht2 : TYPE_TENCENT = env2.ini.get "generic" "type")
    (hs2 : 0 ≤ env2.startRet) (he2 : env2.pl.event_created = true)
    (hh2 : env2.pl.resource_header_prepared = true) :
    ∃ r, demo_recog_msg_process env reg channel demo_msg = some (r, []) ∧
      (demo_msg.cause = .RECOGNIZER_COMPLETION_CAUSE_SUCCESS →
        Recognize.GetVoiceId r.registry channel.channel = "" ∧
        r.channel.recog_request = none ∧
        (demo_recog_channel_recognize env2 r.registry r.channel request2).sent = [] ∧
        Recognize.GetVoiceId
          (demo_recog_channel_recognize env2 r.registry r.channel request2).registry
          channel.channel = env2.a_uuid.to_string) ∧
      (demo_msg.cause ≠ .RECOGNIZER_COMPLETION_CAUSE_SUCCESS →
        r.registry = reg ∧ r.channel = channel ∧ r.channel.recog_request = some request ∧
        demo_recog_channel_recognize env2 r.registry r.channel request2 =
          { registry := reg, channel := { channel with recog_request := some request2 },
            sent := [errorCompletion request2], stopped := [], signaled := [], ret := true }) := by
  refine ⟨_, msg_process_complete env reg channel demo_msg ht, fun hc => ?_, fun hc => ?_⟩
  · obtain ⟨h1, _, h3⟩ := sendComplete_success_state env.pl reg channel demo_msg request hr he hc
    have hgone : Recognize.GetVoiceId (sendComplete env.pl reg channel demo_msg).registry
        (sendComplete env.pl reg channel demo_msg).channel.channel = "" := by
      rw [h1, h3]; exact Registry.GetVoiceId_Del _ _ _
    have hsame : (sendComplete env.pl reg channel demo_msg).channel.channel = channel.channel := by
      rw [h3]
    have hacc := recognize_accepted env2 (sendComplete env.pl reg channel demo_msg).registry
      (sendComplete env.pl reg channel demo_msg).channel request2 hd2 hgone ht2 hs2
    rw [hsame] at hgone hacc
    exact ⟨hgone, by rw [h3], hacc.1, hacc.2.2⟩
  · obtain ⟨h1, _, h3⟩ := sendComplete_other_state env.pl reg channel demo_msg hc
    refine ⟨h1, h3, by rw [h3]; exact hr, ?_⟩
    rw [h1, h3]
    exact recognize_rejected env2 reg channel request2 hd2 hv he2 hh2

/-- C22 as amended, at a completion with cause success on the active channel
`ch1`: the entry and the request are gone and the next RECOGNIZE is accepted. -/
theorem complete_returns_to_opened_on_success_witness :
    (demo_recog_msg_process (demoEnv []) demoRecogRegistry demoRecogChannel
      (demoComplete "ch1" "v1|hello")).map
      (fun r => (Recognize.GetVoiceId r.1.registry "ch1", r.1.channel.recog_request,
        (demo_recog_channel_recognize (demoEnv [2]) r.1.registry r.1.channel
          (demoRequest .RECOGNIZER_RECOGNIZE 2 "")).sent)) = some ("", none, []) := by
  obtain ⟨r, h1, h2, _⟩ := complete_returns_to_opened_on_success (demoEnv []) (demoEnv [2])
    demoRecogRegistry demoRecogChannel (demoComplete "ch1" "v1|hello")
    (demoRequest .RECOGNIZER_RECOGNIZE 1 "") (demoRequest .RECOGNIZER_RECOGNIZE 2 "")
    rfl rfl (by decide) rfl rfl (by decide) (by decide) rfl rfl
  obtain ⟨h3, h4, h5, _⟩ := h2 rfl
  rw [h1]
  simp only [Option.map_some']
  have h3x : Recognize.GetVoiceId r.registry "ch1" = "" := h3
  rw [h3x, h4, h5]

/-- C22 refuted as stated: the operation registered for a RECOGNIZE request with
body `builtin:partial` signals its completion with cause partial-match; after
the worker has processed that message the channel `ch1` still has its registry
entry and its active request, and the RECOGNIZE request that follows is answered
with the error completion while the registry stays as it is. -/
theorem complete_partial_counterexample :
    (OnSentenceEnd demoPartialStep.registry
      { voice_id := (demoEnv [1]).a_uuid.to_string, voice_text_str := "hello" }).map
      RecogCallback.signaled = some [demoPartialMsg] ∧
    (demo_recog_msg_process (demoEnv []) demoPartialStep.registry demoPartialStep.channel
      demoPartialMsg).map
      (fun r => (decide (Recognize.GetVoiceId r.1.registry "ch1" = ""),
        r.1.channel.recog_request.isSome,
        (demo_recog_channel_recognize (demoEnv [2]) r.1.registry r.1.channel
          (demoRequest .RECOGNIZER_RECOGNIZE 2 "")).sent.map mrcp_message_t.completion_cause,
        decide ((demo_recog_channel_recognize (demoEnv [2]) r.1.registry r.1.channel
          (demoRequest .RECOGNIZER_RECOGNIZE 2 "")).registry = demoPartialStep.registry))) =
      some (false, true, [some .RECOGNIZER_COMPLETION_CAUSE_ERROR], true) := by
  decide


/-! ## The registry operations taken alone -/

theorem registryInvariant_of_inv {Op : Type} {chanOf : Op → String} {reg : Registry Op}
    (h : RegInv chanOf reg) : registryInvariant reg :=
  ⟨h.inv_size_eq, fun _ _ hc => h.inv_resolves hc⟩

/-- C23 as amended. On a registry that satisfies the full invariant `RegInv`
(unique keys, the channels' voice ids pairwise distinct, non-empty and exactly
the keys of the operation map, every operation owned by its channel), each
registry operation preserves it, and with it the equal sizes of the two maps and
the resolution of every channel's voice id: `Set(channelId, op)` when the
channel has no entry, the operation's id is non-empty and not yet in the
operation map, and the operation was made for that channel;
`Del(channelId, voiceId)` when the channel is mapped to that voice id; and
`Del(channelId)` for every channel.  `Recognize` and `Synthesizer` are the two
instances of these functions. -/
theorem registry_operations_preserve_invariant {Op : Type} (chanOf voiceId : Op → String)
    (stop : Op → Op) (reg : Registry Op) (c v : String) (op : Op)
    (h : RegInv chanOf reg) :
    (Registry.GetVoiceId reg c = "" → voiceId op ≠ "" → voiceId op ∉ StdMap.keys reg.sMap →
      chanOf op = c →
      RegInv chanOf (Registry.Set voiceId reg c op) ∧
      registryInvariant (Registry.Set voiceId reg c op)) ∧
    (StdMap.find reg.sChannelIdMap c = some v →
      RegInv chanOf (Registry.Del2 reg c v) ∧ registryInvariant (Registry.Del2 reg c v)) ∧
    RegInv chanOf (Registry.Del stop reg c).registry ∧
    registryInvariant (Registry.Del stop reg c).registry :=
  ⟨fun hv hne hfresh hch =>
      ⟨h.inv_set hv hne hfresh hch, registryInvariant_of_inv (h.inv_set hv hne hfresh hch)⟩,
   fun hc => ⟨h.inv_del2 hc, registryInvariant_of_inv (h.inv_del2 hc)⟩,
   h.inv_del stop c, registryInvariant_of_inv (h.inv_del stop c)⟩

/-- C23 as amended, at the empty registry: `Recognize::Set` of the operation `v1`
on its channel `ch1` gives a registry that satisfies the invariant. -/
theorem registry_operations_preserve_invariant_witness :
    RegInv TencentRecognize.mChannelId (Registry.empty : Registry TencentRecognize) ∧
    registryInvariant (Recognize.Set Registry.empty "ch1" demoRecognize) :=
  ⟨RegInv.inv_empty _,
   ((registry_operations_preserve_invariant TencentRecognize.mChannelId
      TencentRecognize.mVoiceId TencentRecognize.stop Registry.empty "ch1" "v1" demoRecognize
      (RegInv.inv_empty _)).1 (by decide) (by decide) (by decide) (by decide)).2⟩

/-- C23 refuted as stated.  `Set` with a new operation id on a channel that is
already mapped leaves the old operation in the operation map: one channel, two
operations.  `Del(channelId, voiceId)` with a voice id the channel is not mapped
to removes the channel's entry and leaves its operation: no channel, one
operation.  And `Del(channelId)` on a registry that only has equal sizes and
resolving channels can leave a channel whose voice id no longer resolves. -/
theorem registry_operations_counterexample :
    registryInvariant demoRecogRegistry ∧
    "v2" ∉ StdMap.keys demoRecogRegistry.sMap ∧
    ¬ registryInvariant (Recognize.Set demoRecogRegistry "ch1" demoRecognize2) ∧
    ¬ registryInvariant (Recognize.Del2 demoRecogRegistry "ch1" "v9") ∧
    registryInvariant demoShared ∧
    ¬ registryInvariant (Recognize.Del demoShared "ch1").registry := by
  refine ⟨⟨by decide, ?_⟩, by decide, fun h => absurd h.1 (by decide),
    fun h => absurd h.1 (by decide), ⟨by decide, ?_⟩, fun h => ?_⟩
  · intro c v hc
    have hv : v = "v1" := by
      simp only [demoRecogRegistry, Recognize.Set, Registry.Set, Registry.empty, StdMap.erase,
        StdMap.emplace, StdMap.find, List.filter_nil, List.nil_append] at hc
      split_ifs at hc
      exact (Option.some.inj hc).symm
    subst hv
    decide
  · intro c v hc
    have hv : v = "v1" := by
      simp only [demoShared, StdMap.find] at hc
      split_ifs at hc <;> exact (Option.some.inj hc).symm
    subst hv
    decide
  · have := h.2 "ch2" "v1" (by decide)
    revert this
    decide


/-! ## A rejected start and the request in flight -/

theorem speak_rejected (env : SynthEnv) (reg : Registry TencentSynthesizer)
    (channel : demo_synth_channel_t) (request : mrcp_synth_message_t)
    (hd : env.descriptor = true) (hv : Synthesizer.GetVoiceId reg channel.channel ≠ "")
    (he : env.pl.event_created = true) (hh : env.pl.resource_header_prepared = true) :
    demo_synth_channel_speak env reg channel request =
      { registry := reg, channel := { channel with speak_request := none },
        sent := [speakCompletion request .SYNTHESIZER_COMPLETION_CAUSE_ERROR], stopped := [],
        signaled := [], ret := true } := by
  have hc := sendError_active env.pl { channel with speak_request := some request } request rfl
    he hh
  simp [demo_synth_channel_speak, hd, hv, hc]

/-- C24 (the code at the failing input). A RECOGNIZE request on a channel that
is already active is rejected with the registry unchanged, but the channel's
active request is then the rejected request, whatever it was before, and the
completion the worker emits later for the running operation is built for the
rejected request.  A SPEAK request on a channel that is already active is
rejected with the registry unchanged and the error completion sent, but the
channel's speak request is then empty, and the worker's `sendComplete` for the
running operation sends nothing. -/
theorem rejected_start_replaces_active_request (env : RecogEnv) (senv : SynthEnv)
    (reg : Registry TencentRecognize) (sreg : Registry TencentSynthesizer)
    (channel : demo_recog_channel_t) (schannel : demo_synth_channel_t)
    (request : mrcp_message_t) (srequest : mrcp_synth_message_t) (demo_msg : demo_recog_msg_t)
    (hd : env.descriptor = true) (hv : Recognize.GetVoiceId reg channel.channel ≠ "")
    (he : env.pl.event_created = true) (hh : env.pl.resource_header_prepared = true)
    (hg : env.pl.generic_header_prepared = true)
    (hsd : senv.descriptor = true) (hsv : Synthesizer.GetVoiceId sreg schannel.channel ≠ "")
    (hse : senv.pl.event_created = true) (hsh : senv.pl.resource_header_prepared = true) :
    (demo_recog_channel_recognize env reg channel request).registry = reg ∧
    (demo_recog_channel_recognize env reg channel request).channel.recog_request =
      some request ∧
    (sendComplete env.pl (demo_recog_channel_recognize env reg channel request).registry
      (demo_recog_channel_recognize env reg channel request).channel demo_msg).sent =
      [recognitionCompletion request demo_msg.cause (demo_msg.data.getD "")] ∧
    (demo_synth_channel_speak senv sreg schannel srequest).registry = sreg ∧
    (demo_synth_channel_speak senv sreg schannel srequest).sent =
      [speakCompletion srequest .SYNTHESIZER_COMPLETION_CAUSE_ERROR] ∧
    (demo_synth_channel_speak senv sreg schannel srequest).channel.speak_request = none ∧
    (SynthEngine.sendComplete senv.pl
      (demo_synth_channel_speak senv sreg schannel srequest).registry
      (demo_synth_channel_speak senv sreg schannel srequest).channel).sent = [] := by
  rw [recognize_rejected env reg channel request hd hv he hh,
    speak_rejected senv sreg schannel srequest hsd hsv hse hsh]
  refine ⟨rfl, rfl, ?_, rfl, rfl, rfl, ?_⟩
  · exact worker_sendComplete_active env.pl reg { channel with recog_request := some request }
      request demo_msg rfl he hh hg
  · simp [SynthEngine.sendComplete]

/-- C24 at a second RECOGNIZE (request id 2) on the channel `ch1`, whose first
request (id 1) is in flight, and at a second SPEAK on the synthesis channel
`ch1`: the active request is no longer the first, the completion of the running
recognition carries request id 2, and the running synthesis completes without
an event. -/
theorem rejected_start_replaces_active_request_witness :
    demoRecogChannel.recog_request = some (demoRequest .RECOGNIZER_RECOGNIZE 1 "") ∧
    (demo_recog_channel_recognize (demoEnv [2]) demoRecogRegistry demoRecogChannel
      (demoRequest .RECOGNIZER_RECOGNIZE 2 "")).channel.recog_request =
      some (demoRequest .RECOGNIZER_RECOGNIZE 2 "") ∧
    (sendComplete (demoEnv [2]).pl
      (demo_recog_channel_recognize (demoEnv [2]) demoRecogRegistry demoRecogChannel
        (demoRequest .RECOGNIZER_RECOGNIZE 2 "")).registry
      (demo_recog_channel_recognize (demoEnv [2]) demoRecogRegistry demoRecogChannel
        (demoRequest .RECOGNIZER_RECOGNIZE 2 "")).channel demoFirstDone).sent.map
      mrcp_message_t.request_id = [2] ∧
    demoSynthChannel.speak_request = some (demoSynthRequest .SYNTHESIZER_SPEAK 1 "hello") ∧
    (SynthEngine.sendComplete (demoSynthEnv [2]).pl
      (demo_synth_channel_speak (demoSynthEnv [2]) demoSynthRegistry demoSynthChannel
        (demoSynthRequest .SYNTHESIZER_SPEAK 2 "again")).registry
      (demo_synth_channel_speak (demoSynthEnv [2]) demoSynthRegistry demoSynthChannel
        (demoSynthRequest .SYNTHESIZER_SPEAK 2 "again")).channel).sent = [] := by
  have h := rejected_start_replaces_active_request (demoEnv [2]) (demoSynthEnv [2])
    demoRecogRegistry demoSynthRegistry demoRecogChannel demoSynthChannel
    (demoRequest .RECOGNIZER_RECOGNIZE 2 "") (demoSynthRequest .SYNTHESIZER_SPEAK 2 "again")
    demoFirstDone rfl (by decide) rfl rfl rfl rfl (by decide) rfl rfl
  refine ⟨rfl, h.2.1, ?_, rfl, h.2.2.2.2.2.2⟩
  rw [h.2.2.1]
  rfl


/-! ## Which operation a completion removes -/

/-- C25 as amended. The worker's processing of a completion message removes, when
the cause is success, the registry entry of the channel the message names and
stops the operation that channel is mapped to at that moment (none when the
channel has no entry), and with any other cause leaves the registry as it is
and stops nothing; the text of the message, voice id prefix included, has no
part in it: the same message with any other text gives the same registry and
the same stopped operations. -/
theorem complete_deletes_by_channel (env : RecogEnv) (reg : Registry TencentRecognize)
    (channel : demo_recog_channel_t) (demo_msg : demo_recog_msg_t) (data : Option String) :
    (demo_msg.type = .DEMO_RECOG_MSG_COMPLETE →
      demo_recog_msg_process env reg channel demo_msg =
        some (sendComplete env.pl reg channel demo_msg, [])) ∧
    (demo_msg.cause = .RECOGNIZER_COMPLETION_CAUSE_SUCCESS →
      (sendComplete env.pl reg channel demo_msg).registry =
        (Recognize.Del reg channel.channel).registry ∧
      (sendComplete env.pl reg channel demo_msg).stopped =
        (Recognize.Del reg channel.channel).stopped ∧
      Recognize.GetVoiceId (sendComplete env.pl reg channel demo_msg).registry
        channel.channel = "" ∧
      (Recognize.GetVoiceId reg channel.channel ≠ "" →
        (sendComplete env.pl reg channel demo_msg).stopped =
          ((Recognize.GetRecognize reg (Recognize.GetVoiceId reg channel.channel)).map
            TencentRecognize.stop).toList ∧
        Recognize.GetRecognize (sendComplete env.pl reg channel demo_msg).registry
          (Recognize.GetVoiceId reg channel.channel) = none)) ∧
    (demo_msg.cause ≠ .RECOGNIZER_COMPLETION_CAUSE_SUCCESS →
      (sendComplete env.pl reg channel demo_msg).registry = reg ∧
      (sendComplete env.pl reg channel demo_msg).stopped = []) ∧
    (sendComplete env.pl reg channel { demo_msg with data := data }).registry =
      (sendComplete env.pl reg channel demo_msg).registry ∧
    (sendComplete env.pl reg channel { demo_msg with data := data }).stopped =
      (sendComplete env.pl reg channel demo_msg).stopped := by
  refine ⟨msg_process_complete env reg channel demo_msg, fun hc => ?_, fun hc => ?_, rfl, rfl⟩
  · have h1 : (sendComplete env.pl reg channel demo_msg).registry =
        (Recognize.Del reg channel.channel).registry := by simp [sendComplete, hc]
    have h2 : (sendComplete env.pl reg channel demo_msg).stopped =
        (Recognize.Del reg channel.channel).stopped := by simp [sendComplete, hc]
    have h := Registry.Del_spec TencentRecognize.stop reg channel.channel
    refine ⟨h1, h2, by rw [h1]; exact Registry.GetVoiceId_Del _ _ _, fun hv => ?_⟩
    rw [h1, h2]
    exact ⟨(h.1 hv).1, (h.1 hv).2.2.1⟩
  · exact ⟨(sendComplete_other_state env.pl reg channel demo_msg hc).1,
      (sendComplete_other_state env.pl reg channel demo_msg hc).2.1⟩

/-- C25 refuted as stated: the channel `ch1` is mapped to the newer operation
`v2` when the worker processes the completion message of the operation `v1`
(text `v1|hello`, cause success); the entry of `ch1` is removed all the same,
`v2` is no longer registered, and `v2` is the operation that is stopped. -/
theorem complete_deletes_newer_counterexample :
    Recognize.GetVoiceId demoNewerRegistry "ch1" = "v2" ∧
    (demo_recog_msg_process (demoEnv []) demoNewerRegistry demoRecogChannel
      (demoComplete "ch1" "v1|hello")).map
      (fun r => (Recognize.GetVoiceId r.1.registry "ch1",
        (Recognize.GetRecognize r.1.registry "v2").isSome,
        r.1.stopped.map TencentRecognize.mVoiceId,
        decide (r.1.registry = demoNewerRegistry))) =
      some ("", false, ["v2"], false) := by
  decide


/-! ## Messages processed without an active request -/

/-- C26 (the code at the failing input). On a channel without an active request,
the worker's processing of a completion message returns, sends nothing and
leaves the channel struct as it is; the processing of a start-of-input message
does not return: `demo_recog_start_of_input` reads `recog_request->pool` through
the null pointer. -/
theorem start_of_input_reads_null_request (env : RecogEnv) (reg : Registry TencentRecognize)
    (channel : demo_recog_channel_t) (demo_msg : demo_recog_msg_t)
    (hr : channel.recog_request = none) :
    (demo_msg.type = .DEMO_RECOG_MSG_START_OF_INPUT →
      demo_recog_start_of_input env.pl channel = none ∧
      demo_recog_msg_process env reg channel demo_msg = none) ∧
    (demo_msg.type = .DEMO_RECOG_MSG_COMPLETE →
      ∃ r, demo_recog_msg_process env reg channel demo_msg = some (r, []) ∧
        r.sent = [] ∧ r.channel = channel) := by
  constructor
  · intro ht
    simp [demo_recog_msg_process, ht, demo_recog_start_of_input, hr]
  · intro ht
    refine ⟨_, msg_process_complete env reg channel demo_msg ht, ?_, ?_⟩
    · simp [sendComplete, demo_recog_recognition_complete, hr]
    · simp [sendComplete, demo_recog_recognition_complete, hr]

/-- C26 at the channel `ch1` after a STOP request, a state the worker reaches:
`OnSentenceBegin` for the operation `v1`, fired while `v1` is still registered,
signals a start-of-input message, and the worker, which processes it after the
STOP, does not return from it; a completion message processed in that state
sends nothing. -/
theorem start_of_input_reads_null_request_witness :
    (OnSentenceBegin demoRecogRegistry { voice_id := "v1", voice_text_str := "" }).map
      RecogCallback.signaled = some [demoStartOfInput] ∧
    demoStopped.channel.recog_request = none ∧
    demo_recog_msg_process (demoEnv []) demoStopped.registry demoStopped.channel
      demoStartOfInput = none ∧
    (demo_recog_msg_process (demoEnv []) demoStopped.registry demoStopped.channel
      (demoComplete "ch1" "v1|hello")).map (fun r => r.1.sent) = some [] := by
  have h := start_of_input_reads_null_request (demoEnv []) demoStopped.registry
    demoStopped.channel demoStartOfInput (by decide)
  refine ⟨by decide, by decide, (h.1 rfl).2, by decide⟩


/-! ## Repeated completion messages of the synthesis plugin -/

theorem synthRun_idle (env : SynthEnv) (msgs : List demo_synth_msg_t)
    (reg : Registry TencentSynthesizer) (channel : demo_synth_channel_t)
    (hall : ∀ m ∈ msgs, m.type = .DEMO_SYNTH_MSG_SEND_COMPLETE)
    (hr : channel.speak_request = none)
    (hv : Synthesizer.GetVoiceId reg channel.channel = "") :
    synthRun env reg channel msgs =
      some { registry := reg, channel := channel, sent := [], stopped := [], signaled := [],
             ret := true } := by
  induction msgs with
  | nil => rfl
  | cons m ms ih =>
    have hm : m.type = .DEMO_SYNTH_MSG_SEND_COMPLETE := hall m (by simp)
    have hd : Synthesizer.Del reg channel.channel = { registry := reg, stopped := [] } :=
      Registry.Del_unmapped _ _ _ hv
    have hs : SynthEngine.sendComplete env.pl reg channel =
        { registry := reg, channel := channel, sent := [], stopped := [], signaled := [],
          ret := true } := by
      simp [SynthEngine.sendComplete, hr, hd]
    simp only [synthRun, demo_synth_msg_process, hm, hs, Option.some_bind]
    rw [ih (fun m hm => hall m (List.mem_cons_of_mem _ hm))]
    rfl

/-- C27. On a synthesis channel with an active speak request, the worker's
processing of one or more `DEMO_SYNTH_MSG_SEND_COMPLETE` messages in a row
returns and (the protocol layer supplying the event and its header) sends
exactly one message over all of them, the SPEAK-COMPLETE event of the request
with completion cause normal and request state complete; the registry, the
channel struct and the operations stopped are those that the processing of a
single such message leaves. -/
theorem repeated_send_complete_emits_once (env : SynthEnv) (reg : Registry TencentSynthesizer)
    (channel : demo_synth_channel_t) (request : mrcp_synth_message_t)
    (msgs : List demo_synth_msg_t)
    (hall : ∀ m ∈ msgs, m.type = .DEMO_SYNTH_MSG_SEND_COMPLETE) (hne : msgs ≠ [])
    (hr : channel.speak_request = some request)
    (he : env.pl.event_created = true) (hh : env.pl.resource_header_prepared = true) :
    synthRun env reg channel msgs = some (SynthEngine.sendComplete env.pl reg channel) ∧
    (SynthEngine.sendComplete env.pl reg channel).sent =
      [speakCompletion request .SYNTHESIZER_COMPLETION_CAUSE_NORMAL] ∧
    (speakCompletion request .SYNTHESIZER_COMPLETION_CAUSE_NORMAL).event_id =
      some .SYNTHESIZER_SPEAK_COMPLETE ∧
    (speakCompletion request .SYNTHESIZER_COMPLETION_CAUSE_NORMAL).completion_cause =
      some .SYNTHESIZER_COMPLETION_CAUSE_NORMAL ∧
    (speakCompletion request .SYNTHESIZER_COMPLETION_CAUSE_NORMAL).request_state =
      .MRCP_REQUEST_STATE_COMPLETE ∧
    (SynthEngine.sendComplete env.pl reg channel).channel =
      { channel with speak_request := none } ∧
    (SynthEngine.sendComplete env.pl reg channel).registry =
      (Synthesizer.Del reg channel.channel).registry := by
  have hs := synth_sendComplete_active env.pl reg channel request hr he hh
  refine ⟨?_, by rw [hs], rfl, rfl, rfl, by rw [hs], by rw [hs]⟩
  cases msgs with
  | nil => exact absurd rfl hne
  | cons m ms =>
    have hm : m.type = .DEMO_SYNTH_MSG_SEND_COMPLETE := hall m (by simp)
    have hgone : Synthesizer.GetVoiceId (Synthesizer.Del reg channel.channel).registry
        channel.channel = "" := Registry.GetVoiceId_Del _ _ _
    simp only [synthRun, demo_synth_msg_process, hm, Option.some_bind, hs]
    rw [synthRun_idle env ms (Synthesizer.Del reg channel.channel).registry
      { channel with speak_request := none }
      (fun m hm => hall m (List.mem_cons_of_mem _ hm)) rfl hgone]
    simp

set_option maxRecDepth 100000 in
/-- C27 at three completion messages in a row on the active channel `ch1`. -/
theorem repeated_send_complete_emits_once_witness :
    (synthRun (demoSynthEnv []) demoSynthRegistry demoSynthChannel
      [demoSendComplete, demoSendComplete, demoSendComplete]).map SynthStep.sent =
      some [speakCompletion (demoSynthRequest .SYNTHESIZER_SPEAK 1 "hello")
        .SYNTHESIZER_COMPLETION_CAUSE_NORMAL] := by
  have h := repeated_send_complete_emits_once (demoSynthEnv []) demoSynthRegistry
    demoSynthChannel (demoSynthRequest .SYNTHESIZER_SPEAK 1 "hello")
    [demoSendComplete, demoSendComplete, demoSendComplete]
    (by intro m hm; simp only [List.mem_cons, List.mem_singleton, List.mem_nil_iff, or_false, or_self] at hm; rw [hm]; rfl)
    (by simp) rfl rfl rfl
  rw [h.1, Option.map_some', h.2.1]


/-! ## End of stream on a running buffer -/

theorem read_running (s : TencentSynthesizer) (size : Int)
    (hs : s.mIsStop = false) (he : s.mIsEnd = false) (hpos : 0 < size) :
    ((s.mAudioData.length : Int) < size → Synthesizer.read s size = .error .blocked) ∧
    (size ≤ (s.mAudioData.length : Int) →
      Synthesizer.read s size =
        .ok { ret := 0, buff := s.mAudioData.take size.toNat,
              next := { s with mAudioData := s.mAudioData.drop size.toNat } }) := by
  have hn : ¬ size < 0 := by omega
  constructor
  · intro hlt
    have hw : ¬ size ≤ (s.mAudioData.length : Int) := by omega
    simp [Synthesizer.read, hn, hs, he, hw]
  · intro hle
    have hlt : ¬ (s.mAudioData.length : Int) < size := by omega
    have hp : ¬ size ≤ 0 := by omega
    simp [Synthesizer.read, hn, hs, he, hle, hlt, hp]

theorem read_zero (s : TencentSynthesizer) :
    Synthesizer.read s 0 = .ok { ret := -1, buff := [], next := s } := by
  have h : ¬ ((s.mAudioData.length : Int) < 0) := by omega
  simp [Synthesizer.read, h]

/-- C28 as amended. On a buffer that is neither stopped nor ended,
`Synthesizer::read` with a positive size never returns -1: while fewer bytes
than the size are queued it waits, and once they are queued it returns 0 with
the oldest bytes; accordingly an audio tick with a frame of positive size on a
channel mapped to such an operation either waits or returns without signalling
`DEMO_SYNTH_MSG_SEND_COMPLETE`.  With size 0 the read returns -1 at once in
every state of the buffer, and the tick with an empty frame signals
`DEMO_SYNTH_MSG_SEND_COMPLETE`. -/
theorem read_ends_running_stream_only_at_size_zero (s : TencentSynthesizer) (size : Int)
    (hs : s.mIsStop = false) (he : s.mIsEnd = false) :
    (0 < size → (s.mAudioData.length : Int) < size →
      Synthesizer.read s size = .error .blocked) ∧
    (0 < size → size ≤ (s.mAudioData.length : Int) →
      ∃ r, Synthesizer.read s size = .ok r ∧ r.ret = 0 ∧
        r.buff = s.mAudioData.take size.toNat ∧
        r.next = { s with mAudioData := s.mAudioData.drop size.toNat }) ∧
    Synthesizer.read s 0 = .ok { ret := -1, buff := [], next := s } ∧
    (∀ (reg : Registry TencentSynthesizer) (channel : demo_synth_channel_t) (frame : mpf_frame_t),
      channel.stop_response = none → channel.paused = false →
      Synthesizer.GetVoiceId reg channel.channel ≠ "" →
      Synthesizer.GetSynthesizer reg (Synthesizer.GetVoiceId reg channel.channel) = some s →
      (0 < frame.buffer.length →
        demo_synth_stream_read reg channel frame = .error .blocked ∨
        ∃ r, demo_synth_stream_read reg channel frame = .ok r ∧ r.1.signaled = []) ∧
      (frame.buffer = [] →
        ∃ r, demo_synth_stream_read reg channel frame = .ok r ∧
          r.1.signaled = [{ type := .DEMO_SYNTH_MSG_SEND_COMPLETE, channel := channel.channel,
                            request := none }])) := by
  refine ⟨fun hpos => (read_running s size hs he hpos).1, fun hpos hle => ?_, read_zero s, ?_⟩
  · exact ⟨_, (read_running s size hs he hpos).2 hle, rfl, rfl, rfl⟩
  · intro reg channel frame hp hpa hv hg
    constructor
    · intro hpos
      have hpos2 : (0 : Int) < (frame.buffer.length : Int) := by exact_mod_cast hpos
      by_cases hlt : (s.mAudioData.length : Int) < (frame.buffer.length : Int)
      · left
        simp [demo_synth_stream_read, hp, hpa, hv, hg, (read_running s _ hs he hpos2).1 hlt]
      · right
        have hle : (frame.buffer.length : Int) ≤ (s.mAudioData.length : Int) := by omega
        simp [demo_synth_stream_read, hp, hpa, hv, hg, (read_running s _ hs he hpos2).2 hle]
    · intro hf
      simp [demo_synth_stream_read, hp, hpa, hv, hg, hf, read_zero]

/-- C28 as amended, at the running operation with three bytes queued: a read of
size 2 returns 0, a read of size 4 waits. -/
theorem read_ends_running_stream_only_at_size_zero_witness :
    demoQueued.mIsStop = false ∧ demoQueued.mIsEnd = false ∧
    Synthesizer.read demoQueued 4 = .error .blocked ∧
    (Synthesizer.read demoQueued 2).toOption.map ReadResult.ret = some 0 := by
  have h := read_ends_running_stream_only_at_size_zero demoQueued 4 rfl rfl
  exact ⟨rfl, rfl, h.1 (by decide) (by decide), by decide⟩

/-- C28 refuted as stated: the operation of `ch1` is neither stopped nor ended
and has three bytes queued; a read of size 0 returns -1, and the audio tick with
an empty frame signals `DEMO_SYNTH_MSG_SEND_COMPLETE` for the channel. -/
theorem read_size_zero_counterexample :
    demoQueued.mIsStop = false ∧ demoQueued.mIsEnd = false ∧
    demoQueued.mAudioData = [1, 2, 3] ∧
    (Synthesizer.read demoQueued 0).toOption.map ReadResult.ret = some (-1) ∧
    (demo_synth_stream_read demoQueuedRegistry demoSynthChannel (demoSynthFrame 0)).toOption.map
      (fun r => r.1.signaled) = some [demoSendComplete] := by
  decide


/-! ## The audio of a whole synthesis -/

theorem init_started (s : TencentSynthesizer) (startRet : Int) (hstart : 0 ≤ startRet) :
    (TencentSynthesizer.init s startRet).1 = 0 ∧
    (TencentSynthesizer.init s startRet).2.mIsStop = s.mIsStop ∧
    (TencentSynthesizer.init s startRet).2.mIsEnd = s.mIsEnd ∧
    (TencentSynthesizer.init s startRet).2.mAudioData = s.mAudioData ++ silence ∧
    (TencentSynthesizer.init s startRet).2.mSpeechSynthesizer.isSome = true := by
  have h : ¬ startRet < 0 := not_lt.mpr hstart
  simp [TencentSynthesizer.init, h, Synthesizer.loadConfig]

theorem pulls_after_end (t : TencentSynthesizer) (chunks : List (List Byte)) (sizes : List Nat)
    (hs : t.mIsStop = false) (he : t.mIsEnd = false) (hpos : ∀ n ∈ sizes, 0 < n) :
    (pulls (pushAllThenEnd t chunks) sizes).1.length = sizes.length ∧
    delivered (pushAllThenEnd t chunks) sizes =
      (t.mAudioData ++ chunks.flatten ++ silence).take sizes.sum ∧
    (∀ p ∈ (pulls (pushAllThenEnd t chunks) sizes).1,
      (p.1 = 0 ∧ p.2 ≠ []) ∨ (p.1 = -1 ∧ p.2 = [])) ∧
    (∀ n : Nat, 0 < n →
      Synthesizer.read (pulls (pushAllThenEnd t chunks) sizes).2 n =
        .ok { ret := if (t.mAudioData ++ chunks.flatten ++ silence).drop sizes.sum = [] then -1
                     else 0,
              buff := ((t.mAudioData ++ chunks.flatten ++ silence).drop sizes.sum).take n ++
                List.replicate
                  (n - min n ((t.mAudioData ++ chunks.flatten ++ silence).drop sizes.sum).length) 0,
              next := { pushAllThenEnd t chunks with
                mAudioData :=
                  ((t.mAudioData ++ chunks.flatten ++ silence).drop sizes.sum).drop n } }) := by
  have hend : (pushAllThenEnd t chunks).mIsEnd = true := by
    rw [pushAllThenEnd_eq t chunks hs he]
  have hqueue : (pushAllThenEnd t chunks).mAudioData = t.mAudioData ++ chunks.flatten ++ silence := by
    rw [pushAllThenEnd_eq t chunks hs he]
  obtain ⟨h1, h2, h3, h4⟩ := pulls_open sizes (pushAllThenEnd t chunks) (Or.inr hend) hpos
  rw [hqueue] at h2 h3
  refine ⟨h1, h2, h4, fun n hn => ?_⟩
  have hopen : (pulls (pushAllThenEnd t chunks) sizes).2.mIsEnd = true := by
    rw [h3]; exact hend
  rw [Synthesizer.read_of_wait _ n hn (Or.inr (Or.inl hopen)), h3]

/-- C29. For a synthesis operation with an empty queue, neither stopped nor
ended (as `Create` leaves it), `init()` with a vendor `Start()` that succeeds
returns 0; after any chunks are then pushed and the end is signalled once, with
no `stop()`, successive reads of any positive sizes all return, each one
returning 0 having taken at least one byte or -1 having taken none, and the
bytes they take off the queue, concatenated, are the first bytes (as many as the
sizes add up to) of: 800 zero bytes, the pushed chunks in order, 800 zero bytes.
The next read returns -1 exactly when all of these bytes have been taken, so the
bytes taken until the first -1 are exactly that sequence. -/
theorem init_push_end_round_trip (s : TencentSynthesizer) (startRet : Int)
    (chunks : List (List Byte)) (sizes : List Nat)
    (hq : s.mAudioData = []) (hs : s.mIsStop = false) (he : s.mIsEnd = false)
    (hstart : 0 ≤ startRet) (hpos : ∀ n ∈ sizes, 0 < n) :
    (TencentSynthesizer.init s startRet).1 = 0 ∧
    (pulls (pushAllThenEnd (TencentSynthesizer.init s startRet).2 chunks) sizes).1.length =
      sizes.length ∧
    delivered (pushAllThenEnd (TencentSynthesizer.init s startRet).2 chunks) sizes =
      (List.replicate 800 0 ++ chunks.flatten ++ List.replicate 800 0).take sizes.sum ∧
    (∀ p ∈ (pulls (pushAllThenEnd (TencentSynthesizer.init s startRet).2 chunks) sizes).1,
      (p.1 = 0 ∧ p.2 ≠ []) ∨ (p.1 = -1 ∧ p.2 = [])) ∧
    (∀ n : Nat, 0 < n →
      ((∃ r, Synthesizer.read
          (pulls (pushAllThenEnd (TencentSynthesizer.init s startRet).2 chunks) sizes).2 n =
            .ok r ∧ r.ret = -1) ↔
        delivered (pushAllThenEnd (TencentSynthesizer.init s startRet).2 chunks) sizes =
          List.replicate 800 0 ++ chunks.flatten ++ List.replicate 800 0)) := by
  obtain ⟨i1, i2, i3, i4, _⟩ := init_started s startRet hstart
  rw [hs] at i2
  rw [he] at i3
  rw [hq, List.nil_append] at i4
  obtain ⟨h1, h2, h3, h4⟩ := pulls_after_end (TencentSynthesizer.init s startRet).2 chunks sizes
    i2 i3 hpos
  rw [i4] at h2 h4
  have hsil : silence = List.replicate 800 0 := rfl
  rw [hsil] at h2 h4
  refine ⟨i1, h1, h2, h3, fun n hn => ?_⟩
  rw [h4 n hn, h2]
  constructor
  · rintro ⟨r, hr, hret⟩
    have hr2 := (Except.ok.inj hr).symm
    rw [hr2] at hret
    simp only at hret
    have hnil : (List.replicate 800 0 ++ chunks.flatten ++ List.replicate 800 (0 : Byte)).drop
        sizes.sum = [] := by
      by_contra hne
      rw [if_neg hne] at hret
      exact absurd hret (by decide)
    exact List.take_of_length_le (List.drop_eq_nil_iff.mp hnil)
  · intro htake
    have hlen : (List.replicate 800 0 ++ chunks.flatten ++ List.replicate 800 (0 : Byte)).length ≤
        sizes.sum := by
      have := congrArg List.length htake
      rw [List.length_take] at this
      omega
    have hnil : (List.replicate 800 0 ++ chunks.flatten ++ List.replicate 800 (0 : Byte)).drop
        sizes.sum = [] := List.drop_of_length_le hlen
    exact ⟨_, rfl, by simp only [hnil, if_true]⟩

/-- C29 at a created operation, `init()` with `Start()` returning 0, the chunks
`"abc"` and `"de"`, and reads of sizes 800 and 5: the bytes read are the 800 zero
bytes of `init`, then `"abcde"`. -/
theorem init_push_end_round_trip_witness :
    demoCreated.mAudioData = [] ∧
    delivered (pushAllThenEnd (TencentSynthesizer.init demoCreated 0).2
      [[97, 98, 99], [100, 101]]) [800, 5] =
      List.replicate 800 0 ++ [97, 98, 99, 100, 101] := by
  have h := (init_push_end_round_trip demoCreated 0 [[97, 98, 99], [100, 101]] [800, 5]
    rfl rfl rfl (by decide) (by decide)).2.2.1
  refine ⟨rfl, ?_⟩
  rw [h]
  exact List.take_left' (by
    simp only [List.length_append, List.length_replicate, List.flatten_cons, List.flatten_nil,
      List.length_cons, List.length_nil, List.sum_cons, List.sum_nil, List.append_nil]
    omega)


/-! ## The completion message of a recognition operation -/

theorem bar_text_ne_empty (voiceId text : String) : voiceId ++ "|" ++ text ≠ "" := by
  intro h
  have := congrArg String.length h
  simp only [String.length_append] at this
  have h2 : "|".length = 1 := by decide
  have h3 : ("" : String).length = 0 := rfl
  omega

theorem recognize_accepted_operation (env : RecogEnv) (reg : Registry TencentRecognize)
    (channel : demo_recog_channel_t) (request : mrcp_message_t)
    (hd : env.descriptor = true) (hv : Recognize.GetVoiceId reg channel.channel = "")
    (ht : TYPE_TENCENT = env.ini.get "generic" "type") (hs : 0 ≤ env.startRet) :
    ∃ op, Recognize.GetRecognize (demo_recog_channel_recognize env reg channel request).registry
        env.a_uuid.to_string = some op ∧
      op.mVoiceId = env.a_uuid.to_string ∧
      op.mRecogChannel = some channel.channel ∧
      op.mIsPartial = decide (request.body = "builtin:partial") := by
  have hs2 : ¬ env.startRet < 0 := not_lt.mpr hs
  have hinit : ∀ op : TencentRecognize, ¬ (TencentRecognize.init op env.startRet).1 < 0 := by
    intro op; simp [TencentRecognize.init, hs2]
  have hget : ∀ op : TencentRecognize, op.mVoiceId = env.a_uuid.to_string →
      Recognize.GetRecognize (Recognize.Set reg channel.channel op) env.a_uuid.to_string =
        some op := by
    intro op hop
    simp only [Recognize.GetRecognize, Registry.GetOperation, Recognize.Set, Registry.Set, hop]
    exact StdMap.find_emplace_erase_self _ _ _
  simp only [demo_recog_channel_recognize, hd, hv, Recognize.Create, ht, hinit,
    not_true_eq_false, ne_eq, not_false_eq_true, if_true, if_false]
  by_cases hb : request.body = "builtin:partial"
  · simp only [hb, if_true]
    refine ⟨_, hget _ ?_, ?_, ?_, ?_⟩ <;>
      simp [TencentRecognize.init, hs2, Recognize.loadConfig, Recognize.setPartial,
        Recognize.setRecogChannel]
  · simp only [hb, if_false]
    refine ⟨_, hget _ ?_, ?_, ?_, ?_⟩ <;>
      simp [TencentRecognize.init, hs2, Recognize.loadConfig, Recognize.setPartial,
        Recognize.setRecogChannel]

/-- C30. The operation that an accepted RECOGNIZE request registers signals,
through `Recognize::sendComplete(text)`, one completion message for its channel
whose text is the voice id, a bar and `text` (a text that is never empty, so the
message never carries a null body) and whose cause is partial-match when the
body of the RECOGNIZE request was exactly `builtin:partial` and success
otherwise.  The worker, processing a completion message for a channel with an
active request (the protocol layer supplying the event and its headers), sends
one RECOGNITION-COMPLETE event with the cause of the message; with cause success
the event has request state complete and the channel's registry entry is
deleted; with any other cause the event has request state in-progress and the
registry is unchanged. -/
theorem completion_message_cause_and_body (env : RecogEnv) (reg reg2 : Registry TencentRecognize)
    (channel channel2 : demo_recog_channel_t) (request request2 : mrcp_message_t)
    (text : String) (demo_msg : demo_recog_msg_t)
    (hd : env.descriptor = true) (hv : Recognize.GetVoiceId reg channel.channel = "")
    (ht : TYPE_TENCENT = env.ini.get "generic" "type") (hs : 0 ≤ env.startRet)
    (hr : channel2.recog_request = some request2)
    (he : env.pl.event_created = true) (hh : env.pl.resource_header_prepared = true)
    (hg : env.pl.generic_header_prepared = true) :
    (∃ op, Recognize.GetRecognize (demo_recog_channel_recognize env reg channel request).registry
        env.a_uuid.to_string = some op ∧
      op.mVoiceId = env.a_uuid.to_string ∧
      Recognize.sendComplete op text =
        some { type := .DEMO_RECOG_MSG_COMPLETE, channel := channel.channel, request := none,
               cause := if request.body = "builtin:partial" then
                          .RECOGNIZER_COMPLETION_CAUSE_PARTIAL_MATCH
                        else .RECOGNIZER_COMPLETION_CAUSE_SUCCESS,
               data := some (env.a_uuid.to_string ++ "|" ++ text) } ∧
      env.a_uuid.to_string ++ "|" ++ text ≠ "") ∧
    (sendComplete env.pl reg2 channel2 demo_msg).sent =
      [recognitionCompletion request2 demo_msg.cause (demo_msg.data.getD "")] ∧
    (recognitionCompletion request2 demo_msg.cause (demo_msg.data.getD "")).completion_cause =
      some demo_msg.cause ∧
    (demo_msg.cause = .RECOGNIZER_COMPLETION_CAUSE_SUCCESS →
      (recognitionCompletion request2 demo_msg.cause (demo_msg.data.getD "")).request_state =
        .MRCP_REQUEST_STATE_COMPLETE ∧
      (sendComplete env.pl reg2 channel2 demo_msg).registry =
        (Recognize.Del reg2 channel2.channel).registry ∧
      Recognize.GetVoiceId (sendComplete env.pl reg2 channel2 demo_msg).registry
        channel2.channel = "") ∧
    (demo_msg.cause ≠ .RECOGNIZER_COMPLETION_CAUSE_SUCCESS →
      (recognitionCompletion request2 demo_msg.cause (demo_msg.data.getD "")).request_state =
        .MRCP_REQUEST_STATE_INPROGRESS ∧
      (sendComplete env.pl reg2 channel2 demo_msg).registry = reg2 ∧
      (sendComplete env.pl reg2 channel2 demo_msg).stopped = []) := by
  refine ⟨?_, worker_sendComplete_active env.pl reg2 channel2 request2 demo_msg hr he hh hg, rfl,
    fun hc => ?_, fun hc => ?_⟩
  · obtain ⟨op, h1, h2, h3, h4⟩ := recognize_accepted_operation env reg channel request hd hv ht hs
    have hne := bar_text_ne_empty env.a_uuid.to_string text
    refine ⟨op, h1, h2, ?_, hne⟩
    by_cases hb : request.body = "builtin:partial"
    · simp [Recognize.sendComplete, h2, h3, h4, hb, hne]
    · simp [Recognize.sendComplete, h2, h3, h4, hb, hne]
  · obtain ⟨h1, _, _⟩ := sendComplete_success_state env.pl reg2 channel2 demo_msg request2 hr he hc
    refine ⟨by simp [recognitionCompletion, hc], h1, ?_⟩
    rw [h1]
    exact Registry.GetVoiceId_Del _ _ _
  · obtain ⟨h1, h2, _⟩ := sendComplete_other_state env.pl reg2 channel2 demo_msg hc
    exact ⟨by simp [recognitionCompletion, hc], h1, h2⟩

/-- C30 at an accepted RECOGNIZE request with body `builtin:partial` on `ch1`:
the registered operation completes the text `hello` with cause partial-match. -/
theorem completion_message_cause_and_body_witness :
    (Recognize.GetRecognize demoPartialStep.registry (demoEnv [1]).a_uuid.to_string).bind
      (fun op => Recognize.sendComplete op "hello") = some demoPartialMsg := by
  obtain ⟨⟨op, h1, _, h3, _⟩, _⟩ := completion_message_cause_and_body (demoEnv [1])
    Registry.empty demoRecogRegistry (demo_recog_engine_channel_create "ch1") demoRecogChannel
    (demoRequest .RECOGNIZER_RECOGNIZE 1 "builtin:partial")
    (demoRequest .RECOGNIZER_RECOGNIZE 1 "") "hello" demoPartialMsg
    rfl (by decide) (by decide) (by decide) rfl rfl rfl rfl
  have h1x : Recognize.GetRecognize demoPartialStep.registry (demoEnv [1]).a_uuid.to_string =
      some op := h1
  rw [h1x, Option.some_bind, h3]
  rfl

end MrcpMod
